import Mathlib

/-! FluxAman portfolio server: a shallow embedding

The development follows `src/server.js` (database-backed server) and
`src/server-old.js` (flat JSON file server).

JavaScript strings are sequences of UTF-16 code units; they are modelled as
lists of natural numbers (`JSStr`).  Regular expressions are run by a small
backtracking matcher that follows the ECMAScript matching rules for the
constructs the source uses: literals, `.`, `\w`, negated classes, greedy `*`
over a single-character class, ordered alternation, capture groups and `^`.

Conventions of the embedding:

* a record field or request field that is `undefined` (absent from the JSON text)
  is `none`; ids are integers and the `read` flag is a boolean, as every route
  writes them;
* a route handler is a function of what it reads (the collection file or table,
  the request) and of what the environment decides for it (the clock, whether a
  file write or a database call succeeds); it returns the response and what it
  leaves behind;
* `parseInt(req.params.id)` is taken as already evaluated: an integer, or `none`
  for `NaN`.
-/

namespace FluxAman

/-! ## JavaScript strings -/

/-- A JavaScript string: its UTF-16 code units, in order. -/
abbrev JSStr := List Nat

/-- The UTF-16 code units of one Unicode scalar value. -/
def utf16Units (c : Char) : List Nat :=
  if c.toNat < 0x10000 then [c.toNat]
  else [0xD800 + (c.toNat - 0x10000) / 0x400, 0xDC00 + (c.toNat - 0x10000) % 0x400]

/-- The JavaScript string written by a string literal. -/
def js (s : String) : JSStr :=
  s.toList.foldr (fun ch acc => utf16Units ch ++ acc) []

/-- Errors a JavaScript evaluation can throw. -/
inductive JSError where
  | typeError
  | fsError
  deriving DecidableEq, Repr

deriving instance DecidableEq for Except

/-! ## Regular expressions -/

/-- Line terminators: the code units `.` never matches (no `s` flag). -/
def isLineTerminator (c : Nat) : Bool :=
  c == 0x0A || c == 0x0D || c == 0x2028 || c == 0x2029

/-- The class `\w`: `[A-Za-z0-9_]`. -/
def isWordChar (c : Nat) : Bool :=
  (48 ≤ c && c ≤ 57) || (65 ≤ c && c ≤ 90) || c == 95 || (97 ≤ c && c ≤ 122)

/-- Single-character matchers. -/
inductive CharClass where
  | lit (c : Nat)
  | dot
  | word
  | noneOf (cs : List Nat)
  deriving DecidableEq, Repr

/-- Whether a code unit belongs to a class. -/
def CharClass.test : CharClass → Nat → Bool
  | .lit c, x => x == c
  | .dot, x => !isLineTerminator x
  | .word, x => isWordChar x
  | .noneOf cs, x => !cs.contains x

/-- Regular expressions (the fragment used by the servers). -/
inductive Regex where
  | empty
  | bol
  | atom (a : CharClass)
  | star (a : CharClass)
  | seq (r1 r2 : Regex)
  | alt (r1 r2 : Regex)
  | group (n : Nat) (r : Regex)
  deriving Repr

/-- Capture ranges: group number to (start index, end index). -/
abbrev Caps := Nat → Option (Nat × Nat)

/-- Record the range of a group. -/
def Caps.set (c : Caps) (n : Nat) (v : Nat × Nat) : Caps :=
  fun m => if m = n then some v else c m

/-- A matcher continuation: index reached, rest of the input, captures. -/
abbrev Cont := Nat → JSStr → Caps → Option Caps

/-- Greedy `a*`: take one more unit when the class accepts it and the rest of
the pattern then succeeds, otherwise continue from here. -/
def starLoop (a : CharClass) (k : Cont) : Nat → JSStr → Caps → Option Caps
  | i, [], c => k i [] c
  | i, x :: xs, c =>
    if a.test x then
      match starLoop a k (i + 1) xs c with
      | some r => some r
      | none => k i (x :: xs) c
    else k i (x :: xs) c

/-- The backtracking matcher, in continuation-passing style. -/
def Regex.run : Regex → Cont → Nat → JSStr → Caps → Option Caps
  | .empty, k, i, s, c => k i s c
  | .bol, k, i, s, c => if i = 0 then k i s c else none
  | .atom a, k, i, s, c =>
    match s with
    | [] => none
    | x :: xs => if a.test x then k (i + 1) xs c else none
  | .star a, k, i, s, c => starLoop a k i s c
  | .seq r1 r2, k, i, s, c => r1.run (r2.run k) i s c
  | .alt r1 r2, k, i, s, c =>
    match r1.run k i s c with
    | some r => some r
    | none => r2.run k i s c
  | .group n r, k, i, s, c => r.run (fun j s1 c1 => k j s1 (c1.set n (i, j))) i s c

/-- The literal string `l` as a pattern. -/
def Regex.lits : JSStr → Regex
  | [] => .empty
  | x :: xs => .seq (.atom (.lit x)) (Regex.lits xs)

/-- One attempt per start index, left to right (`RegExp.prototype.exec`
without the `g` and `y` flags). -/
def execFrom (r : Regex) : Nat → JSStr → Option Caps
  | i, [] => r.run (fun _ _ c => some c) i [] (fun _ => none)
  | i, x :: xs =>
    match r.run (fun _ _ c => some c) i (x :: xs) (fun _ => none) with
    | some c => some c
    | none => execFrom r (i + 1) xs

/-- The result of `str.match(r)` for a regular expression without flags: the capture
ranges of the first match, or `none` for `null`. -/
def jsMatch (str : JSStr) (r : Regex) : Option Caps :=
  execFrom r 0 str

/-- Element `n` of the match array: the captured substring, `none` when the group
did not take part (`undefined`). -/
def matchGroup (str : JSStr) (c : Caps) (n : Nat) : Option JSStr :=
  match c n with
  | some (a, b) => some ((str.drop a).take (b - a))
  | none => none

/-! ## extractYouTubeId (server.js 118-122, server-old.js 172-176) -/

/-- The alternation `youtu.be\/|v\/|u\/\w\/|embed\/|watch\?v=|\&v=`. -/
def markerRe : Regex :=
  .alt (.seq (Regex.lits (js "youtu")) (.seq (.atom .dot) (Regex.lits (js "be/"))))
  (.alt (Regex.lits (js "v/"))
  (.alt (.seq (Regex.lits (js "u/")) (.seq (.atom .word) (Regex.lits (js "/"))))
  (.alt (Regex.lits (js "embed/"))
  (.alt (Regex.lits (js "watch?v="))
        (Regex.lits (js "&v="))))))

/-- The class `[^#\&?]`. -/
def idClass : CharClass := .noneOf (js "#&?")

/-- The pattern `/^.*(youtu.be\/|v\/|u\/\w\/|embed\/|watch\?v=|\&v=)([^#\&?]*).*/`. -/
def regExp : Regex :=
  .seq .bol (.seq (.star .dot) (.seq (.group 1 markerRe)
    (.seq (.group 2 (.star idClass)) (.star .dot))))

/-- The function `extractYouTubeId(url)`; `url = none` is `undefined`, on which
`url.match` throws, and so does `match[2].length` on a group that is `undefined`. -/
def extractYouTubeId (url : Option JSStr) : Except JSError (Option JSStr) :=
  match url with
  | none => .error .typeError
  | some u =>
    match jsMatch u regExp with
    | none => .ok none
    | some m =>
      match matchGroup u m 2 with
      | none => .error .typeError
      | some g => if g.length = 11 then .ok (some g) else .ok none

/-! ## Reading the pattern as a scan -/

/-- Remove the literal `p` from the front of `s`, if it is there. -/
def stripPre : JSStr → JSStr → Option JSStr
  | [], s => some s
  | _ :: _, [] => none
  | a :: p, x :: s => if x == a then stripPre p s else none

/-- The alternative `youtu.be\/` at the head of `s`: length and text after it. -/
def altYoutuBe (s : JSStr) : Option (Nat × JSStr) :=
  match stripPre (js "youtu") s with
  | some (x :: xs) =>
    if CharClass.dot.test x then
      match stripPre (js "be/") xs with
      | some t => some (9, t)
      | none => none
    else none
  | _ => none

/-- The alternative `u\/\w\/` at the head of `s`: length and text after it. -/
def altUser (s : JSStr) : Option (Nat × JSStr) :=
  match stripPre (js "u/") s with
  | some (x :: xs) =>
    if CharClass.word.test x then
      match stripPre (js "/") xs with
      | some t => some (4, t)
      | none => none
    else none
  | _ => none

/-- A literal alternative at the head of `s`: length and text after it. -/
def altLit (p : JSStr) (s : JSStr) : Option (Nat × JSStr) :=
  match stripPre p s with
  | some t => some (p.length, t)
  | none => none

/-- The first alternative of the marker group that matches at the head of `s`: its
length and the text after it. -/
def afterMarker (s : JSStr) : Option (Nat × JSStr) :=
  (altYoutuBe s).orElse fun _ =>
  (altLit (js "v/") s).orElse fun _ =>
  (altUser s).orElse fun _ =>
  (altLit (js "embed/") s).orElse fun _ =>
  (altLit (js "watch?v=") s).orElse fun _ =>
  altLit (js "&v=") s

/-- The marker with the right-most start inside the first line of `s`: start
offset, marker length, and the text after the marker. -/
def lastMarker : JSStr → Option (Nat × Nat × JSStr)
  | [] => none
  | x :: xs =>
    if CharClass.dot.test x then
      match lastMarker xs with
      | some (p, n, t) => some (p + 1, n, t)
      | none =>
        match afterMarker (x :: xs) with
        | some (n, t) => some (0, n, t)
        | none => none
    else none

/-- What `extractYouTubeId` computes, read off the scan. -/
def scanId (u : JSStr) : Option JSStr :=
  match lastMarker u with
  | none => none
  | some (_, _, t) =>
    if (t.takeWhile idClass.test).length = 11 then some (t.takeWhile idClass.test) else none

/-- The continuation reached after the marker group always succeeds on the pattern. -/
def Total (k : Cont) : Prop := ∀ j t c, ∃ r, k j t c = some r

/-- The final continuation of `exec`: report the captures. -/
def K0 : Cont := fun _ _ c => some c

/-- Length of the run `[^#\&?]*` at the head of `t`. -/
def runLen (t : JSStr) : Nat := (t.takeWhile idClass.test).length

/-- The YouTube id alphabet `[A-Za-z0-9_-]`. -/
def isIdChar (x : Nat) : Bool := isWordChar x || x == 45

/-! ## Records and requests -/

/-- The value of `a || d` for a field that is a string or `undefined` and a string
default: the default replaces `undefined` and the empty string. -/
def orDefault (a : Option JSStr) (d : JSStr) : JSStr :=
  match a with
  | some s => if s = [] then d else s
  | none => d

/-- Truthiness of a value that is a string, `null` or `undefined`. -/
def truthy (a : Option JSStr) : Bool :=
  match a with
  | some s => !s.isEmpty
  | none => false

/-- A message record. A field that is `undefined` (left out of the JSON text) is
`none`; `read` is `false` at creation and only ever negated. -/
structure Message where
  id : Int
  name : Option JSStr
  email : Option JSStr
  message : Option JSStr
  timestamp : Option JSStr
  read : Bool
  deriving DecidableEq, Repr

/-- A project record. -/
structure Project where
  id : Int
  title : Option JSStr
  description : Option JSStr
  image : Option JSStr
  projectUrl : Option JSStr
  createdAt : Option JSStr
  order : Option Int
  deriving DecidableEq, Repr

/-- A video record; `videoId = none` is `null`. -/
structure Video where
  id : Int
  title : Option JSStr
  description : Option JSStr
  videoUrl : Option JSStr
  videoId : Option JSStr
  thumbnail : Option JSStr
  createdAt : Option JSStr
  order : Option Int
  deriving DecidableEq, Repr

/-- A request value that is text or a whole number: the text of a multipart field or
of a JSON string, or a JSON number without a fraction. -/
inductive Scalar where
  | str (s : JSStr)
  | num (n : Int)
  deriving DecidableEq, Repr

/-- Truthiness of a text or a number: `''` and `0` are falsy. -/
def Scalar.truthy : Scalar → Bool
  | .str s => !s.isEmpty
  | .num n => n != 0

/-- The value of `a || d` for a field that is text, a number or `undefined`, and a
number default. -/
def orNumber (a : Option Scalar) (d : Int) : Scalar :=
  match a with
  | some v => if v.truthy then v else .num d
  | none => .num d

/-- A hero photo record. `server.js` writes `positionX` and `positionY`;
`server-old.js` writes neither (they are `undefined`, `none`). -/
structure HeroPhoto where
  id : Int
  image : Option JSStr
  alt : Option JSStr
  positionX : Option Scalar
  positionY : Option Scalar
  createdAt : Option JSStr
  order : Option Int
  deriving DecidableEq, Repr

/-- The resume record of `server.js`. -/
structure Resume where
  id : Int
  path : Option JSStr
  filename : Option JSStr
  deriving DecidableEq, Repr

/-- The body of a message submission: `name`, `email`, `message`. -/
structure MessageBody where
  name : Option JSStr
  email : Option JSStr
  message : Option JSStr
  deriving DecidableEq, Repr

/-- The body of a project request: `title`, `description`, `projectUrl`. -/
structure ProjectBody where
  title : Option JSStr
  description : Option JSStr
  projectUrl : Option JSStr
  deriving DecidableEq, Repr

/-- The body of a video request: `title`, `description`, `videoUrl`. -/
structure VideoBody where
  title : Option JSStr
  description : Option JSStr
  videoUrl : Option JSStr
  deriving DecidableEq, Repr

/-- The body of a hero photo request: `alt`, `positionX`, `positionY` (`server-old.js`
reads `alt` only). -/
structure HeroBody where
  alt : Option JSStr
  positionX : Option Scalar
  positionY : Option Scalar
  deriving DecidableEq, Repr

/-- The file an upload middleware stored for the request (`req.file`). -/
structure UploadedFile where
  filename : JSStr
  originalname : JSStr
  mimetype : JSStr
  deriving DecidableEq, Repr

/-- The text of a response message: a literal of the source, or the text of a caught
error (`err.message`), which the source passes through. -/
inductive Msg where
  | text (s : JSStr)
  | ofError (e : JSError)
  | ofBackend (e : JSStr)
  deriving DecidableEq, Repr

/-- A JSON response: status, the `success` and `message` members, and the `data`
member when the route sends one. -/
structure Response (α : Type) where
  status : Nat
  success : Bool
  message : Msg
  data : Option α
  deriving DecidableEq, Repr

/-- The thumbnail expression: the template string when `videoId` is truthy, `''` otherwise. -/
def thumbnailFor (videoId : Option JSStr) : JSStr :=
  if truthy videoId then
    js "https://img.youtube.com/vi/" ++ (videoId.getD []) ++ js "/maxresdefault.jpg"
  else []

/-! ## The flat-file server (server-old.js)

`server-old.js` branches on `isMongoConnected`, an identifier the file never declares;
it is the flag of the deployment. The definitions below are the branch taken when
the flag is false (flat-file mode). -/

/-- A collection file on disk. -/
inductive JsonFile (α : Type) where
  | absent
  | unreadable
  | content (records : List α)
  deriving DecidableEq, Repr

/-- The body shared by the four read helpers: the parsed array, `[]` when the file is
absent or reading throws. -/
def readFromFile {α : Type} (f : JsonFile α) : List α :=
  match f with
  | .content records => records
  | .absent => []
  | .unreadable => []

/-- The body shared by the four write helpers: `true` and the new file when
`fs.writeFileSync` succeeds, `false` (the error is caught and logged) and the old file
when it throws. -/
def writeToFile {α : Type} (writeOk : Bool) (f : JsonFile α) (records : List α) :
    Bool × JsonFile α :=
  if writeOk then (true, .content records) else (false, f)

/-- The helper `readMessagesFromFile` (server-old.js 76-87). -/
abbrev readMessagesFromFile (f : JsonFile Message) : List Message := readFromFile f

/-- The helper `writeMessagesToFile` (server-old.js 89-97). -/
abbrev writeMessagesToFile (writeOk : Bool) (f : JsonFile Message) (messages : List Message) :
    Bool × JsonFile Message := writeToFile writeOk f messages

/-- The helper `readProjectsFromFile` (server-old.js 100-111, server.js 22-33). -/
abbrev readProjectsFromFile (f : JsonFile Project) : List Project := readFromFile f

/-- The helper `writeProjectsToFile` (server-old.js 113-121). -/
abbrev writeProjectsToFile (writeOk : Bool) (f : JsonFile Project) (projects : List Project) :
    Bool × JsonFile Project := writeToFile writeOk f projects

/-- The helper `readVideosFromFile` (server-old.js 124-135, server.js 35-46). -/
abbrev readVideosFromFile (f : JsonFile Video) : List Video := readFromFile f

/-- The helper `writeVideosToFile` (server-old.js 137-145). -/
abbrev writeVideosToFile (writeOk : Bool) (f : JsonFile Video) (videos : List Video) :
    Bool × JsonFile Video := writeToFile writeOk f videos

/-- The helper `readHeroPhotosFromFile` (server-old.js 148-159). -/
abbrev readHeroPhotosFromFile (f : JsonFile HeroPhoto) : List HeroPhoto := readFromFile f

/-- The helper `writeHeroPhotosToFile` (server-old.js 161-169). -/
abbrev writeHeroPhotosToFile (writeOk : Bool) (f : JsonFile HeroPhoto)
    (photos : List HeroPhoto) : Bool × JsonFile HeroPhoto := writeToFile writeOk f photos

/-- What the environment contributes to one request. -/
structure Env where
  now : Int
  nowISO : JSStr
  nowLocale : JSStr
  writeOk : Bool
  oldImageExists : Bool
  unlinkOk : Bool
  deriving DecidableEq, Repr

/-- What a flat-file route leaves behind: the response, the collection file, the
arrays handed to the write helper, and the upload paths it removed from disk. -/
structure Outcome (α : Type) where
  response : Response α
  file : JsonFile α
  writes : List (List α)
  unlinked : List JSStr
  deriving DecidableEq, Repr

/-- Apply `f` to the first element for which `p` holds: the array after the element
returned by `find(p)` is changed in place, or after `arr[i] = f(arr[i])` with
`i = arr.findIndex(p)`. Below, `arr.find? p` is that element, `none` when `find`
returns `undefined` and `findIndex` returns `-1`. -/
def modifyFirst {α : Type} (p : α → Bool) (f : α → α) : List α → List α
  | [] => []
  | x :: xs => if p x then f x :: xs else x :: modifyFirst p f xs

/-- The method `arr.sort(cmp)` for a comparator that returns a number: a stable sort
that puts `a` before `b` when `cmp(a, b)` is negative and keeps their order when it
is zero. -/
def jsSort {α : Type} (cmp : α → α → Int) (l : List α) : List α :=
  l.insertionSort (fun a b => cmp a b ≤ 0)

/-- The value of `order || 0` for an `order` that is a whole number or `undefined`. -/
def orZero (order : Option Int) : Int :=
  match order with
  | some n => if n = 0 then 0 else n
  | none => 0

/-- The comparator `(a.order || 0) - (b.order || 0) || b.id - a.id`, on the order and
id of `a` and of `b`. -/
def orderThenId (orderA : Option Int) (idA : Int) (orderB : Option Int) (idB : Int) : Int :=
  if orZero orderA - orZero orderB ≠ 0 then orZero orderA - orZero orderB else idB - idA

/-- The response `res.json(array)`: status 200 unless set, and the array. -/
structure ArrayResponse (α : Type) where
  status : Nat
  body : List α
  deriving DecidableEq, Repr

/-- The test `r.id === id` against the result of `parseInt(req.params.id)`; `none`
is `NaN`, which equals nothing. -/
def idIs (id : Option Int) (rid : Int) : Bool :=
  match id with
  | some k => rid == k
  | none => false

/-- The assignment `message.read = !message.read`. -/
def toggleRead (m : Message) : Message := { m with read := !m.read }

namespace Old

/-- The object `newMessageData` of `POST /api/messages`. -/
def newMessageData (env : Env) (body : MessageBody) : Message :=
  { id := env.now, name := body.name, email := body.email, message := body.message,
    timestamp := some env.nowLocale, read := false }

/-- The route `POST /api/messages` (server-old.js 208-232). -/
def postMessage (env : Env) (file : JsonFile Message) (body : MessageBody) :
    Outcome Message :=
  let messages := readMessagesFromFile file ++ [newMessageData env body]
  { response := { status := 201, success := true, message := .text (js "Message saved"),
                  data := none },
    file := (writeMessagesToFile env.writeOk file messages).2,
    writes := [messages],
    unlinked := [] }

/-- The route `GET /api/messages` behind `authenticateAdmin` (server-old.js 192-205):
the records sorted with the comparator `b.id - a.id` (a stable sort). -/
def getMessages (file : JsonFile Message) : List Message :=
  jsSort (fun a b => b.id - a.id) (readMessagesFromFile file)

/-- The route `PATCH /api/messages/:id/read` behind `authenticateAdmin`
(server-old.js 254-281); `messageId` is `parseInt(req.params.id)`. -/
def patchMessageRead (env : Env) (file : JsonFile Message) (messageId : Option Int) :
    Outcome Message :=
  let messages := readMessagesFromFile file
  match messages.find? (fun m => idIs messageId m.id) with
  | some _ =>
    let messages1 := modifyFirst (fun m => idIs messageId m.id) toggleRead messages
    { response := { status := 200, success := true, message := .text (js "Status updated"),
                    data := none },
      file := (writeMessagesToFile env.writeOk file messages1).2,
      writes := [messages1],
      unlinked := [] }
  | none =>
    { response := { status := 404, success := false,
                    message := .text (js "Message not found"), data := none },
      file := file,
      writes := [],
      unlinked := [] }

/-- The response of a `catch (err)` block: status 500 with `err.message`; nothing was
written. -/
def caught {α : Type} (file : JsonFile α) (e : JSError) : Outcome α :=
  { response := { status := 500, success := false, message := .ofError e, data := none },
    file := file, writes := [], unlinked := [] }

/-- The 404 response of an update route. -/
def notFound {α : Type} (file : JsonFile α) (what : JSStr) : Outcome α :=
  { response := { status := 404, success := false, message := .text what, data := none },
    file := file, writes := [], unlinked := [] }

/-- The record `{ ...project, ...updateData }` of `PUT /api/projects/:id`. -/
def mergeProject (old : Project) (body : ProjectBody) (reqFile : Option UploadedFile) :
    Project :=
  { old with
    title := body.title, description := body.description, projectUrl := body.projectUrl,
    image := match reqFile with
      | some f => some (js "/uploads/projects/" ++ f.filename)
      | none => old.image }

/-- The route `PUT /api/projects/:id` behind `authenticateAdmin` and the upload middleware
(server-old.js 333-386); `projectId` is `parseInt(req.params.id)`. -/
def putProject (env : Env) (file : JsonFile Project) (projectId : Option Int)
    (body : ProjectBody) (reqFile : Option UploadedFile) : Outcome Project :=
  let projects := readProjectsFromFile file
  match projects.find? (fun p => idIs projectId p.id) with
  | some old =>
    let removes := reqFile.isSome && truthy old.image && env.oldImageExists
    if removes && !env.unlinkOk then caught file .fsError
    else
      let projects1 := modifyFirst (fun p => idIs projectId p.id)
        (fun p => mergeProject p body reqFile) projects
      { response := { status := 200, success := true,
                      message := .text (js "Project updated"),
                      data := some (mergeProject old body reqFile) },
        file := (writeProjectsToFile env.writeOk file projects1).2,
        writes := [projects1],
        unlinked := if removes then [old.image.getD []] else [] }
  | none => notFound file (js "Project not found")

/-- The object `newVideoData` of `POST /api/videos`, once `extractYouTubeId` returned. -/
def newVideoData (env : Env) (body : VideoBody) (videoId : Option JSStr) : Video :=
  { id := env.now, title := body.title, description := body.description,
    videoUrl := body.videoUrl, videoId := videoId, thumbnail := some (thumbnailFor videoId),
    createdAt := some env.nowISO, order := some 0 }

/-- The route `POST /api/videos` behind `authenticateAdmin` (server-old.js 441-473). -/
def postVideo (env : Env) (file : JsonFile Video) (body : VideoBody) : Outcome Video :=
  match extractYouTubeId body.videoUrl with
  | .error e => caught file e
  | .ok videoId =>
    let videos := readVideosFromFile file ++ [newVideoData env body videoId]
    { response := { status := 201, success := true, message := .text (js "Video added"),
                    data := some (newVideoData env body videoId) },
      file := (writeVideosToFile env.writeOk file videos).2,
      writes := [videos],
      unlinked := [] }

/-- The record `{ ...video, ...updateData }` of `PUT /api/videos/:id`. -/
def mergeVideo (old : Video) (body : VideoBody) (videoIdYT : Option JSStr) : Video :=
  { old with
    title := body.title, description := body.description, videoUrl := body.videoUrl,
    videoId := videoIdYT, thumbnail := some (thumbnailFor videoIdYT) }

/-- The route `PUT /api/videos/:id` behind `authenticateAdmin` (server-old.js 476-515); `videoId`
is `parseInt(req.params.id)`. -/
def putVideo (env : Env) (file : JsonFile Video) (videoId : Option Int) (body : VideoBody) :
    Outcome Video :=
  match extractYouTubeId body.videoUrl with
  | .error e => caught file e
  | .ok videoIdYT =>
    let videos := readVideosFromFile file
    match videos.find? (fun v => idIs videoId v.id) with
    | some old =>
      let videos1 := modifyFirst (fun v => idIs videoId v.id)
        (fun v => mergeVideo v body videoIdYT) videos
      { response := { status := 200, success := true,
                      message := .text (js "Video updated"),
                      data := some (mergeVideo old body videoIdYT) },
        file := (writeVideosToFile env.writeOk file videos1).2,
        writes := [videos1],
        unlinked := [] }
    | none => notFound file (js "Video not found")

/-- The record `{ ...photo, ...updateData }` of `PUT /api/hero-photos/:id`. -/
def mergeHeroPhoto (old : HeroPhoto) (body : HeroBody) (reqFile : Option UploadedFile) :
    HeroPhoto :=
  { old with
    alt := some (orDefault body.alt (js "Hero Photo")),
    image := match reqFile with
      | some f => some (js "/uploads/hero/" ++ f.filename)
      | none => old.image }

/-- The route `PUT /api/hero-photos/:id` behind `authenticateAdmin` and the upload middleware
(server-old.js 585-636); `photoId` is `parseInt(req.params.id)`. -/
def putHeroPhoto (env : Env) (file : JsonFile HeroPhoto) (photoId : Option Int)
    (body : HeroBody) (reqFile : Option UploadedFile) : Outcome HeroPhoto :=
  let photos := readHeroPhotosFromFile file
  match photos.find? (fun p => idIs photoId p.id) with
  | some old =>
    let removes := reqFile.isSome && truthy old.image && env.oldImageExists
    if removes && !env.unlinkOk then caught file .fsError
    else
      let photos1 := modifyFirst (fun p => idIs photoId p.id)
        (fun p => mergeHeroPhoto p body reqFile) photos
      { response := { status := 200, success := true,
                      message := .text (js "Hero photo updated"),
                      data := some (mergeHeroPhoto old body reqFile) },
        file := (writeHeroPhotosToFile env.writeOk file photos1).2,
        writes := [photos1],
        unlinked := if removes then [old.image.getD []] else [] }
  | none => notFound file (js "Hero photo not found")

/-- The route `GET /api/messages` with its status. -/
def listMessages (file : JsonFile Message) : ArrayResponse Message :=
  { status := 200, body := getMessages file }

/-- The route `GET /api/projects` (server-old.js 286-299). -/
def listProjects (file : JsonFile Project) : ArrayResponse Project :=
  { status := 200,
    body := jsSort (fun a b => orderThenId a.order a.id b.order b.id)
      (readProjectsFromFile file) }

/-- The route `GET /api/videos` (server-old.js 425-438). -/
def listVideos (file : JsonFile Video) : ArrayResponse Video :=
  { status := 200,
    body := jsSort (fun a b => orderThenId a.order a.id b.order b.id)
      (readVideosFromFile file) }

/-- The route `GET /api/hero-photos` (server-old.js 540-553). -/
def listHeroPhotos (file : JsonFile HeroPhoto) : ArrayResponse HeroPhoto :=
  { status := 200,
    body := jsSort (fun a b => orderThenId a.order a.id b.order b.id)
      (readHeroPhotosFromFile file) }

/-- The object `newProjectData` of `POST /api/projects`. -/
def newProjectData (env : Env) (body : ProjectBody) (reqFile : Option UploadedFile) :
    Project :=
  { id := env.now, title := body.title, description := body.description,
    image := some (match reqFile with
      | some f => js "/uploads/projects/" ++ f.filename
      | none => []),
    projectUrl := body.projectUrl, createdAt := some env.nowISO, order := some 0 }

/-- The route `POST /api/projects` behind `authenticateAdmin` and the upload middleware
(server-old.js 302-330). -/
def postProject (env : Env) (file : JsonFile Project) (body : ProjectBody)
    (reqFile : Option UploadedFile) : Outcome Project :=
  let projects := readProjectsFromFile file ++ [newProjectData env body reqFile]
  { response := { status := 201, success := true, message := .text (js "Project created"),
                  data := some (newProjectData env body reqFile) },
    file := (writeProjectsToFile env.writeOk file projects).2,
    writes := [projects],
    unlinked := [] }

/-- The object `newPhotoData` of `POST /api/hero-photos`. -/
def newPhotoData (env : Env) (body : HeroBody) (reqFile : Option UploadedFile) : HeroPhoto :=
  { id := env.now,
    image := some (match reqFile with
      | some f => js "/uploads/hero/" ++ f.filename
      | none => []),
    alt := some (orDefault body.alt (js "Hero Photo")),
    positionX := none, positionY := none,
    createdAt := some env.nowISO, order := some 0 }

/-- The route `POST /api/hero-photos` behind `authenticateAdmin` and the upload
middleware (server-old.js 556-582). -/
def postHeroPhoto (env : Env) (file : JsonFile HeroPhoto) (body : HeroBody)
    (reqFile : Option UploadedFile) : Outcome HeroPhoto :=
  let photos := readHeroPhotosFromFile file ++ [newPhotoData env body reqFile]
  { response := { status := 201, success := true, message := .text (js "Hero photo added"),
                  data := some (newPhotoData env body reqFile) },
    file := (writeHeroPhotosToFile env.writeOk file photos).2,
    writes := [photos],
    unlinked := [] }

/-- The route `DELETE /api/messages/:id` behind `authenticateAdmin`
(server-old.js 235-251); `messageId` is `parseInt(req.params.id)`. -/
def deleteMessage (env : Env) (file : JsonFile Message) (messageId : Option Int) :
    Outcome Message :=
  let messages := (readMessagesFromFile file).filter (fun m => !idIs messageId m.id)
  { response := { status := 200, success := true, message := .text (js "Message deleted"),
                  data := none },
    file := (writeMessagesToFile env.writeOk file messages).2,
    writes := [messages],
    unlinked := [] }

/-- The route `DELETE /api/projects/:id` behind `authenticateAdmin`
(server-old.js 389-419): the image of the record found is removed from disk first. -/
def deleteProject (env : Env) (file : JsonFile Project) (projectId : Option Int) :
    Outcome Project :=
  let projects := readProjectsFromFile file
  let image : Option JSStr :=
    match projects.find? (fun p => idIs projectId p.id) with
    | some project => if truthy project.image then project.image else none
    | none => none
  let removes := image.isSome && env.oldImageExists
  if removes && !env.unlinkOk then caught file .fsError
  else
    let projects1 := projects.filter (fun p => !idIs projectId p.id)
    { response := { status := 200, success := true,
                    message := .text (js "Project deleted"), data := none },
      file := (writeProjectsToFile env.writeOk file projects1).2,
      writes := [projects1],
      unlinked := if removes then [image.getD []] else [] }

/-- The route `DELETE /api/videos/:id` behind `authenticateAdmin`
(server-old.js 518-534). -/
def deleteVideo (env : Env) (file : JsonFile Video) (videoId : Option Int) : Outcome Video :=
  let videos := (readVideosFromFile file).filter (fun v => !idIs videoId v.id)
  { response := { status := 200, success := true, message := .text (js "Video deleted"),
                  data := none },
    file := (writeVideosToFile env.writeOk file videos).2,
    writes := [videos],
    unlinked := [] }

/-- The route `DELETE /api/hero-photos/:id` behind `authenticateAdmin`
(server-old.js 639-669): the image of the record found is removed from disk first. -/
def deleteHeroPhoto (env : Env) (file : JsonFile HeroPhoto) (photoId : Option Int) :
    Outcome HeroPhoto :=
  let photos := readHeroPhotosFromFile file
  let image : Option JSStr :=
    match photos.find? (fun p => idIs photoId p.id) with
    | some photo => if truthy photo.image then photo.image else none
    | none => none
  let removes := image.isSome && env.oldImageExists
  if removes && !env.unlinkOk then caught file .fsError
  else
    let photos1 := photos.filter (fun p => !idIs photoId p.id)
    { response := { status := 200, success := true,
                    message := .text (js "Hero photo deleted"), data := none },
      file := (writeHeroPhotosToFile env.writeOk file photos1).2,
      writes := [photos1],
      unlinked := if removes then [image.getD []] else [] }

end Old

/-! ## The database-backed server (server.js)

The tables live in a hosted database reached through a client library. A table is
modelled as the list of its rows; a call that the backend fails is an input of the
route (the error text, or a flag), and leaves the table as it was. Route parameters
reach the database as text; `id` below is the number the database compares with the
`id` column. -/

namespace Supa

/-- What a handler did with the request: it sent a response, or (an `async` handler
with no `try` block) it threw and sent none. -/
inductive Reply (α : Type) where
  | sent (r : Response α)
  | unhandled (e : JSError)
  deriving DecidableEq, Repr

/-- What a database route leaves behind: the reply and the table. -/
structure DbOutcome (α : Type) where
  reply : Reply α
  table : List α
  deriving DecidableEq, Repr

/-- The modifier `.single()`: the row when exactly one row is selected, otherwise
`data` is `null`. -/
def single {α : Type} (rows : List α) : Option α :=
  match rows with
  | [r] => some r
  | _ => none

/-- The rows a query with the filter `.eq('id', id)` selects. -/
def selectWhereId {α : Type} (key : α → Int) (id : Int) (table : List α) : List α :=
  table.filter (fun r => key r == id)

/-- The table after `.update(...)` with the filter `.eq('id', id)`: `g` is applied to
the rows with that id. -/
def updateWhereId {α : Type} (key : α → Int) (id : Int) (g : α → α) (table : List α) :
    List α :=
  table.map (fun r => if key r == id then g r else r)

/-- The row after `update({ read: b })`. -/
def setRead (b : Bool) (m : Message) : Message := { m with read := b }

/-- The route `POST /api/messages` (server.js 141-149). -/
def postMessage (now : Int) (insertErr : Option JSStr) (table : List Message)
    (body : MessageBody) : DbOutcome Message :=
  match insertErr with
  | some _ =>
    { reply := .sent { status := 500, success := false,
                       message := .text (js "Failed to save message"), data := none },
      table := table }
  | none =>
    { reply := .sent { status := 201, success := true,
                       message := .text (js "Message saved"), data := none },
      table := table ++ [{ id := now, name := body.name, email := body.email,
                           message := body.message, timestamp := none, read := false }] }

/-- The route `PATCH /api/messages/:id/read` behind `authenticateAdmin` (server.js 161-172):
the current row is fetched with `.single()`, then `read` is set to `!current.read`
on the rows with that id; `current.read` throws when `current` is `null`. -/
def patchMessageRead (selectOk : Bool) (updateErr : Option JSStr) (table : List Message)
    (id : Int) : DbOutcome Message :=
  let current := if selectOk then single (selectWhereId Message.id id table) else none
  match current with
  | none => { reply := .unhandled .typeError, table := table }
  | some cur =>
    match updateErr with
    | some e =>
      { reply := .sent { status := 500, success := false, message := .ofBackend e,
                         data := none },
        table := table }
    | none =>
      { reply := .sent { status := 200, success := true,
                         message := .text (js "Status updated"), data := none },
        table := updateWhereId Message.id id (setRead (!cur.read)) table }

/-- The row after `update(updateData)` of `PUT /api/projects/:id`: a member that is
`undefined` is left out of the request, so its column keeps its value. -/
def applyProjectUpdate (old : Project) (body : ProjectBody) (image : Option JSStr) : Project :=
  { old with
    title := body.title.orElse (fun _ => old.title),
    description := body.description.orElse (fun _ => old.description),
    projectUrl := body.projectUrl.orElse (fun _ => old.projectUrl),
    image := image.orElse (fun _ => old.image) }

/-- The route `PUT /api/projects/:id` behind `authenticateAdmin` and the upload middleware
(server.js 217-241). `uploaded` is what `uploadFileToSupabase` gives for `req.file`:
the public URL, or the error it throws. -/
def putProject (uploaded : Except JSStr JSStr) (updateErr : Option JSStr)
    (table : List Project) (id : Int) (body : ProjectBody) (reqFile : Option UploadedFile) :
    DbOutcome Project :=
  let failed : DbOutcome Project :=
    { reply := .sent { status := 500, success := false,
                       message := .text (js "Failed to update project"), data := none },
      table := table }
  let image : Except JSStr (Option JSStr) :=
    match reqFile with
    | some _ => uploaded.map some
    | none => .ok none
  match image with
  | .error _ => failed
  | .ok img =>
    match updateErr with
    | some _ => failed
    | none =>
      let data := (selectWhereId Project.id id table).map
        (fun p => applyProjectUpdate p body img)
      { reply := .sent { status := 200, success := true,
                         message := .text (js "Project updated"), data := data.head? },
        table := updateWhereId Project.id id (fun p => applyProjectUpdate p body img) table }

/-- The object `newVideo` of `POST /api/videos`, once `extractYouTubeId` returned. -/
def newVideo (now : Int) (body : VideoBody) (videoId : Option JSStr) : Video :=
  { id := now, title := some (orDefault body.title []),
    description := some (orDefault body.description []),
    videoUrl := body.videoUrl, videoId := videoId, thumbnail := some (thumbnailFor videoId),
    createdAt := none, order := some 0 }

/-- The route `POST /api/videos` behind `authenticateAdmin` (server.js 263-278). -/
def postVideo (now : Int) (insertErr : Option JSStr) (table : List Video) (body : VideoBody) :
    DbOutcome Video :=
  match extractYouTubeId body.videoUrl with
  | .error e => { reply := .unhandled e, table := table }
  | .ok videoId =>
    match insertErr with
    | some e =>
      { reply := .sent { status := 500, success := false, message := .ofBackend e,
                         data := none },
        table := table }
    | none =>
      { reply := .sent { status := 201, success := true, message := .text (js "Video added"),
                         data := some (newVideo now body videoId) },
        table := table ++ [newVideo now body videoId] }

/-- The row after `update(updateData)` of `PUT /api/videos/:id`. -/
def applyVideoUpdate (old : Video) (body : VideoBody) (videoId : Option JSStr) : Video :=
  { old with
    title := some (orDefault body.title []),
    description := some (orDefault body.description []),
    videoUrl := body.videoUrl.orElse (fun _ => old.videoUrl),
    videoId := videoId, thumbnail := some (thumbnailFor videoId) }

/-- The route `PUT /api/videos/:id` behind `authenticateAdmin` (server.js 280-293). -/
def putVideo (updateErr : Option JSStr) (table : List Video) (id : Int) (body : VideoBody) :
    DbOutcome Video :=
  match extractYouTubeId body.videoUrl with
  | .error e => { reply := .unhandled e, table := table }
  | .ok videoId =>
    match updateErr with
    | some e =>
      { reply := .sent { status := 500, success := false, message := .ofBackend e,
                         data := none },
        table := table }
    | none =>
      let data := (selectWhereId Video.id id table).map
        (fun v => applyVideoUpdate v body videoId)
      { reply := .sent { status := 200, success := true,
                         message := .text (js "Video updated"), data := data.head? },
        table := updateWhereId Video.id id (fun v => applyVideoUpdate v body videoId) table }

/-- What a select query gives back: `data` (`none` is `null`) and `error`. -/
structure QueryResult (α : Type) where
  data : Option (List α)
  error : Option JSStr
  deriving DecidableEq, Repr

/-- The route `GET /api/projects` (server.js 175-188): the rows of the query, or, when
`error || !data || data.length === 0`, the local JSON copy sorted with `b.id - a.id`. -/
def getProjects (result : QueryResult Project) (projectsFile : JsonFile Project) :
    ArrayResponse Project :=
  match result.error, result.data with
  | none, some (r :: rs) => { status := 200, body := r :: rs }
  | _, _ =>
    { status := 200,
      body := jsSort (fun a b => b.id - a.id) (readProjectsFromFile projectsFile) }

/-- The route `GET /api/videos` (server.js 251-261). -/
def getVideos (result : QueryResult Video) (videosFile : JsonFile Video) :
    ArrayResponse Video :=
  match result.error, result.data with
  | none, some (r :: rs) => { status := 200, body := r :: rs }
  | _, _ =>
    { status := 200,
      body := jsSort (fun a b => b.id - a.id) (readVideosFromFile videosFile) }

/-- The route `GET /api/hero-photos` (server.js 302-312). -/
def getHeroPhotos (result : QueryResult HeroPhoto) (heroPhotosFile : JsonFile HeroPhoto) :
    ArrayResponse HeroPhoto :=
  match result.error, result.data with
  | none, some (r :: rs) => { status := 200, body := r :: rs }
  | _, _ =>
    { status := 200,
      body := jsSort (fun a b => b.id - a.id) (readHeroPhotosFromFile heroPhotosFile) }

/-- The table after `.delete()` with the filter `.eq('id', id)`. -/
def deleteWhereId {α : Type} (key : α → Int) (id : Int) (table : List α) : List α :=
  table.filter (fun r => !(key r == id))

/-- The table after `.delete()` with the filter `.gt('id', 0)`. -/
def deleteWhereIdPositive {α : Type} (key : α → Int) (table : List α) : List α :=
  table.filter (fun r => !(decide (key r > 0)))

/-- The body shared by the routes `DELETE /api/messages/:id`, `/api/projects/:id`,
`/api/videos/:id` and `/api/hero-photos/:id` (server.js 151-159, 243-248, 295-299,
339-343): delete the rows with the id, 500 with the error text on an error,
otherwise the success message. -/
def deleteById {α : Type} (key : α → Int) (deleted : JSStr) (deleteErr : Option JSStr)
    (table : List α) (id : Int) : DbOutcome α :=
  match deleteErr with
  | some e =>
    { reply := .sent { status := 500, success := false, message := .ofBackend e,
                       data := none },
      table := table }
  | none =>
    { reply := .sent { status := 200, success := true, message := .text deleted,
                       data := none },
      table := deleteWhereId key id table }

/-- The route `DELETE /api/messages/:id` behind `authenticateAdmin` (server.js 151-159). -/
def deleteMessage (deleteErr : Option JSStr) (table : List Message) (id : Int) :
    DbOutcome Message :=
  deleteById Message.id (js "Message deleted") deleteErr table id

/-- The route `DELETE /api/projects/:id` behind `authenticateAdmin` (server.js 243-248). -/
def deleteProject (deleteErr : Option JSStr) (table : List Project) (id : Int) :
    DbOutcome Project :=
  deleteById Project.id (js "Project deleted") deleteErr table id

/-- The route `DELETE /api/videos/:id` behind `authenticateAdmin` (server.js 295-299). -/
def deleteVideo (deleteErr : Option JSStr) (table : List Video) (id : Int) :
    DbOutcome Video :=
  deleteById Video.id (js "Video deleted") deleteErr table id

/-- The route `DELETE /api/hero-photos/:id` behind `authenticateAdmin`
(server.js 339-343). -/
def deleteHeroPhoto (deleteErr : Option JSStr) (table : List HeroPhoto) (id : Int) :
    DbOutcome HeroPhoto :=
  deleteById HeroPhoto.id (js "Hero photo deleted") deleteErr table id

/-- The 500 response of a `catch` block that sends a fixed text. -/
def failed {α : Type} (text : JSStr) (table : List α) : DbOutcome α :=
  { reply := .sent { status := 500, success := false, message := .text text, data := none },
    table := table }

/-- The object `newProject` of `POST /api/projects`. -/
def newProject (now : Int) (body : ProjectBody) (imageUrl : JSStr) : Project :=
  { id := now, title := body.title, description := body.description,
    image := some imageUrl, projectUrl := body.projectUrl, createdAt := none,
    order := some 0 }

/-- The route `POST /api/projects` behind `authenticateAdmin` and the upload middleware
(server.js 190-215). `uploaded` is what `uploadFileToSupabase` gives for `req.file`. -/
def postProject (now : Int) (uploaded : Except JSStr JSStr) (insertErr : Option JSStr)
    (table : List Project) (body : ProjectBody) (reqFile : Option UploadedFile) :
    DbOutcome Project :=
  let imageUrl : Except JSStr JSStr :=
    match reqFile with
    | some _ => uploaded
    | none => .ok []
  match imageUrl with
  | .error _ => failed (js "Failed to create project") table
  | .ok url =>
    match insertErr with
    | some _ => failed (js "Failed to create project") table
    | none =>
      { reply := .sent { status := 201, success := true,
                         message := .text (js "Project created"),
                         data := some (newProject now body url) },
        table := table ++ [newProject now body url] }

/-- The object `newPhoto` of `POST /api/hero-photos`. -/
def newPhoto (now : Int) (body : HeroBody) (imageUrl : JSStr) : HeroPhoto :=
  { id := now, image := some imageUrl,
    alt := some (orDefault body.alt (js "Hero Photo")),
    positionX := some (orNumber body.positionX 50),
    positionY := some (orNumber body.positionY 50),
    createdAt := none, order := some 0 }

/-- The route `POST /api/hero-photos` behind `authenticateAdmin` and the upload
middleware (server.js 314-337). -/
def postHeroPhoto (now : Int) (uploaded : Except JSStr JSStr) (insertErr : Option JSStr)
    (table : List HeroPhoto) (body : HeroBody) (reqFile : Option UploadedFile) :
    DbOutcome HeroPhoto :=
  let imageUrl : Except JSStr JSStr :=
    match reqFile with
    | some _ => uploaded
    | none => .ok []
  match imageUrl with
  | .error _ => failed (js "Failed to add photo") table
  | .ok url =>
    match insertErr with
    | some _ => failed (js "Failed to add photo") table
    | none =>
      { reply := .sent { status := 201, success := true,
                         message := .text (js "Hero photo added"),
                         data := some (newPhoto now body url) },
        table := table ++ [newPhoto now body url] }

/-- The object `resumeData` of `POST /api/resume`. -/
def resumeData (now : Int) (resumeUrl : JSStr) (reqFile : Option UploadedFile) : Resume :=
  { id := now, path := some resumeUrl,
    filename := some (match reqFile with
      | some f => f.originalname
      | none => js "resume.pdf") }

/-- The route `POST /api/resume` behind `authenticateAdmin` and the upload middleware
(server.js 352-376). The rows with a positive id are deleted first; the result of that
call is not looked at, so when the call fails (`deleteErr`) the route goes on. -/
def postResume (now : Int) (deleteErr : Option JSStr) (uploaded : Except JSStr JSStr)
    (insertErr : Option JSStr) (table : List Resume) (reqFile : Option UploadedFile) :
    DbOutcome Resume :=
  let table1 :=
    match deleteErr with
    | some _ => table
    | none => deleteWhereIdPositive Resume.id table
  let resumeUrl : Except JSStr JSStr :=
    match reqFile with
    | some _ => uploaded
    | none => .ok []
  match resumeUrl with
  | .error _ => failed (js "Failed to upload resume") table1
  | .ok url =>
    match insertErr with
    | some _ => failed (js "Failed to upload resume") table1
    | none =>
      { reply := .sent { status := 201, success := true,
                         message := .text (js "Resume uploaded"),
                         data := some (resumeData now url reqFile) },
        table := table1 ++ [resumeData now url reqFile] }

/-- The route `DELETE /api/resume` behind `authenticateAdmin` (server.js 378-382). -/
def deleteResume (deleteErr : Option JSStr) (table : List Resume) : DbOutcome Resume :=
  match deleteErr with
  | some e =>
    { reply := .sent { status := 500, success := false, message := .ofBackend e,
                       data := none },
      table := table }
  | none =>
    { reply := .sent { status := 200, success := true,
                       message := .text (js "Resume deleted"), data := none },
      table := deleteWhereIdPositive Resume.id table }

end Supa

/-! ## The admin check and the route table -/

/-- The constant `ADMIN_PASSWORD`: `process.env.ADMIN_PASSWORD || 'YourSecurePassword123'`. -/
def ADMIN_PASSWORD (envPassword : Option JSStr) : JSStr :=
  orDefault envPassword (js "YourSecurePassword123")

/-- What a middleware did: called `next()`, or sent a response. -/
inductive MwResult where
  | next
  | respond (r : Response Unit)
  deriving DecidableEq, Repr

/-- The 401 response of `authenticateAdmin`. -/
def unauthorized : Response Unit :=
  { status := 401, success := false, message := .text (js "Unauthorized"), data := none }

/-- The middleware `authenticateAdmin` (server.js 125-128, server-old.js 180-187);
`header` is `req.headers['x-admin-password']`, `none` when the header is absent. -/
def authenticateAdmin (secret : JSStr) (header : Option JSStr) : MwResult :=
  if header = some secret then .next else .respond unauthorized

/-- A route registered behind `authenticateAdmin`: the handler `next` runs on the state only when
when the middleware calls it. -/
def behindAdmin {σ ρ : Type} (secret : JSStr) (header : Option JSStr) (next : σ → ρ × σ)
    (st : σ) : (Response Unit ⊕ ρ) × σ :=
  match authenticateAdmin secret header with
  | .next => (.inr (next st).1, (next st).2)
  | .respond r => (.inl r, st)

/-- HTTP methods of the route table. -/
inductive Method where
  | GET | POST | PUT | PATCH | DELETE
  deriving DecidableEq, Repr

/-- The middlewares a route of server.js is registered with. -/
inductive Middleware where
  | authenticateAdmin
  | uploadSingle (field : JSStr)
  | uploadResumeSingle (field : JSStr)
  deriving DecidableEq, Repr

/-- One `app.METHOD(path, ...middlewares, handler)` registration. -/
structure Route where
  method : Method
  path : JSStr
  middlewares : List Middleware
  deriving DecidableEq, Repr

/-- The registrations of server.js, lines 130-387, in order. -/
def routes : List Route :=
  [ ⟨.GET, js "/api/messages", [.authenticateAdmin]⟩,
    ⟨.POST, js "/api/messages", []⟩,
    ⟨.DELETE, js "/api/messages/:id", [.authenticateAdmin]⟩,
    ⟨.PATCH, js "/api/messages/:id/read", [.authenticateAdmin]⟩,
    ⟨.GET, js "/api/projects", []⟩,
    ⟨.POST, js "/api/projects", [.authenticateAdmin, .uploadSingle (js "image")]⟩,
    ⟨.PUT, js "/api/projects/:id", [.authenticateAdmin, .uploadSingle (js "image")]⟩,
    ⟨.DELETE, js "/api/projects/:id", [.authenticateAdmin]⟩,
    ⟨.GET, js "/api/videos", []⟩,
    ⟨.POST, js "/api/videos", [.authenticateAdmin]⟩,
    ⟨.PUT, js "/api/videos/:id", [.authenticateAdmin]⟩,
    ⟨.DELETE, js "/api/videos/:id", [.authenticateAdmin]⟩,
    ⟨.GET, js "/api/hero-photos", []⟩,
    ⟨.POST, js "/api/hero-photos", [.authenticateAdmin, .uploadSingle (js "image")]⟩,
    ⟨.DELETE, js "/api/hero-photos/:id", [.authenticateAdmin]⟩,
    ⟨.GET, js "/api/resume", []⟩,
    ⟨.POST, js "/api/resume", [.authenticateAdmin, .uploadResumeSingle (js "resume")]⟩,
    ⟨.DELETE, js "/api/resume", [.authenticateAdmin]⟩,
    ⟨.GET, js "*", []⟩ ]

/-- Whether a registration is one of the `/api` routes. -/
def Route.isApi (r : Route) : Bool := (js "/api/").isPrefixOf r.path

/-- What happened to a request on its way through a route. -/
inductive Step where
  | rejected401
  | fileParsed
  | uploadRefused
  | handlerRan
  deriving DecidableEq, Repr

/-- The middlewares of a route run in order; each calls the next one or ends the
request. `fileOk` says whether the upload middleware passes the request on (no file,
or a file its filter accepts). -/
def runChain (secret : JSStr) (header : Option JSStr) (fileOk : Bool) :
    List Middleware → List Step
  | [] => [.handlerRan]
  | .authenticateAdmin :: rest =>
    match authenticateAdmin secret header with
    | .next => runChain secret header fileOk rest
    | .respond _ => [.rejected401]
  | .uploadSingle _ :: rest =>
    if fileOk then .fileParsed :: runChain secret header fileOk rest else [.uploadRefused]
  | .uploadResumeSingle _ :: rest =>
    if fileOk then .fileParsed :: runChain secret header fileOk rest else [.uploadRefused]

/-! ## Wording of the specification about URLs -/

/-- The recognised markers as the specification lists them, unit by unit: `youtu.be/`
with any single unit in place of the dot, `v/`, `u/<one word character>/`, `embed/`,
`watch?v=`, `&v=`. -/
def specMarkers : List (List CharClass) :=
  [ (js "youtu").map .lit ++ [.noneOf []] ++ (js "be/").map .lit,
    (js "v/").map .lit,
    (js "u/").map .lit ++ [.word] ++ (js "/").map .lit,
    (js "embed/").map .lit,
    (js "watch?v=").map .lit,
    (js "&v=").map .lit ]

/-- Whether the string starts with the units a pattern lists. -/
def matchesHead : List CharClass → JSStr → Bool
  | [], _ => true
  | _ :: _, [] => false
  | a :: p, x :: s => a.test x && matchesHead p s

/-- Whether a recognised marker occurs somewhere in the URL. -/
def containsMarker (url : JSStr) : Bool :=
  url.tails.any (fun s => specMarkers.any (fun p => matchesHead p s))

/-- A video record whose derived fields agree with the source URL `u`: `videoUrl` is
`u`, `videoId` is what `extractYouTubeId(u)` returns, and `thumbnail` is the
`img.youtube.com` address of that id, or `''` when the id is `null`. -/
def derivedFrom (u : JSStr) (r : Video) : Prop :=
  r.videoUrl = some u ∧
  extractYouTubeId (some u) = .ok r.videoId ∧
  r.thumbnail = some (match r.videoId with
    | some v => js "https://img.youtube.com/vi/" ++ v ++ js "/maxresdefault.jpg"
    | none => [])

/-- The routes the specification lists as public. -/
def publicApi : List (Method × JSStr) :=
  [ (.GET, js "/api/projects"), (.GET, js "/api/videos"), (.GET, js "/api/hero-photos"),
    (.GET, js "/api/resume"), (.POST, js "/api/messages") ]

/-! ## Upload filters (server.js 64-84, server-old.js 37-65) -/

/-- The pattern `/jpeg|jpg|png|gif|webp/`. -/
def allowedTypes : Regex :=
  .alt (Regex.lits (js "jpeg"))
  (.alt (Regex.lits (js "jpg"))
  (.alt (Regex.lits (js "png"))
  (.alt (Regex.lits (js "gif"))
        (Regex.lits (js "webp")))))

/-- The pattern `/pdf/`. -/
def pdfTypes : Regex := Regex.lits (js "pdf")

/-- The method `r.test(str)` for a pattern without flags: whether a match exists. -/
def regexTest (r : Regex) (str : JSStr) : Bool := (jsMatch str r).isSome

/-- The function `path.extname` (POSIX): from the last `.` of the last path segment to
its end; empty when the segment has no `.`, starts with its only `.`, or is `..`. -/
def extname (p : JSStr) : JSStr :=
  let trimmed := (p.reverse.dropWhile (fun c => c == 47)).reverse
  let base := (trimmed.reverse.takeWhile (fun c => c != 47)).reverse
  let ext := (base.reverse.takeWhile (fun c => c != 46)).reverse
  if !base.contains 46 then []
  else if base.length = ext.length + 1 then []
  else if base = [46, 46] then []
  else 46 :: ext

/-- The method `toLowerCase` on the letters `A`-`Z`; other code units are left as they
are (the words of the patterns are made of `a`-`z` only). -/
def toLowerCase (s : JSStr) : JSStr :=
  s.map (fun c => if 65 ≤ c ∧ c ≤ 90 then c + 32 else c)

/-- The `fileFilter` of `upload` (and of `uploadHeroPhoto` in server-old.js): whether
the file is accepted. A file that is not accepted is refused with an error. -/
def imageFileFilter (file : UploadedFile) : Bool :=
  regexTest allowedTypes (toLowerCase (extname file.originalname)) &&
    regexTest allowedTypes file.mimetype

/-- The `fileFilter` of `uploadResume`: whether the file is accepted. -/
def resumeFileFilter (file : UploadedFile) : Bool :=
  regexTest pdfTypes (toLowerCase (extname file.originalname)) &&
    file.mimetype == js "application/pdf"

/-- What an upload middleware did: called `next()` with `req.file` set or left
`undefined`, or called `next(err)`, after which no handler of the route runs. -/
inductive UploadOutcome where
  | next (reqFile : Option UploadedFile)
  | error (message : JSStr)
  deriving DecidableEq, Repr

/-- The middleware `multer(...).single(field)`: `attached` is the file the request
carries in that field, if any. -/
def uploadMiddleware (filter : UploadedFile → Bool) (message : JSStr)
    (attached : Option UploadedFile) : UploadOutcome :=
  match attached with
  | none => .next none
  | some f => if filter f then .next (some f) else .error message

/-! ## Requests through the routes of server.js -/

namespace Supa

/-- The tables, the storage bucket (names of the stored objects) and the local JSON
copies that server.js reads. -/
structure State where
  messages : List Message
  projects : List Project
  videos : List Video
  heroPhotos : List HeroPhoto
  resume : List Resume
  blobs : List JSStr
  projectsFile : JsonFile Project
  videosFile : JsonFile Video
  heroPhotosFile : JsonFile HeroPhoto
  deriving DecidableEq, Repr

/-- What the environment contributes to one request of server.js: the clock, the
random suffix of an upload name, the project URL, and which backend calls fail. -/
structure DbEnv where
  now : Int
  uniqueSuffix : JSStr
  supabaseUrl : JSStr
  selectOk : Bool
  uploadErr : Option JSStr
  deleteErr : Option JSStr
  writeErr : Option JSStr
  deriving DecidableEq, Repr

/-- The name `uploadFileToSupabase` stores the file under:
`folder/uniqueSuffix` followed by the extension of the original name. -/
def uploadName (env : DbEnv) (file : UploadedFile) (folder : JSStr) : JSStr :=
  folder ++ js "/" ++ env.uniqueSuffix ++ extname file.originalname

/-- The helper `uploadFileToSupabase` (server.js 94-115): the public URL of the stored
object, or the error it throws. -/
def uploadFileToSupabase (env : DbEnv) (file : UploadedFile) (bucket folder : JSStr) :
    Except JSStr JSStr :=
  match env.uploadErr with
  | some e => .error e
  | none =>
    .ok (env.supabaseUrl ++ js "/storage/v1/object/public/" ++ bucket ++ js "/" ++
      uploadName env file folder)

/-- The bucket after a handler that calls `uploadFileToSupabase` when `req.file` is set. -/
def blobsAfter (env : DbEnv) (blobs : List JSStr) (reqFile : Option UploadedFile)
    (folder : JSStr) : List JSStr :=
  match reqFile, env.uploadErr with
  | some f, none => blobs ++ [uploadName env f folder]
  | _, _ => blobs

/-- The write requests of server.js, with what each handler reads from the request. -/
inductive WriteReq where
  | postMessage (body : MessageBody)
  | deleteMessage (id : Int)
  | patchMessageRead (id : Int)
  | postProject (body : ProjectBody)
  | putProject (id : Int) (body : ProjectBody)
  | deleteProject (id : Int)
  | postVideo (body : VideoBody)
  | putVideo (id : Int) (body : VideoBody)
  | deleteVideo (id : Int)
  | postHeroPhoto (body : HeroBody)
  | deleteHeroPhoto (id : Int)
  | postResume
  | deleteResume
  deriving DecidableEq, Repr

/-- Method of a write request. -/
def WriteReq.method : WriteReq → Method
  | .postMessage _ => .POST
  | .deleteMessage _ => .DELETE
  | .patchMessageRead _ => .PATCH
  | .postProject _ => .POST
  | .putProject _ _ => .PUT
  | .deleteProject _ => .DELETE
  | .postVideo _ => .POST
  | .putVideo _ _ => .PUT
  | .deleteVideo _ => .DELETE
  | .postHeroPhoto _ => .POST
  | .deleteHeroPhoto _ => .DELETE
  | .postResume => .POST
  | .deleteResume => .DELETE

/-- Registered path of a write request. -/
def WriteReq.path : WriteReq → JSStr
  | .postMessage _ => js "/api/messages"
  | .deleteMessage _ => js "/api/messages/:id"
  | .patchMessageRead _ => js "/api/messages/:id/read"
  | .postProject _ => js "/api/projects"
  | .putProject _ _ => js "/api/projects/:id"
  | .deleteProject _ => js "/api/projects/:id"
  | .postVideo _ => js "/api/videos"
  | .putVideo _ _ => js "/api/videos/:id"
  | .deleteVideo _ => js "/api/videos/:id"
  | .postHeroPhoto _ => js "/api/hero-photos"
  | .deleteHeroPhoto _ => js "/api/hero-photos/:id"
  | .postResume => js "/api/resume"
  | .deleteResume => js "/api/resume"

/-- The middlewares the route table registers for a method and path. -/
def middlewaresOf (m : Method) (p : JSStr) : List Middleware :=
  match routes.find? (fun r => r.method == m && r.path == p) with
  | some r => r.middlewares
  | none => []

/-- The record a response carries in `data`, of whichever collection. -/
inductive Row where
  | message (m : Message)
  | project (p : Project)
  | video (v : Video)
  | heroPhoto (h : HeroPhoto)
  | resume (r : Resume)
  deriving DecidableEq, Repr

/-- A reply with its `data` member read as a `Row`. -/
def Reply.toRow {α : Type} (f : α → Row) : Reply α → Reply Row
  | .sent r => .sent { status := r.status, success := r.success, message := r.message,
                       data := r.data.map f }
  | .unhandled e => .unhandled e

/-- The handler of a write request on the state; `reqFile` is `req.file` as the upload
middleware left it. -/
def handle (env : DbEnv) (req : WriteReq) (reqFile : Option UploadedFile) (st : State) :
    Reply Row × State :=
  match req with
  | .postMessage body =>
    let o := postMessage env.now env.writeErr st.messages body
    (o.reply.toRow .message, { st with messages := o.table })
  | .deleteMessage id =>
    let o := deleteMessage env.deleteErr st.messages id
    (o.reply.toRow .message, { st with messages := o.table })
  | .patchMessageRead id =>
    let o := patchMessageRead env.selectOk env.writeErr st.messages id
    (o.reply.toRow .message, { st with messages := o.table })
  | .postProject body =>
    let uploaded := match reqFile with
      | some f => uploadFileToSupabase env f (js "portfolio") (js "projects")
      | none => .ok []
    let o := postProject env.now uploaded env.writeErr st.projects body reqFile
    (o.reply.toRow .project,
      { st with projects := o.table,
                blobs := blobsAfter env st.blobs reqFile (js "projects") })
  | .putProject id body =>
    let uploaded := match reqFile with
      | some f => uploadFileToSupabase env f (js "portfolio") (js "projects")
      | none => .ok []
    let o := putProject uploaded env.writeErr st.projects id body reqFile
    (o.reply.toRow .project,
      { st with projects := o.table,
                blobs := blobsAfter env st.blobs reqFile (js "projects") })
  | .deleteProject id =>
    let o := deleteProject env.deleteErr st.projects id
    (o.reply.toRow .project, { st with projects := o.table })
  | .postVideo body =>
    let o := postVideo env.now env.writeErr st.videos body
    (o.reply.toRow .video, { st with videos := o.table })
  | .putVideo id body =>
    let o := putVideo env.writeErr st.videos id body
    (o.reply.toRow .video, { st with videos := o.table })
  | .deleteVideo id =>
    let o := deleteVideo env.deleteErr st.videos id
    (o.reply.toRow .video, { st with videos := o.table })
  | .postHeroPhoto body =>
    let uploaded := match reqFile with
      | some f => uploadFileToSupabase env f (js "portfolio") (js "hero")
      | none => .ok []
    let o := postHeroPhoto env.now uploaded env.writeErr st.heroPhotos body reqFile
    (o.reply.toRow .heroPhoto,
      { st with heroPhotos := o.table,
                blobs := blobsAfter env st.blobs reqFile (js "hero") })
  | .deleteHeroPhoto id =>
    let o := deleteHeroPhoto env.deleteErr st.heroPhotos id
    (o.reply.toRow .heroPhoto, { st with heroPhotos := o.table })
  | .postResume =>
    let uploaded := match reqFile with
      | some f => uploadFileToSupabase env f (js "portfolio") (js "resume")
      | none => .ok []
    let o := postResume env.now env.deleteErr uploaded env.writeErr st.resume reqFile
    (o.reply.toRow .resume,
      { st with resume := o.table,
                blobs := blobsAfter env st.blobs reqFile (js "resume") })
  | .deleteResume =>
    let o := deleteResume env.deleteErr st.resume
    (o.reply.toRow .resume, { st with resume := o.table })

/-- How a request through a route ended: at the admin check, at the upload middleware
(Express answers the error itself), or in the handler. -/
inductive Served where
  | unauthorized (r : Response Unit)
  | uploadError (message : JSStr)
  | handled (r : Reply Row)
  deriving DecidableEq, Repr

/-- The middlewares of a route in order, then its handler. `attached` is the file the
request carries in the field the upload middleware reads. -/
def runRoute (secret : JSStr) (header : Option JSStr) (attached : Option UploadedFile)
    (env : DbEnv) (req : WriteReq) (st : State) :
    List Middleware → Option UploadedFile → Served × State
  | [], reqFile => (.handled (handle env req reqFile st).1, (handle env req reqFile st).2)
  | .authenticateAdmin :: rest, reqFile =>
    match authenticateAdmin secret header with
    | .next => runRoute secret header attached env req st rest reqFile
    | .respond r => (.unauthorized r, st)
  | .uploadSingle _ :: rest, _ =>
    match uploadMiddleware imageFileFilter (js "Only image files allowed!") attached with
    | .next f => runRoute secret header attached env req st rest f
    | .error m => (.uploadError m, st)
  | .uploadResumeSingle _ :: rest, _ =>
    match uploadMiddleware resumeFileFilter (js "Only PDF files allowed!") attached with
    | .next f => runRoute secret header attached env req st rest f
    | .error m => (.uploadError m, st)

/-- A write request served by server.js. -/
def serve (secret : JSStr) (header : Option JSStr) (attached : Option UploadedFile)
    (env : DbEnv) (req : WriteReq) (st : State) : Served × State :=
  runRoute secret header attached env req st (middlewaresOf req.method req.path) none

end Supa

/-! ## Wording of the specification about uploads and positions -/

/-- The words of the pattern `/jpeg|jpg|png|gif|webp/`. -/
def imageWords : List JSStr := [js "jpeg", js "jpg", js "png", js "gif", js "webp"]

/-- Whether one of the words occurs somewhere in the string. -/
def containsWord (words : List JSStr) (s : JSStr) : Bool :=
  s.tails.any (fun t => words.any (fun w => w.isPrefixOf t))

/-- The image extensions the specification lists. -/
def listedImageExts : List JSStr :=
  [js ".jpeg", js ".jpg", js ".png", js ".gif", js ".webp"]

/-- The image MIME types the specification lists. -/
def listedImageMimes : List JSStr :=
  [js "image/jpeg", js "image/jpg", js "image/png", js "image/gif", js "image/webp"]

/-- The whole number a text of decimal digits denotes; `none` for any other text. -/
def digitsValue : JSStr → Option Nat
  | [] => none
  | s => if s.all (fun c => 48 ≤ c && c ≤ 57) then some (s.foldl (fun n c => 10 * n + (c - 48)) 0)
         else none

/-- Whether a stored position is a whole number from 0 to 100 (as a number, or as the
text of one); a position that is `undefined` is not. -/
def positionInRange (p : Option Scalar) : Bool :=
  match p with
  | some (.num n) => 0 ≤ n && n ≤ 100
  | some (.str s) =>
    match digitsValue s with
    | some n => n ≤ 100
    | none => false
  | none => false

/-! ## Uniqueness of ids -/

/-- The ids of a collection are pairwise distinct. -/
abbrev uniqueIds {α : Type} (key : α → Int) (l : List α) : Prop := (l.map key).Nodup

/-- The ids are pairwise distinct in the collection file a route leaves behind and in
every array it hands to the write helper. -/
def keepsUnique {α : Type} (key : α → Int) (o : Outcome α) : Prop :=
  uniqueIds key (readFromFile o.file) ∧ ∀ w ∈ o.writes, uniqueIds key w

/-! ## A write that fails -/

/-- The outcome of a route that handed an array to the write helper, answered with a
success response, and left the collection file as it was. A route that handed nothing
to the write helper (a 404, or a caught error) is not concerned. -/
def successUnwritten {α : Type} (file : JsonFile α) (o : Outcome α) : Prop :=
  o.writes ≠ [] →
    o.response.success = true ∧ (o.response.status = 200 ∨ o.response.status = 201) ∧
    o.file = file

/-! ## Sequences of requests -/

/-- Every record of the collection has `order` 0. -/
def allOrderZero {α : Type} (order : α → Option Int) (l : List α) : Prop :=
  ∀ r ∈ l, order r = some 0

namespace Old

/-- The requests of server-old.js that write the projects collection. -/
inductive ProjectReq where
  | create (body : ProjectBody) (reqFile : Option UploadedFile)
  | update (id : Option Int) (body : ProjectBody) (reqFile : Option UploadedFile)
  | delete (id : Option Int)
  deriving DecidableEq, Repr

/-- The requests of server-old.js that write the videos collection. -/
inductive VideoReq where
  | create (body : VideoBody)
  | update (id : Option Int) (body : VideoBody)
  | delete (id : Option Int)
  deriving DecidableEq, Repr

/-- The requests of server-old.js that write the hero photos collection. -/
inductive HeroPhotoReq where
  | create (body : HeroBody) (reqFile : Option UploadedFile)
  | update (id : Option Int) (body : HeroBody) (reqFile : Option UploadedFile)
  | delete (id : Option Int)
  deriving DecidableEq, Repr

/-- One request on the projects collection, by the route that serves it. -/
def serveProject (env : Env) (file : JsonFile Project) : ProjectReq → Outcome Project
  | .create body reqFile => postProject env file body reqFile
  | .update id body reqFile => putProject env file id body reqFile
  | .delete id => deleteProject env file id

/-- One request on the videos collection, by the route that serves it. -/
def serveVideo (env : Env) (file : JsonFile Video) : VideoReq → Outcome Video
  | .create body => postVideo env file body
  | .update id body => putVideo env file id body
  | .delete id => deleteVideo env file id

/-- One request on the hero photos collection, by the route that serves it. -/
def serveHeroPhoto (env : Env) (file : JsonFile HeroPhoto) :
    HeroPhotoReq → Outcome HeroPhoto
  | .create body reqFile => postHeroPhoto env file body reqFile
  | .update id body reqFile => putHeroPhoto env file id body reqFile
  | .delete id => deleteHeroPhoto env file id

/-- The collection file after a sequence of requests, each with its own environment. -/
def runRequests {α ρ : Type} (serve : Env → JsonFile α → ρ → Outcome α) :
    JsonFile α → List (Env × ρ) → JsonFile α
  | file, [] => file
  | file, (env, req) :: rest => runRequests serve (serve env file req).file rest

end Old

namespace Supa

/-- One request to server.js: the admin header, the attached file, the environment and
the write request. -/
structure Incoming where
  header : Option JSStr
  attached : Option UploadedFile
  env : DbEnv
  req : WriteReq
  deriving DecidableEq, Repr

/-- The state with empty tables, an empty bucket and no local copies. -/
def emptyState : State :=
  { messages := [], projects := [], videos := [], heroPhotos := [], resume := [],
    blobs := [], projectsFile := .absent, videosFile := .absent, heroPhotosFile := .absent }

/-- The state after a sequence of requests. -/
def runRequests (secret : JSStr) : State → List Incoming → State
  | st, [] => st
  | st, i :: rest =>
    runRequests secret (serve secret i.header i.attached i.env i.req st).2 rest

end Supa

namespace Supa

/-- Every project, video and hero photo row of the state has `order` 0. -/
def State.orderZero (st : State) : Prop :=
  allOrderZero (fun (p : Project) => p.order) st.projects ∧
  allOrderZero (fun (v : Video) => v.order) st.videos ∧
  allOrderZero (fun (p : HeroPhoto) => p.order) st.heroPhotos

end Supa

/-! ## Wording of the characterisation of extractYouTubeId -/

/-- The listed marker that occurs at the head of `s`, if one does: its number of
units. -/
def markerAt (s : JSStr) : Option Nat :=
  (specMarkers.find? (fun p => matchesHead p s)).map List.length

/-- The marker occurrence with the right-most start position in `url`: the start
position and the number of units of the marker. -/
def rightmostMarker : JSStr → Option (Nat × Nat)
  | [] => none
  | x :: xs =>
    match rightmostMarker xs with
    | some (i, n) => some (i + 1, n)
    | none => (markerAt (x :: xs)).map (fun n => (0, n))

/-- The maximal run of units other than `#`, `&` and `?` at the head of `t`. -/
def idRun (t : JSStr) : JSStr :=
  t.takeWhile (fun c => !(js "#&?").contains c)

/-- The characterisation: the run after the right-most marker when it has exactly 11
units, `null` otherwise (also when there is no marker). -/
def specExtractYouTubeId (url : JSStr) : Option JSStr :=
  match rightmostMarker url with
  | none => none
  | some (i, n) =>
    if (idRun (url.drop (i + n))).length = 11 then some (idRun (url.drop (i + n))) else none

/-! ## Dispatch of a request to a registration of server.js -/

/-- The segments of a path, between the `/` units. -/
def pathSegments : JSStr → List JSStr
  | [] => [[]]
  | c :: cs =>
    match pathSegments cs with
    | seg :: rest => if c == 47 then [] :: seg :: rest else (c :: seg) :: rest
    | [] => [[]]

/-- Whether a segment of a registered path accepts a segment of the request path: a
parameter such as `:id` accepts any non-empty segment, another segment only itself. -/
def segmentMatches (pattern seg : JSStr) : Bool :=
  match pattern with
  | 58 :: _ => !seg.isEmpty
  | _ => pattern == seg

/-- Whether a registered path accepts the request path: `*` accepts every path, any
other path is compared segment by segment. -/
def pathMatches (pattern path : JSStr) : Bool :=
  pattern == js "*" ||
    ((pathSegments pattern).length == (pathSegments path).length &&
      (List.zipWith segmentMatches (pathSegments pattern) (pathSegments path)).all
        (fun b => b))

/-- The registration of server.js a request is dispatched to: the first one, in the
order of the file, whose method and path accept it. `none` when there is none: the
middlewares before the routes (`cors`, `bodyParser.json`, `express.static`) pass a
request on, and Express then answers 404 itself without running a handler of the file. -/
def routeFor (m : Method) (path : JSStr) : Option Route :=
  routes.find? (fun r => r.method == m && pathMatches r.path path)

/-! ## The matcher on the pattern -/

theorem stripPre_eq_some {p s t : JSStr} : stripPre p s = some t ↔ s = p ++ t := by
  induction p generalizing s with
  | nil => simp [stripPre, eq_comm]
  | cons a p ih =>
    cases s with
    | nil => simp [stripPre]
    | cons x s =>
      by_cases h : x = a
      · simp [stripPre, h, ih]
      · simp [stripPre, h]

theorem run_lits (p : JSStr) (k : Cont) (i : Nat) (s : JSStr) (c : Caps) :
    (Regex.lits p).run k i s c =
      match stripPre p s with
      | some t => k (i + p.length) t c
      | none => none := by
  induction p generalizing i s with
  | nil => simp [Regex.lits, Regex.run, stripPre]
  | cons a p ih =>
    cases s with
    | nil => simp [Regex.lits, Regex.run, stripPre]
    | cons x s =>
      by_cases h : x = a
      · simp [Regex.lits, Regex.run, stripPre, h, ih, CharClass.test, Nat.add_assoc, Nat.add_comm 1]
      · simp [Regex.lits, Regex.run, stripPre, h, CharClass.test]

theorem js_youtu : js "youtu" = [121, 111, 117, 116, 117] := by decide
theorem js_be : js "be/" = [98, 101, 47] := by decide
theorem js_v : js "v/" = [118, 47] := by decide
theorem js_u : js "u/" = [117, 47] := by decide
theorem js_slash : js "/" = [47] := by decide
theorem js_embed : js "embed/" = [101, 109, 98, 101, 100, 47] := by decide
theorem js_watch : js "watch?v=" = [119, 97, 116, 99, 104, 63, 118, 61] := by decide
theorem js_ampv : js "&v=" = [38, 118, 61] := by decide

theorem run_seq (r1 r2 : Regex) (k : Cont) (i : Nat) (s : JSStr) (c : Caps) :
    (Regex.seq r1 r2).run k i s c = r1.run (r2.run k) i s c := by
  simp [Regex.run]

theorem run_alt (r1 r2 : Regex) (k : Cont) (i : Nat) (s : JSStr) (c : Caps) :
    (Regex.alt r1 r2).run k i s c =
      match r1.run k i s c with
      | some r => some r
      | none => r2.run k i s c := by
  simp [Regex.run]

theorem run_atom (a : CharClass) (k : Cont) (i : Nat) (s : JSStr) (c : Caps) :
    (Regex.atom a).run k i s c =
      match s with
      | [] => none
      | x :: xs => if a.test x then k (i + 1) xs c else none := by
  simp [Regex.run]

theorem run_altLit (p : JSStr) (k : Cont) (i : Nat) (s : JSStr) (c : Caps) :
    (Regex.lits p).run k i s c =
      match altLit p s with
      | some (n, t) => k (i + n) t c
      | none => none := by
  rw [run_lits]; unfold altLit; cases stripPre p s <;> rfl

theorem run_altYoutuBe (k : Cont) (i : Nat) (s : JSStr) (c : Caps) :
    (Regex.seq (Regex.lits (js "youtu")) (.seq (.atom .dot) (Regex.lits (js "be/")))).run k i s c =
      match altYoutuBe s with
      | some (n, t) => k (i + n) t c
      | none => none := by
  simp only [run_seq, run_lits, run_atom, altYoutuBe]
  cases h : stripPre (js "youtu") s with
  | none => rfl
  | some t =>
    cases t with
    | nil => rfl
    | cons x xs =>
      by_cases hx : CharClass.dot.test x = true
      · simp only [hx, if_true]
        cases stripPre (js "be/") xs with
        | none => rfl
        | some t2 => simp [js_youtu, js_be, Nat.add_assoc]
      · simp [hx]

theorem run_altUser (k : Cont) (i : Nat) (s : JSStr) (c : Caps) :
    (Regex.seq (Regex.lits (js "u/")) (.seq (.atom .word) (Regex.lits (js "/")))).run k i s c =
      match altUser s with
      | some (n, t) => k (i + n) t c
      | none => none := by
  simp only [run_seq, run_lits, run_atom, altUser]
  cases h : stripPre (js "u/") s with
  | none => rfl
  | some t =>
    cases t with
    | nil => rfl
    | cons x xs =>
      by_cases hx : CharClass.word.test x = true
      · simp only [hx, if_true]
        cases stripPre (js "/") xs with
        | none => rfl
        | some t2 => simp [js_u, js_slash, Nat.add_assoc]
      · simp [hx]

theorem run_markerRe (k : Cont) (hk : Total k) (i : Nat) (s : JSStr) (c : Caps) :
    markerRe.run k i s c =
      match afterMarker s with
      | some (n, t) => k (i + n) t c
      | none => none := by
  unfold markerRe afterMarker
  simp only [run_alt, run_altYoutuBe, run_altUser, run_altLit]
  cases h1 : altYoutuBe s with
  | some v => obtain ⟨r, hr⟩ := hk (i + v.1) v.2 c; simp [hr]
  | none =>
    cases h2 : altLit (js "v/") s with
    | some v => obtain ⟨r, hr⟩ := hk (i + v.1) v.2 c; simp [hr]
    | none =>
      cases h3 : altUser s with
      | some v => obtain ⟨r, hr⟩ := hk (i + v.1) v.2 c; simp [hr]
      | none =>
        cases h4 : altLit (js "embed/") s with
        | some v => obtain ⟨r, hr⟩ := hk (i + v.1) v.2 c; simp [hr]
        | none =>
          cases h5 : altLit (js "watch?v=") s with
          | some v => obtain ⟨r, hr⟩ := hk (i + v.1) v.2 c; simp [hr]
          | none => simp

theorem starLoop_greedy (a : CharClass) (k : Cont) (hk : Total k) (s : JSStr) (i : Nat) (c : Caps) :
    starLoop a k i s c = k (i + (s.takeWhile a.test).length) (s.dropWhile a.test) c := by
  induction s generalizing i with
  | nil => simp [starLoop]
  | cons x xs ih =>
    by_cases hx : a.test x = true
    · obtain ⟨r, hr⟩ := hk (i + 1 + (xs.takeWhile a.test).length) (xs.dropWhile a.test) c
      simp only [starLoop, hx, if_true, ih, hr, List.takeWhile_cons, List.dropWhile_cons,
        List.length_cons]
      rw [← hr]; congr 1; omega
    · simp [starLoop, hx, List.takeWhile_cons, List.dropWhile_cons]

theorem total_K0 : Total K0 := fun _ _ c => ⟨c, rfl⟩

theorem run_tail (j : Nat) (s : JSStr) (c : Caps) :
    (Regex.seq (.group 2 (.star idClass)) (.star .dot)).run K0 j s c
      = some (c.set 2 (j, j + runLen s)) := by
  have h1 : ∀ j1 s1 c1, (Regex.star CharClass.dot).run K0 j1 s1 c1 = some c1 := by
    intro j1 s1 c1
    simp only [Regex.run]
    rw [starLoop_greedy _ _ total_K0]; rfl
  simp only [run_seq]
  simp only [Regex.run] at h1 ⊢
  rw [starLoop_greedy]
  · simp [h1, runLen]
  · intro j1 t1 c1; exact ⟨_, h1 _ _ _⟩

theorem total_tail (f : Nat → Caps → Caps) :
    Total (fun j s c => (Regex.seq (.group 2 (.star idClass)) (.star .dot)).run K0 j s (f j c)) :=
  fun j s c => ⟨_, run_tail j s (f j c)⟩

theorem run_afterStar (j : Nat) (s : JSStr) (c : Caps) :
    (Regex.seq (.group 1 markerRe) (.seq (.group 2 (.star idClass)) (.star .dot))).run K0 j s c =
      match afterMarker s with
      | some (n, t) => some ((c.set 1 (j, j + n)).set 2 (j + n, j + n + runLen t))
      | none => none := by
  rw [run_seq]
  show markerRe.run (fun j1 s1 c1 =>
    (Regex.seq (.group 2 (.star idClass)) (.star .dot)).run K0 j1 s1 (c1.set 1 (j, j1))) j s c = _
  rw [run_markerRe _ (total_tail fun j1 c1 => c1.set 1 (j, j1))]
  cases afterMarker s with
  | none => rfl
  | some v => simp [run_tail]

theorem afterMarker_nil : afterMarker [] = none := by decide

theorem afterMarker_lineTerminator (x : Nat) (xs : JSStr) (h : CharClass.dot.test x = false) :
    afterMarker (x :: xs) = none := by
  have hx : x = 10 ∨ x = 13 ∨ x = 8232 ∨ x = 8233 := by
    have h2 : ¬x = 10 → ¬x = 13 → ¬x = 8232 → x = 8233 := by
      simpa [CharClass.test, isLineTerminator] using h
    by_cases h10 : x = 10
    · exact Or.inl h10
    by_cases h13 : x = 13
    · exact Or.inr (Or.inl h13)
    by_cases h8232 : x = 8232
    · exact Or.inr (Or.inr (Or.inl h8232))
    exact Or.inr (Or.inr (Or.inr (h2 h10 h13 h8232)))
  rcases hx with rfl | rfl | rfl | rfl <;> rfl

theorem starLoop_scan (s : JSStr) (i : Nat) (c : Caps) :
    starLoop .dot ((Regex.seq (.group 1 markerRe)
        (.seq (.group 2 (.star idClass)) (.star .dot))).run K0) i s c =
      match lastMarker s with
      | some (p, n, t) =>
        some ((c.set 1 (i + p, i + p + n)).set 2 (i + p + n, i + p + n + runLen t))
      | none => none := by
  induction s generalizing i with
  | nil => simp [starLoop, run_afterStar, afterMarker_nil, lastMarker]
  | cons x xs ih =>
    by_cases hx : CharClass.dot.test x = true
    · simp only [starLoop, hx, if_true, ih, lastMarker]
      cases h : lastMarker xs with
      | some v => simp [Nat.add_assoc, Nat.add_comm 1]
      | none =>
        simp only [run_afterStar]
        cases afterMarker (x :: xs) with
        | none => rfl
        | some w => simp
    · simp only [Bool.not_eq_true] at hx
      simp [starLoop, hx, lastMarker, run_afterStar, afterMarker_lineTerminator x xs hx]

theorem run_regExp_zero (s : JSStr) (c : Caps) :
    regExp.run K0 0 s c =
      match lastMarker s with
      | some (p, n, t) => some ((c.set 1 (p, p + n)).set 2 (p + n, p + n + runLen t))
      | none => none := by
  have h := starLoop_scan s 0 c
  simp only [Nat.zero_add] at h
  rw [← h]
  simp [regExp, Regex.run]

theorem run_regExp_succ (i : Nat) (s : JSStr) (c : Caps) :
    regExp.run K0 (i + 1) s c = none := by
  simp [regExp, Regex.run]

theorem execFrom_regExp_succ (s : JSStr) (i : Nat) : execFrom regExp (i + 1) s = none := by
  induction s generalizing i with
  | nil => exact run_regExp_succ i [] _
  | cons x xs ih =>
    have h := run_regExp_succ i (x :: xs) (fun _ => none)
    unfold K0 at h
    simp only [execFrom, h, ih]

theorem jsMatch_regExp (u : JSStr) :
    jsMatch u regExp =
      match lastMarker u with
      | some (p, n, t) =>
        some ((Caps.set (fun _ => none) 1 (p, p + n)).set 2 (p + n, p + n + runLen t))
      | none => none := by
  have h := run_regExp_zero u (fun _ => none)
  unfold K0 at h
  unfold jsMatch
  cases u with
  | nil => simpa [execFrom] using h
  | cons x xs =>
    simp only [execFrom, h, execFrom_regExp_succ]
    cases lastMarker (x :: xs) <;> rfl

theorem altLit_drop {p s : JSStr} {n : Nat} {t : JSStr} (h : altLit p s = some (n, t)) :
    s = p ++ t ∧ n = p.length := by
  unfold altLit at h
  cases hs : stripPre p s with
  | none => simp [hs] at h
  | some t1 =>
    simp only [hs, Option.some.injEq, Prod.mk.injEq] at h
    obtain ⟨h1, h2⟩ := h
    subst h1 h2
    exact ⟨stripPre_eq_some.mp hs, rfl⟩

theorem altYoutuBe_drop {s : JSStr} {n : Nat} {t : JSStr} (h : altYoutuBe s = some (n, t)) :
    ∃ x, CharClass.dot.test x = true ∧ s = js "youtu" ++ x :: (js "be/" ++ t) ∧ n = 9 := by
  unfold altYoutuBe at h
  cases hs : stripPre (js "youtu") s with
  | none => simp [hs] at h
  | some t1 =>
    cases t1 with
    | nil => simp [hs] at h
    | cons x xs =>
      simp only [hs] at h
      by_cases hx : CharClass.dot.test x = true
      · simp only [hx, if_true] at h
        cases hb : stripPre (js "be/") xs with
        | none => simp [hb] at h
        | some t2 =>
          simp only [hb, Option.some.injEq, Prod.mk.injEq] at h
          obtain ⟨h1, h2⟩ := h
          subst h1 h2
          refine ⟨x, hx, ?_, rfl⟩
          rw [stripPre_eq_some.mp hs, stripPre_eq_some.mp hb]
      · simp [hx] at h

theorem altUser_drop {s : JSStr} {n : Nat} {t : JSStr} (h : altUser s = some (n, t)) :
    ∃ x, CharClass.word.test x = true ∧ s = js "u/" ++ x :: (js "/" ++ t) ∧ n = 4 := by
  unfold altUser at h
  cases hs : stripPre (js "u/") s with
  | none => simp [hs] at h
  | some t1 =>
    cases t1 with
    | nil => simp [hs] at h
    | cons x xs =>
      simp only [hs] at h
      by_cases hx : CharClass.word.test x = true
      · simp only [hx, if_true] at h
        cases hb : stripPre (js "/") xs with
        | none => simp [hb] at h
        | some t2 =>
          simp only [hb, Option.some.injEq, Prod.mk.injEq] at h
          obtain ⟨h1, h2⟩ := h
          subst h1 h2
          refine ⟨x, hx, ?_, rfl⟩
          rw [stripPre_eq_some.mp hs, stripPre_eq_some.mp hb]
      · simp [hx] at h

/-- The shapes a string with a marker at its head can have. -/
theorem afterMarker_cases {s : JSStr} {n : Nat} {t : JSStr} (h : afterMarker s = some (n, t)) :
    (∃ x, CharClass.dot.test x = true ∧ s = js "youtu" ++ x :: (js "be/" ++ t) ∧ n = 9) ∨
    (s = js "v/" ++ t ∧ n = 2) ∨
    (∃ x, CharClass.word.test x = true ∧ s = js "u/" ++ x :: (js "/" ++ t) ∧ n = 4) ∨
    (s = js "embed/" ++ t ∧ n = 6) ∨
    (s = js "watch?v=" ++ t ∧ n = 8) ∨
    (s = js "&v=" ++ t ∧ n = 3) := by
  unfold afterMarker at h
  cases h1 : altYoutuBe s with
  | some v =>
    simp only [h1, Option.orElse, Option.some.injEq] at h
    subst h; exact Or.inl (altYoutuBe_drop h1)
  | none =>
    cases h2 : altLit (js "v/") s with
    | some v =>
      simp only [h1, h2, Option.orElse, Option.some.injEq] at h
      subst h; exact Or.inr (Or.inl (altLit_drop h2))
    | none =>
      cases h3 : altUser s with
      | some v =>
        simp only [h1, h2, h3, Option.orElse, Option.some.injEq] at h
        subst h; exact Or.inr (Or.inr (Or.inl (altUser_drop h3)))
      | none =>
        cases h4 : altLit (js "embed/") s with
        | some v =>
          simp only [h1, h2, h3, h4, Option.orElse, Option.some.injEq] at h
          subst h; exact Or.inr (Or.inr (Or.inr (Or.inl (altLit_drop h4))))
        | none =>
          cases h5 : altLit (js "watch?v=") s with
          | some v =>
            simp only [h1, h2, h3, h4, h5, Option.orElse, Option.some.injEq] at h
            subst h; exact Or.inr (Or.inr (Or.inr (Or.inr (Or.inl (altLit_drop h5)))))
          | none =>
            simp only [h1, h2, h3, h4, h5, Option.orElse] at h
            exact Or.inr (Or.inr (Or.inr (Or.inr (Or.inr (altLit_drop h)))))

theorem afterMarker_drop {s : JSStr} {n : Nat} {t : JSStr} (h : afterMarker s = some (n, t)) :
    s.drop n = t := by
  rcases afterMarker_cases h with ⟨x, _, hs, hn⟩ | ⟨hs, hn⟩ | ⟨x, _, hs, hn⟩ | ⟨hs, hn⟩ |
    ⟨hs, hn⟩ | ⟨hs, hn⟩ <;> subst hs hn <;> rfl

theorem lastMarker_drop {s : JSStr} {p n : Nat} {t : JSStr} (h : lastMarker s = some (p, n, t)) :
    s.drop (p + n) = t := by
  induction s generalizing p with
  | nil => simp [lastMarker] at h
  | cons x xs ih =>
    unfold lastMarker at h
    by_cases hx : CharClass.dot.test x = true
    · simp only [hx, if_true] at h
      cases hl : lastMarker xs with
      | some v =>
        obtain ⟨p1, n1, t1⟩ := v
        simp only [hl, Option.some.injEq, Prod.mk.injEq] at h
        obtain ⟨h1, h2, h3⟩ := h
        subst h1 h2 h3
        have := ih hl
        rw [show p1 + 1 + n1 = (p1 + n1) + 1 by omega]
        simpa using this
      | none =>
        simp only [hl] at h
        cases ha : afterMarker (x :: xs) with
        | none => simp [ha] at h
        | some w =>
          obtain ⟨n1, t1⟩ := w
          simp only [ha, Option.some.injEq, Prod.mk.injEq] at h
          obtain ⟨h1, h2, h3⟩ := h
          subst h1 h2 h3
          simpa using afterMarker_drop ha
    · simp [hx] at h

theorem take_length_takeWhile (f : Nat → Bool) (l : JSStr) :
    l.take (l.takeWhile f).length = l.takeWhile f := by
  induction l with
  | nil => rfl
  | cons x xs ih =>
    by_cases hx : f x = true
    · simp [List.takeWhile_cons, hx, ih]
    · simp [List.takeWhile_cons, hx]

/-- The function computes the scan: on every string, `extractYouTubeId` returns
normally, with the value `scanId` describes. -/
theorem extractYouTubeId_eq_scanId (u : JSStr) :
    extractYouTubeId (some u) = .ok (scanId u) := by
  unfold extractYouTubeId scanId
  simp only [jsMatch_regExp]
  cases h : lastMarker u with
  | none => rfl
  | some v =>
    obtain ⟨p, n, t⟩ := v
    have hd := lastMarker_drop h
    have hg : matchGroup u ((Caps.set (fun _ => none) 1 (p, p + n)).set 2
        (p + n, p + n + runLen t)) 2 = some (t.takeWhile idClass.test) := by
      simp [matchGroup, Caps.set, hd, runLen, take_length_takeWhile]
    simp only [hg]
    split <;> rfl

theorem afterMarker_mem {s : JSStr} {n : Nat} {t : JSStr} (h : afterMarker s = some (n, t)) :
    47 ∈ s ∨ 61 ∈ s := by
  rcases afterMarker_cases h with ⟨x, _, hs, _⟩ | ⟨hs, _⟩ | ⟨x, _, hs, _⟩ | ⟨hs, _⟩ |
    ⟨hs, _⟩ | ⟨hs, _⟩ <;> subst hs <;>
    simp [js_youtu, js_be, js_v, js_u, js_slash, js_embed, js_watch, js_ampv]

theorem afterMarker_idChars (s : JSStr) (hs : ∀ x ∈ s, isIdChar x = true) :
    afterMarker s = none := by
  cases h : afterMarker s with
  | none => rfl
  | some v =>
    obtain ⟨n, t⟩ := v
    rcases afterMarker_mem h with h47 | h61
    · exact absurd (hs 47 h47) (by decide)
    · exact absurd (hs 61 h61) (by decide)

theorem lastMarker_idChars (s : JSStr) (hs : ∀ x ∈ s, isIdChar x = true) :
    lastMarker s = none := by
  induction s with
  | nil => rfl
  | cons x xs ih =>
    have h1 := ih (fun y hy => hs y (List.mem_cons_of_mem _ hy))
    have h2 := afterMarker_idChars (x :: xs) hs
    simp [lastMarker, h1, h2]

theorem lastMarker_append (pre s : JSStr) {p n : Nat} {t : JSStr}
    (hpre : ∀ x ∈ pre, CharClass.dot.test x = true) (h : lastMarker s = some (p, n, t)) :
    lastMarker (pre ++ s) = some (p + pre.length, n, t) := by
  induction pre with
  | nil => simpa using h
  | cons x xs ih =>
    have h1 := ih (fun y hy => hpre y (List.mem_cons_of_mem _ hy))
    have hx := hpre x (List.mem_cons_self _ _)
    simp [lastMarker, h1, hx, Nat.add_assoc]

theorem scanId_append (pre s : JSStr) {p n : Nat} {t : JSStr}
    (hpre : ∀ x ∈ pre, CharClass.dot.test x = true) (h : lastMarker s = some (p, n, t)) :
    scanId (pre ++ s) = scanId s := by
  unfold scanId
  rw [lastMarker_append pre s hpre h, h]

theorem takeWhile_idChars (c : JSStr) (hc : ∀ x ∈ c, isIdChar x = true) :
    c.takeWhile idClass.test = c := by
  rw [List.takeWhile_eq_self_iff]
  intro x hx
  have h := hc x hx
  have h35 : x ≠ 35 := by rintro rfl; exact absurd h (by decide)
  have h38 : x ≠ 38 := by rintro rfl; exact absurd h (by decide)
  have h63 : x ≠ 63 := by rintro rfl; exact absurd h (by decide)
  have hjs : js "#&?" = [35, 38, 63] := by decide
  simp [idClass, CharClass.test, hjs, h35, h38, h63]

theorem lastMarker_v (c : JSStr) (hc : ∀ x ∈ c, isIdChar x = true) :
    lastMarker (js "v/" ++ c) = some (0, 2, c) := by
  have h0 := lastMarker_idChars c hc
  have h1 : afterMarker (47 :: c) = none := rfl
  have h2 : afterMarker (118 :: 47 :: c) = some (2, c) := rfl
  have e : js "v/" ++ c = 118 :: 47 :: c := by rw [js_v]; rfl
  rw [e]
  simp [lastMarker, h0, h1, h2, CharClass.test, isLineTerminator]

theorem lastMarker_embed (c : JSStr) (hc : ∀ x ∈ c, isIdChar x = true) :
    lastMarker (js "embed/" ++ c) = some (0, 6, c) := by
  have h0 := lastMarker_idChars c hc
  have h1 : afterMarker (47 :: c) = none := rfl
  have h2 : afterMarker (100 :: 47 :: c) = none := rfl
  have h3 : afterMarker (101 :: 100 :: 47 :: c) = none := rfl
  have h4 : afterMarker (98 :: 101 :: 100 :: 47 :: c) = none := rfl
  have h5 : afterMarker (109 :: 98 :: 101 :: 100 :: 47 :: c) = none := rfl
  have h6 : afterMarker (101 :: 109 :: 98 :: 101 :: 100 :: 47 :: c) = some (6, c) := rfl
  have e : js "embed/" ++ c = 101 :: 109 :: 98 :: 101 :: 100 :: 47 :: c := by
    rw [js_embed]; rfl
  rw [e]
  simp [lastMarker, h0, h1, h2, h3, h4, h5, h6, CharClass.test, isLineTerminator]

theorem lastMarker_watch (c : JSStr) (hc : ∀ x ∈ c, isIdChar x = true) :
    lastMarker (js "watch?v=" ++ c) = some (0, 8, c) := by
  have h0 := lastMarker_idChars c hc
  have h1 : afterMarker (61 :: c) = none := rfl
  have h2 : afterMarker (118 :: 61 :: c) = none := rfl
  have h3 : afterMarker (63 :: 118 :: 61 :: c) = none := rfl
  have h4 : afterMarker (104 :: 63 :: 118 :: 61 :: c) = none := rfl
  have h5 : afterMarker (99 :: 104 :: 63 :: 118 :: 61 :: c) = none := rfl
  have h6 : afterMarker (116 :: 99 :: 104 :: 63 :: 118 :: 61 :: c) = none := rfl
  have h7 : afterMarker (97 :: 116 :: 99 :: 104 :: 63 :: 118 :: 61 :: c) = none := rfl
  have h8 : afterMarker (119 :: 97 :: 116 :: 99 :: 104 :: 63 :: 118 :: 61 :: c) = some (8, c) :=
    rfl
  have e : js "watch?v=" ++ c = 119 :: 97 :: 116 :: 99 :: 104 :: 63 :: 118 :: 61 :: c := by
    rw [js_watch]; rfl
  rw [e]
  simp [lastMarker, h0, h1, h2, h3, h4, h5, h6, h7, h8, CharClass.test, isLineTerminator]

theorem lastMarker_ampv (c : JSStr) (hc : ∀ x ∈ c, isIdChar x = true) :
    lastMarker (js "&v=" ++ c) = some (0, 3, c) := by
  have h0 := lastMarker_idChars c hc
  have h1 : afterMarker (61 :: c) = none := rfl
  have h2 : afterMarker (118 :: 61 :: c) = none := rfl
  have h3 : afterMarker (38 :: 118 :: 61 :: c) = some (3, c) := rfl
  have e : js "&v=" ++ c = 38 :: 118 :: 61 :: c := by rw [js_ampv]; rfl
  rw [e]
  simp [lastMarker, h0, h1, h2, h3, CharClass.test, isLineTerminator]

theorem lastMarker_youtuBe (c : JSStr) (hc : ∀ x ∈ c, isIdChar x = true) :
    lastMarker (js "youtu.be/" ++ c) = some (0, 9, c) := by
  have h0 := lastMarker_idChars c hc
  have h1 : afterMarker (47 :: c) = none := rfl
  have h2 : afterMarker (101 :: 47 :: c) = none := rfl
  have h3 : afterMarker (98 :: 101 :: 47 :: c) = none := rfl
  have h4 : afterMarker (46 :: 98 :: 101 :: 47 :: c) = none := rfl
  have h5 : afterMarker (117 :: 46 :: 98 :: 101 :: 47 :: c) = none := rfl
  have h6 : afterMarker (116 :: 117 :: 46 :: 98 :: 101 :: 47 :: c) = none := rfl
  have h7 : afterMarker (117 :: 116 :: 117 :: 46 :: 98 :: 101 :: 47 :: c) = none := rfl
  have h8 : afterMarker (111 :: 117 :: 116 :: 117 :: 46 :: 98 :: 101 :: 47 :: c) = none := rfl
  have h9 : afterMarker (121 :: 111 :: 117 :: 116 :: 117 :: 46 :: 98 :: 101 :: 47 :: c)
      = some (9, c) := rfl
  have hj : js "youtu.be/" = [121, 111, 117, 116, 117, 46, 98, 101, 47] := by decide
  have e : js "youtu.be/" ++ c
      = 121 :: 111 :: 117 :: 116 :: 117 :: 46 :: 98 :: 101 :: 47 :: c := by
    rw [hj]; rfl
  rw [e]
  simp [lastMarker, h0, h1, h2, h3, h4, h5, h6, h7, h8, h9, CharClass.test, isLineTerminator]

theorem scanId_marker_idChars (pre m c : JSStr) (n : Nat)
    (hpre : ∀ x ∈ pre, CharClass.dot.test x = true)
    (hm : lastMarker (m ++ c) = some (0, n, c))
    (hlen : c.length = 11) (hc : ∀ x ∈ c, isIdChar x = true) :
    scanId (pre ++ (m ++ c)) = some c := by
  rw [scanId_append pre (m ++ c) hpre hm]
  unfold scanId
  rw [hm]
  simp [takeWhile_idChars c hc, hlen]

/-! ## extractYouTubeId: properties -/

/-- C1: for every string `url`, `extractYouTubeId(url)` returns normally and its value is
either `null` or a string of exactly 11 code units. -/
theorem extractYouTubeId_null_or_eleven (url : JSStr) :
    extractYouTubeId (some url) = .ok none ∨
      ∃ id : JSStr, extractYouTubeId (some url) = .ok (some id) ∧ id.length = 11 := by
  rw [extractYouTubeId_eq_scanId]
  unfold scanId
  cases lastMarker url with
  | none => exact Or.inl rfl
  | some v =>
    obtain ⟨p, n, t⟩ := v
    by_cases h : (t.takeWhile idClass.test).length = 11
    · exact Or.inr ⟨_, by simp [h], h⟩
    · exact Or.inl (by simp [h])

/-- C2: for every 11-unit string `c` over `[A-Za-z0-9_-]`, `extractYouTubeId` returns `c`
on each of the five URL forms that encode the same video. -/
theorem extractYouTubeId_five_forms (c : JSStr) (hlen : c.length = 11)
    (hc : ∀ x ∈ c, isIdChar x = true) :
    extractYouTubeId (some (js "https://youtu.be/" ++ c)) = .ok (some c) ∧
    extractYouTubeId (some (js "https://www.youtube.com/v/" ++ c)) = .ok (some c) ∧
    extractYouTubeId (some (js "https://www.youtube.com/embed/" ++ c)) = .ok (some c) ∧
    extractYouTubeId (some (js "https://www.youtube.com/watch?v=" ++ c)) = .ok (some c) ∧
    extractYouTubeId (some (js "https://www.youtube.com/watch?feature=share&v=" ++ c))
      = .ok (some c) := by
  have e1 : js "https://youtu.be/" = js "https://" ++ js "youtu.be/" := by decide
  have e2 : js "https://www.youtube.com/v/" = js "https://www.youtube.com/" ++ js "v/" := by
    decide
  have e3 : js "https://www.youtube.com/embed/"
      = js "https://www.youtube.com/" ++ js "embed/" := by decide
  have e4 : js "https://www.youtube.com/watch?v="
      = js "https://www.youtube.com/" ++ js "watch?v=" := by decide
  have e5 : js "https://www.youtube.com/watch?feature=share&v="
      = js "https://www.youtube.com/watch?feature=share" ++ js "&v=" := by decide
  have p1 : ∀ x ∈ js "https://", CharClass.dot.test x = true := by decide
  have p2 : ∀ x ∈ js "https://www.youtube.com/", CharClass.dot.test x = true := by decide
  have p5 : ∀ x ∈ js "https://www.youtube.com/watch?feature=share",
      CharClass.dot.test x = true := by decide
  simp only [extractYouTubeId_eq_scanId, e1, e2, e3, e4, e5, List.append_assoc]
  refine ⟨?_, ?_, ?_, ?_, ?_⟩
  · rw [scanId_marker_idChars _ _ c 9 p1 (lastMarker_youtuBe c hc) hlen hc]
  · rw [scanId_marker_idChars _ _ c 2 p2 (lastMarker_v c hc) hlen hc]
  · rw [scanId_marker_idChars _ _ c 6 p2 (lastMarker_embed c hc) hlen hc]
  · rw [scanId_marker_idChars _ _ c 8 p2 (lastMarker_watch c hc) hlen hc]
  · rw [scanId_marker_idChars _ _ c 3 p5 (lastMarker_ampv c hc) hlen hc]

/-- Witness for C2 at the id `dQw4w9WgXcQ`. -/
theorem extractYouTubeId_five_forms_witness :
    (js "dQw4w9WgXcQ").length = 11 ∧ (∀ x ∈ js "dQw4w9WgXcQ", isIdChar x = true) ∧
    extractYouTubeId (some (js "https://youtu.be/" ++ js "dQw4w9WgXcQ"))
      = .ok (some (js "dQw4w9WgXcQ")) ∧
    extractYouTubeId (some (js "https://www.youtube.com/watch?feature=share&v=" ++
      js "dQw4w9WgXcQ")) = .ok (some (js "dQw4w9WgXcQ")) :=
  ⟨by decide, by decide,
    (extractYouTubeId_five_forms (js "dQw4w9WgXcQ") (by decide) (by decide)).1,
    (extractYouTubeId_five_forms (js "dQw4w9WgXcQ") (by decide) (by decide)).2.2.2.2⟩

theorem specMarkers_of_afterMarker {s : JSStr} {n : Nat} {t : JSStr}
    (h : afterMarker s = some (n, t)) :
    specMarkers.any (fun p => matchesHead p s) = true := by
  have hm : ∀ l : JSStr, matchesHead [] l = true := by intro l; cases l <;> rfl
  rcases afterMarker_cases h with ⟨x, _, hs, _⟩ | ⟨hs, _⟩ | ⟨x, hx, hs, _⟩ | ⟨hs, _⟩ |
    ⟨hs, _⟩ | ⟨hs, _⟩ <;> subst hs
  · simp [specMarkers, matchesHead, js_youtu, js_be, CharClass.test, hm]
  · simp [specMarkers, matchesHead, js_youtu, js_be, js_v, CharClass.test, hm]
  · have hx2 : isWordChar x = true := by simpa [CharClass.test] using hx
    simp [specMarkers, matchesHead, js_youtu, js_be, js_v, js_u, js_slash, CharClass.test,
      hm, hx2]
  · simp [specMarkers, matchesHead, js_youtu, js_be, js_v, js_u, js_slash, js_embed,
      CharClass.test, hm]
  · simp [specMarkers, matchesHead, js_youtu, js_be, js_v, js_u, js_slash, js_embed,
      js_watch, CharClass.test, hm]
  · simp [specMarkers, matchesHead, js_youtu, js_be, js_v, js_u, js_slash, js_embed,
      js_watch, js_ampv, CharClass.test, hm]

theorem containsMarker_of_lastMarker {s : JSStr} {v : Nat × Nat × JSStr}
    (h : lastMarker s = some v) : containsMarker s = true := by
  induction s generalizing v with
  | nil => simp [lastMarker] at h
  | cons x xs ih =>
    unfold lastMarker at h
    by_cases hx : CharClass.dot.test x = true
    · simp only [hx, if_true] at h
      cases hl : lastMarker xs with
      | some w =>
        have := ih hl
        simp only [containsMarker, List.tails, List.any_cons] at this ⊢
        simp [this]
      | none =>
        simp only [hl] at h
        cases ha : afterMarker (x :: xs) with
        | none => simp [ha] at h
        | some w =>
          have := specMarkers_of_afterMarker ha
          simp only [containsMarker, List.tails, List.any_cons]
          simp [this]
    · simp [hx] at h

theorem scanId_of_not_containsMarker (url : JSStr) (h : containsMarker url = false) :
    scanId url = none := by
  unfold scanId
  cases hl : lastMarker url with
  | none => rfl
  | some v => rw [containsMarker_of_lastMarker hl] at h; exact absurd h (by decide)

theorem scanId_length {u v : JSStr} (h : scanId u = some v) : v.length = 11 := by
  unfold scanId at h
  cases hl : lastMarker u with
  | none => simp [hl] at h
  | some w =>
    obtain ⟨p, n, t⟩ := w
    simp only [hl] at h
    by_cases h11 : (t.takeWhile idClass.test).length = 11
    · simp only [h11, if_true, Option.some.injEq] at h
      rw [← h]; exact h11
    · simp [h11] at h

theorem thumbnailFor_scanId (u : JSStr) :
    thumbnailFor (scanId u) =
      match scanId u with
      | some v => js "https://img.youtube.com/vi/" ++ v ++ js "/maxresdefault.jpg"
      | none => [] := by
  cases h : scanId u with
  | none => rfl
  | some v =>
    have hl := scanId_length h
    cases v with
    | nil => simp at hl
    | cons x xs => simp [thumbnailFor, truthy]

theorem thumbnailFor_none : thumbnailFor none = [] := rfl

/-- C3: a URL that contains none of the recognised markers gives `null`, and the video
record built from it by create or update (either server) has `videoId` null and
`thumbnail` the empty string. -/
theorem no_marker_gives_null (url : JSStr) (h : containsMarker url = false) :
    extractYouTubeId (some url) = .ok none ∧
    (∀ (env : Env) (file : JsonFile Video) (body : VideoBody), body.videoUrl = some url →
      ∃ r : Video, r.videoId = none ∧ r.thumbnail = some [] ∧
        (Old.postVideo env file body).response.data = some r ∧
        (Old.postVideo env file body).writes = [readFromFile file ++ [r]]) ∧
    (∀ (env : Env) (file : JsonFile Video) (id : Option Int) (body : VideoBody) (old : Video),
      body.videoUrl = some url →
      (readFromFile file).find? (fun v => idIs id v.id) = some old →
      ∃ g : Video → Video, (∀ v, (g v).videoId = none ∧ (g v).thumbnail = some []) ∧
        (Old.putVideo env file id body).response.data = some (g old) ∧
        (Old.putVideo env file id body).writes
          = [modifyFirst (fun v => idIs id v.id) g (readFromFile file)]) ∧
    (∀ (now : Int) (table : List Video) (body : VideoBody), body.videoUrl = some url →
      ∃ r : Video, r.videoId = none ∧ r.thumbnail = some [] ∧
        Supa.postVideo now none table body =
          { reply := .sent { status := 201, success := true,
                             message := .text (js "Video added"), data := some r },
            table := table ++ [r] }) ∧
    (∀ (table : List Video) (id : Int) (body : VideoBody), body.videoUrl = some url →
      ∃ g : Video → Video, (∀ v, (g v).videoId = none ∧ (g v).thumbnail = some []) ∧
        Supa.putVideo none table id body =
          { reply := .sent { status := 200, success := true,
                             message := .text (js "Video updated"),
                             data := ((Supa.selectWhereId Video.id id table).map g).head? },
            table := Supa.updateWhereId Video.id id g table }) := by
  have hx : extractYouTubeId (some url) = .ok none := by
    rw [extractYouTubeId_eq_scanId, scanId_of_not_containsMarker url h]
  refine ⟨hx, ?_, ?_, ?_, ?_⟩
  · intro env file body hb
    refine ⟨Old.newVideoData env body none, rfl, rfl, ?_, ?_⟩ <;>
      simp [Old.postVideo, hb, hx]
  · intro env file id body old hb hf
    refine ⟨fun v => Old.mergeVideo v body none, fun v => ⟨rfl, rfl⟩, ?_, ?_⟩ <;>
      simp [Old.putVideo, hb, hx, hf]
  · intro now table body hb
    refine ⟨Supa.newVideo now body none, rfl, rfl, ?_⟩
    simp [Supa.postVideo, hb, hx]
  · intro table id body hb
    refine ⟨fun v => Supa.applyVideoUpdate v body none, fun v => ⟨rfl, rfl⟩, ?_⟩
    simp [Supa.putVideo, hb, hx]

/-- Witness for C3 at the URL `https://example.com/clip.mp4`. -/
theorem no_marker_gives_null_witness :
    containsMarker (js "https://example.com/clip.mp4") = false ∧
    extractYouTubeId (some (js "https://example.com/clip.mp4")) = .ok none :=
  ⟨by decide, (no_marker_gives_null (js "https://example.com/clip.mp4") (by decide)).1⟩

/-- C4: every video create and every video update with source URL `u` builds, returns
and writes a record whose `videoUrl` is `u`, whose `videoId` is `extractYouTubeId(u)`
and whose `thumbnail` is the address made from that id, or `''` when the id is null
(flat-file server and database server). -/
theorem video_fields_derived (u : JSStr) :
    (∀ (env : Env) (file : JsonFile Video) (body : VideoBody), body.videoUrl = some u →
      ∃ r : Video, derivedFrom u r ∧
        (Old.postVideo env file body).response.data = some r ∧
        (Old.postVideo env file body).writes = [readFromFile file ++ [r]]) ∧
    (∀ (env : Env) (file : JsonFile Video) (id : Option Int) (body : VideoBody) (old : Video),
      body.videoUrl = some u →
      (readFromFile file).find? (fun v => idIs id v.id) = some old →
      ∃ g : Video → Video, (∀ v, derivedFrom u (g v)) ∧
        (Old.putVideo env file id body).response.data = some (g old) ∧
        (Old.putVideo env file id body).writes
          = [modifyFirst (fun v => idIs id v.id) g (readFromFile file)]) ∧
    (∀ (now : Int) (table : List Video) (body : VideoBody), body.videoUrl = some u →
      ∃ r : Video, derivedFrom u r ∧
        Supa.postVideo now none table body =
          { reply := .sent { status := 201, success := true,
                             message := .text (js "Video added"), data := some r },
            table := table ++ [r] }) ∧
    (∀ (table : List Video) (id : Int) (body : VideoBody), body.videoUrl = some u →
      ∃ g : Video → Video, (∀ v, derivedFrom u (g v)) ∧
        Supa.putVideo none table id body =
          { reply := .sent { status := 200, success := true,
                             message := .text (js "Video updated"),
                             data := ((Supa.selectWhereId Video.id id table).map g).head? },
            table := Supa.updateWhereId Video.id id g table }) := by
  have hx := extractYouTubeId_eq_scanId u
  have ht := thumbnailFor_scanId u
  refine ⟨?_, ?_, ?_, ?_⟩
  · intro env file body hb
    refine ⟨Old.newVideoData env body (scanId u), ⟨hb, hx, ?_⟩, ?_, ?_⟩
    · simp only [Old.newVideoData, ht]
    · simp [Old.postVideo, hb, hx]
    · simp [Old.postVideo, hb, hx]
  · intro env file id body old hb hf
    refine ⟨fun v => Old.mergeVideo v body (scanId u), fun v => ⟨hb, hx, ?_⟩, ?_, ?_⟩
    · simp only [Old.mergeVideo, ht]
    · simp [Old.putVideo, hb, hx, hf]
    · simp [Old.putVideo, hb, hx, hf]
  · intro now table body hb
    refine ⟨Supa.newVideo now body (scanId u), ⟨hb, hx, ?_⟩, ?_⟩
    · simp only [Supa.newVideo, ht]
    · simp [Supa.postVideo, hb, hx]
  · intro table id body hb
    refine ⟨fun v => Supa.applyVideoUpdate v body (scanId u), fun v => ⟨?_, hx, ?_⟩, ?_⟩
    · simp [Supa.applyVideoUpdate, hb]
    · simp only [Supa.applyVideoUpdate, ht]
    · simp [Supa.putVideo, hb, hx]

/-- Witness for C4, the scenario of the specification: `POST /api/videos` with
`videoUrl = "https://youtu.be/dQw4w9WgXcQ"` answers with `videoId = "dQw4w9WgXcQ"` and
`thumbnail = "https://img.youtube.com/vi/dQw4w9WgXcQ/maxresdefault.jpg"`. -/
theorem video_fields_derived_witness :
    ∃ r : Video,
      r.videoUrl = some (js "https://youtu.be/dQw4w9WgXcQ") ∧
      r.videoId = some (js "dQw4w9WgXcQ") ∧
      r.thumbnail = some (js "https://img.youtube.com/vi/dQw4w9WgXcQ/maxresdefault.jpg") ∧
      (Supa.postVideo 1700000000000 none []
        { title := some (js "Clip"), description := none,
          videoUrl := some (js "https://youtu.be/dQw4w9WgXcQ") }).reply =
        .sent { status := 201, success := true, message := .text (js "Video added"),
                data := some r } := by
  obtain ⟨r, ⟨h1, h2, h3⟩, h4⟩ :=
    (video_fields_derived (js "https://youtu.be/dQw4w9WgXcQ")).2.2.1 1700000000000 []
      { title := some (js "Clip"), description := none,
        videoUrl := some (js "https://youtu.be/dQw4w9WgXcQ") } rfl
  have e : extractYouTubeId (some (js "https://youtu.be/dQw4w9WgXcQ"))
      = .ok (some (js "dQw4w9WgXcQ")) := by decide
  rw [e] at h2
  have h5 : r.videoId = some (js "dQw4w9WgXcQ") := by
    injection h2 with h2; exact h2.symm
  refine ⟨r, h1, h5, ?_, ?_⟩
  · rw [h3, h5]; decide
  · rw [h4]

/-! ## The admin check -/

theorem authenticateAdmin_next_iff (secret : JSStr) (header : Option JSStr) :
    authenticateAdmin secret header = .next ↔ header = some secret := by
  unfold authenticateAdmin
  by_cases h : header = some secret <;> simp [h]

theorem authenticateAdmin_reject (secret : JSStr) (header : Option JSStr)
    (h : header ≠ some secret) : authenticateAdmin secret header = .respond unauthorized := by
  simp [authenticateAdmin, h]

theorem runChain_rejected (secret : JSStr) (header : Option JSStr) (fileOk : Bool)
    (ms : List Middleware) (hm : ms.head? = some .authenticateAdmin)
    (h : header ≠ some secret) : runChain secret header fileOk ms = [.rejected401] := by
  cases ms with
  | nil => simp at hm
  | cons m rest =>
    simp only [List.head?_cons, Option.some.injEq] at hm
    subst hm
    simp [runChain, authenticateAdmin_reject secret header h]

/-- C5: `authenticateAdmin` calls the next handler if and only if the
`x-admin-password` header equals the configured secret; any other request (header
absent or different) gets status 401 with body `success: false, message:
'Unauthorized'`, the next handler is not invoked, and the state it would act on is
unchanged. -/
theorem authenticateAdmin_guard (envPassword : Option JSStr) (header : Option JSStr) :
    (authenticateAdmin (ADMIN_PASSWORD envPassword) header = .next
      ↔ header = some (ADMIN_PASSWORD envPassword)) ∧
    (header ≠ some (ADMIN_PASSWORD envPassword) →
      authenticateAdmin (ADMIN_PASSWORD envPassword) header =
        .respond { status := 401, success := false, message := .text (js "Unauthorized"),
                   data := none } ∧
      ∀ {σ ρ : Type} (next : σ → ρ × σ) (st : σ),
        behindAdmin (ADMIN_PASSWORD envPassword) header next st =
          (.inl { status := 401, success := false, message := .text (js "Unauthorized"),
                  data := none }, st)) ∧
    (header = some (ADMIN_PASSWORD envPassword) →
      ∀ {σ ρ : Type} (next : σ → ρ × σ) (st : σ),
        behindAdmin (ADMIN_PASSWORD envPassword) header next st = (.inr (next st).1, (next st).2)) := by
  refine ⟨authenticateAdmin_next_iff _ _, ?_, ?_⟩
  · intro h
    refine ⟨authenticateAdmin_reject _ _ h, ?_⟩
    intro σ ρ next st
    simp only [behindAdmin, authenticateAdmin_reject _ _ h]
    rfl
  · intro h σ ρ next st
    simp only [behindAdmin, (authenticateAdmin_next_iff _ _).mpr h]

/-- Witness for C5: with the default secret and no header, the toggle route behind
`authenticateAdmin` is not run and the messages file is as before. -/
theorem authenticateAdmin_guard_witness :
    (none : Option JSStr) ≠ some (ADMIN_PASSWORD none) ∧
    behindAdmin (ADMIN_PASSWORD none) none
      (fun f : JsonFile Message =>
        ((Old.patchMessageRead ⟨1, [], [], true, false, true⟩ f (some 7)).response,
         (Old.patchMessageRead ⟨1, [], [], true, false, true⟩ f (some 7)).file))
      (.content [⟨7, none, none, none, none, false⟩]) =
      (.inl { status := 401, success := false, message := .text (js "Unauthorized"),
              data := none },
       .content [⟨7, none, none, none, none, false⟩]) :=
  ⟨by decide,
   ((authenticateAdmin_guard none none).2.1 (by decide)).2 _ _⟩

/-- C6: in the route table of server.js the `/api` routes without `authenticateAdmin`
are exactly `GET /api/projects`, `GET /api/videos`, `GET /api/hero-photos`,
`GET /api/resume` and `POST /api/messages`; every other `/api` route has
`authenticateAdmin` as its first middleware, so an unauthorized request ends with the
401 response before any upload middleware or handler runs. -/
theorem api_routes_protected :
    (∀ p ∈ publicApi, ∃ r ∈ routes, r.isApi = true ∧ (r.method, r.path) = p) ∧
    (∀ r ∈ routes, r.isApi = true →
      ((r.method, r.path) ∈ publicApi ↔ r.middlewares.contains .authenticateAdmin = false) ∧
      ((r.method, r.path) ∉ publicApi →
        r.middlewares.head? = some .authenticateAdmin ∧
        ∀ (secret : JSStr) (header : Option JSStr) (fileOk : Bool), header ≠ some secret →
          runChain secret header fileOk r.middlewares = [.rejected401])) := by
  have h1 : ∀ r ∈ routes, r.isApi = true →
      ((r.method, r.path) ∈ publicApi ↔ r.middlewares.contains .authenticateAdmin = false) ∧
      ((r.method, r.path) ∉ publicApi → r.middlewares.head? = some .authenticateAdmin) := by
    decide
  refine ⟨by decide, ?_⟩
  intro r hr hapi
  refine ⟨(h1 r hr hapi).1, fun hp => ⟨(h1 r hr hapi).2 hp, ?_⟩⟩
  intro secret header fileOk hh
  exact runChain_rejected secret header fileOk r.middlewares ((h1 r hr hapi).2 hp) hh

/-- Witness for C6: `PUT /api/projects/:id` without the header stops at
`authenticateAdmin`. -/
theorem api_routes_protected_witness :
    runChain (ADMIN_PASSWORD none) none true
      [Middleware.authenticateAdmin, Middleware.uploadSingle (js "image")] = [.rejected401] :=
  ((api_routes_protected.2
      ⟨.PUT, js "/api/projects/:id", [.authenticateAdmin, .uploadSingle (js "image")]⟩
      (by decide) (by decide)).2 (by decide)).2 (ADMIN_PASSWORD none) none true (by decide)

/-! ## Arrays: `find`, in-place change, stable sort -/

theorem modifyFirst_of_find?_none {α : Type} (p : α → Bool) (f : α → α) (l : List α)
    (h : l.find? p = none) : modifyFirst p f l = l := by
  induction l with
  | nil => rfl
  | cons x xs ih =>
    by_cases hx : p x = true
    · simp [List.find?, hx] at h
    · simp only [Bool.not_eq_true] at hx
      simp only [List.find?, hx] at h
      simp [modifyFirst, hx, ih h]

theorem modifyFirst_split {α : Type} (p : α → Bool) (f : α → α) (l : List α) (m : α)
    (h : l.find? p = some m) :
    ∃ pre post, l = pre ++ m :: post ∧ (∀ x ∈ pre, p x = false) ∧ p m = true ∧
      modifyFirst p f l = pre ++ f m :: post := by
  induction l with
  | nil => simp at h
  | cons x xs ih =>
    by_cases hx : p x = true
    · simp only [List.find?, hx, Option.some.injEq] at h
      subst h
      exact ⟨[], xs, rfl, by simp, hx, by simp [modifyFirst, hx]⟩
    · simp only [Bool.not_eq_true] at hx
      simp only [List.find?, hx] at h
      obtain ⟨pre, post, h1, h2, h3, h4⟩ := ih h
      refine ⟨x :: pre, post, by simp [h1], ?_, h3, by simp [modifyFirst, hx, h4]⟩
      intro y hy
      rcases List.mem_cons.mp hy with rfl | hy
      · exact hx
      · exact h2 y hy

theorem find?_modifyFirst {α : Type} (p : α → Bool) (f : α → α) (hp : ∀ x, p (f x) = p x)
    (l : List α) : (modifyFirst p f l).find? p = (l.find? p).map f := by
  induction l with
  | nil => rfl
  | cons x xs ih =>
    by_cases hx : p x = true
    · simp [modifyFirst, List.find?, hx, hp]
    · simp only [Bool.not_eq_true] at hx
      simp [modifyFirst, List.find?, hx, ih]

theorem modifyFirst_twice {α : Type} (p : α → Bool) (f : α → α) (hp : ∀ x, p (f x) = p x)
    (hf : ∀ x, f (f x) = x) (l : List α) :
    modifyFirst p f (modifyFirst p f l) = l := by
  induction l with
  | nil => rfl
  | cons x xs ih =>
    by_cases hx : p x = true
    · simp [modifyFirst, hx, hp, hf]
    · simp only [Bool.not_eq_true] at hx
      simp [modifyFirst, hx, ih]

theorem find?_isSome_of_mem {α : Type} (p : α → Bool) (l : List α)
    (h : ∃ m ∈ l, p m = true) : ∃ m, l.find? p = some m := by
  cases hf : l.find? p with
  | some m => exact ⟨m, rfl⟩
  | none =>
    obtain ⟨m, hm, hpm⟩ := h
    have := List.find?_eq_none.mp hf m hm
    simp [hpm] at this

theorem find?_none_of_forall {α : Type} (p : α → Bool) (l : List α)
    (h : ∀ m ∈ l, p m = false) : l.find? p = none := by
  rw [List.find?_eq_none]
  intro x hx
  simp [h x hx]

section Sorting

variable {α : Type} (key : α → Int) (id : Option Int) (f : α → α)

theorem idIs_false_of_lt (a b : α) (ha : idIs id (key a) = true) (hr : ¬ key b ≤ key a) :
    idIs id (key b) = false := by
  cases id with
  | none => rfl
  | some k =>
    simp only [idIs, beq_iff_eq] at ha
    simp only [idIs, beq_eq_false_iff_ne, ne_eq]
    omega

theorem orderedInsert_modifyFirst_of_not (hf : ∀ x, key (f x) = key x) (a : α)
    (ha : idIs id (key a) = false) (S : List α) :
    modifyFirst (fun x => idIs id (key x)) f
        (S.orderedInsert (fun a b => key b ≤ key a) a) =
      (modifyFirst (fun x => idIs id (key x)) f S).orderedInsert
        (fun a b => key b ≤ key a) a := by
  induction S with
  | nil => simp [modifyFirst, ha]
  | cons b S ih =>
    by_cases hr : key b ≤ key a
    · by_cases hb : idIs id (key b) = true
      · simp [List.orderedInsert, modifyFirst, hr, hb, ha, hf]
      · simp only [Bool.not_eq_true] at hb
        simp [List.orderedInsert, modifyFirst, hr, hb, ha]
    · by_cases hb : idIs id (key b) = true
      · simp [List.orderedInsert, modifyFirst, hr, hb, hf]
      · simp only [Bool.not_eq_true] at hb
        simp [List.orderedInsert, modifyFirst, hr, hb, ih]

theorem orderedInsert_modifyFirst_of_is (hf : ∀ x, key (f x) = key x) (a : α)
    (ha : idIs id (key a) = true) (S : List α) :
    modifyFirst (fun x => idIs id (key x)) f
        (S.orderedInsert (fun a b => key b ≤ key a) a) =
      S.orderedInsert (fun a b => key b ≤ key a) (f a) := by
  induction S with
  | nil => simp [modifyFirst, ha]
  | cons b S ih =>
    by_cases hr : key b ≤ key a
    · simp [List.orderedInsert, modifyFirst, hr, ha, hf]
    · have hb := idIs_false_of_lt key id a b ha hr
      simp [List.orderedInsert, modifyFirst, hr, hb, hf, ih]

theorem jsSort_modifyFirst (hf : ∀ x, key (f x) = key x) (l : List α) :
    jsSort (fun a b => key b - key a) (modifyFirst (fun x => idIs id (key x)) f l) =
      modifyFirst (fun x => idIs id (key x)) f (jsSort (fun a b => key b - key a) l) := by
  unfold jsSort
  simp only [sub_nonpos]
  induction l with
  | nil => rfl
  | cons a l ih =>
    by_cases ha : idIs id (key a) = true
    · simp only [modifyFirst, ha, if_true, List.insertionSort]
      rw [orderedInsert_modifyFirst_of_is key id f hf a ha]
    · simp only [Bool.not_eq_true] at ha
      simp only [modifyFirst, ha, List.insertionSort, Bool.false_eq_true, if_false]
      rw [orderedInsert_modifyFirst_of_not key id f hf a ha, ih]

theorem find?_orderedInsert (a : α) (S : List α) :
    (S.orderedInsert (fun a b => key b ≤ key a) a).find? (fun x => idIs id (key x)) =
      if idIs id (key a) = true then some a else S.find? (fun x => idIs id (key x)) := by
  induction S with
  | nil => by_cases ha : idIs id (key a) = true <;> simp [List.find?, ha]
  | cons b S ih =>
    by_cases hr : key b ≤ key a
    · by_cases ha : idIs id (key a) = true <;> simp [List.orderedInsert, List.find?, hr, ha]
    · by_cases ha : idIs id (key a) = true
      · have hb := idIs_false_of_lt key id a b ha hr
        simp [List.orderedInsert, List.find?, hr, ha, hb, ih]
      · by_cases hb : idIs id (key b) = true <;>
          simp [List.orderedInsert, List.find?, hr, ha, hb, ih]

theorem find?_jsSort (l : List α) :
    (jsSort (fun a b => key b - key a) l).find? (fun x => idIs id (key x)) =
      l.find? (fun x => idIs id (key x)) := by
  unfold jsSort
  simp only [sub_nonpos]
  induction l with
  | nil => rfl
  | cons a l ih =>
    simp only [List.insertionSort, find?_orderedInsert, ih]
    by_cases ha : idIs id (key a) = true <;> simp [List.find?, ha]

end Sorting

/-! ## Messages: the read flag -/

theorem toggleRead_toggleRead (m : Message) : toggleRead (toggleRead m) = m := by
  cases m; simp [toggleRead]

theorem toggleRead_id (m : Message) : (toggleRead m).id = m.id := rfl

theorem patchMessageRead_found (env : Env) (file : JsonFile Message) (id : Option Int)
    (m : Message) (h : (readFromFile file).find? (fun m => idIs id m.id) = some m) :
    Old.patchMessageRead env file id =
      { response := { status := 200, success := true,
                      message := .text (js "Status updated"), data := none },
        file := (writeToFile env.writeOk file
          (modifyFirst (fun m => idIs id m.id) toggleRead (readFromFile file))).2,
        writes := [modifyFirst (fun m => idIs id m.id) toggleRead (readFromFile file)],
        unlinked := [] } := by
  simp only [Old.patchMessageRead, h]

theorem patchMessageRead_missing (env : Env) (file : JsonFile Message) (id : Option Int)
    (h : (readFromFile file).find? (fun m => idIs id m.id) = none) :
    Old.patchMessageRead env file id =
      { response := { status := 404, success := false,
                      message := .text (js "Message not found"), data := none },
        file := file, writes := [], unlinked := [] } := by
  simp only [Old.patchMessageRead, h]

theorem old_toggle_twice (env1 env2 : Env) (msgs : List Message) (id : Option Int)
    (h1 : env1.writeOk = true) (h2 : env2.writeOk = true)
    (hin : ∃ m ∈ msgs, idIs id m.id = true) :
    (Old.patchMessageRead env1 (.content msgs) id).response.status = 200 ∧
    (Old.patchMessageRead env2 (Old.patchMessageRead env1 (.content msgs) id).file id).response.status
      = 200 ∧
    (Old.patchMessageRead env2 (Old.patchMessageRead env1 (.content msgs) id).file id).file
      = .content msgs := by
  obtain ⟨m, hm⟩ := find?_isSome_of_mem (fun m : Message => idIs id m.id) msgs hin
  have e1 := patchMessageRead_found env1 (.content msgs) id m hm
  simp only [readFromFile, writeToFile, h1, if_true] at e1
  have hm2 : (readFromFile (JsonFile.content (modifyFirst (fun m : Message => idIs id m.id)
      toggleRead msgs))).find? (fun m => idIs id m.id) = some (toggleRead m) := by
    simp only [readFromFile]
    rw [find?_modifyFirst (fun m : Message => idIs id m.id) toggleRead (fun _ => rfl), hm]; rfl
  have e2 := patchMessageRead_found env2 _ id _ hm2
  simp only [readFromFile, writeToFile, h2, if_true] at e2
  rw [e1]
  refine ⟨rfl, ?_, ?_⟩
  · rw [e2]
  · rw [e2]
    simp only
    rw [modifyFirst_twice (fun m : Message => idIs id m.id) toggleRead (fun _ => rfl)
      toggleRead_toggleRead]

theorem selectWhereId_updateWhereId {α : Type} (key : α → Int) (id : Int) (g : α → α)
    (hg : ∀ r, key (g r) = key r) (t : List α) :
    Supa.selectWhereId key id (Supa.updateWhereId key id g t) =
      (Supa.selectWhereId key id t).map g := by
  induction t with
  | nil => rfl
  | cons x xs ih =>
    unfold Supa.selectWhereId Supa.updateWhereId at ih ⊢
    by_cases hx : key x = id
    · have h1 : (key x == id) = true := by simpa using hx
      have h2 : (key (g x) == id) = true := by rw [hg]; exact h1
      simp only [List.map_cons, h1, if_true, List.filter_cons, h2, ih]
    · have h1 : (key x == id) = false := by simpa using hx
      simp only [List.map_cons, h1, List.filter_cons, ih, Bool.false_eq_true, if_false]

theorem updateWhereId_twice {α : Type} (key : α → Int) (id : Int) (g1 g2 : α → α)
    (hg : ∀ r, key (g1 r) = key r) (t : List α) :
    Supa.updateWhereId key id g2 (Supa.updateWhereId key id g1 t) =
      Supa.updateWhereId key id (fun r => g2 (g1 r)) t := by
  induction t with
  | nil => rfl
  | cons x xs ih =>
    unfold Supa.updateWhereId at ih ⊢
    by_cases hx : key x = id
    · have h1 : (key x == id) = true := by simpa using hx
      have h2 : (key (g1 x) == id) = true := by rw [hg]; exact h1
      simp only [List.map_cons, h1, if_true, h2, ih]
    · have h1 : (key x == id) = false := by simpa using hx
      simp only [List.map_cons, h1, ih, Bool.false_eq_true, if_false]

theorem updateWhereId_self {α : Type} (key : α → Int) (id : Int) (g : α → α) (t : List α)
    (h : ∀ r ∈ t, key r = id → g r = r) : Supa.updateWhereId key id g t = t := by
  induction t with
  | nil => rfl
  | cons x xs ih =>
    have ih2 := ih (fun r hr => h r (List.mem_cons_of_mem _ hr))
    unfold Supa.updateWhereId at ih2 ⊢
    by_cases hx : key x = id
    · have h1 : (key x == id) = true := by simpa using hx
      simp only [List.map_cons, h1, if_true, ih2, h x (List.mem_cons_self _ _) hx]
    · have h1 : (key x == id) = false := by simpa using hx
      simp only [List.map_cons, h1, ih2, Bool.false_eq_true, if_false]

theorem selectWhereId_nil_of_absent {α : Type} (key : α → Int) (id : Int) (t : List α)
    (h : ∀ r ∈ t, key r ≠ id) : Supa.selectWhereId key id t = [] := by
  unfold Supa.selectWhereId
  rw [List.filter_eq_nil_iff]
  intro r hr
  simpa using h r hr

theorem supa_toggle_twice (table : List Message) (id : Int) (m : Message)
    (h : Supa.selectWhereId Message.id id table = [m]) :
    (Supa.patchMessageRead true none table id).reply =
      .sent { status := 200, success := true, message := .text (js "Status updated"),
              data := none } ∧
    (Supa.patchMessageRead true none (Supa.patchMessageRead true none table id).table id).reply =
      .sent { status := 200, success := true, message := .text (js "Status updated"),
              data := none } ∧
    (Supa.patchMessageRead true none (Supa.patchMessageRead true none table id).table id).table
      = table := by
  have hall : ∀ r ∈ table, r.id = id → r = m := by
    intro r hr hid
    have : r ∈ Supa.selectWhereId Message.id id table :=
      List.mem_filter.mpr ⟨hr, by simpa using hid⟩
    rw [h] at this
    simpa using this
  have e1 : Supa.patchMessageRead true none table id =
      { reply := .sent { status := 200, success := true,
                         message := .text (js "Status updated"), data := none },
        table := Supa.updateWhereId Message.id id (Supa.setRead (!m.read)) table } := by
    simp only [Supa.patchMessageRead, if_true, h, Supa.single]
  have hf2 : Supa.selectWhereId Message.id id
      (Supa.updateWhereId Message.id id (Supa.setRead (!m.read)) table)
      = [Supa.setRead (!m.read) m] := by
    rw [selectWhereId_updateWhereId Message.id id (Supa.setRead (!m.read)) (fun _ => rfl), h]; rfl
  have e2 : Supa.patchMessageRead true none
      (Supa.updateWhereId Message.id id (Supa.setRead (!m.read)) table) id =
      { reply := .sent { status := 200, success := true,
                         message := .text (js "Status updated"), data := none },
        table := Supa.updateWhereId Message.id id
          (Supa.setRead (!(Supa.setRead (!m.read) m).read))
          (Supa.updateWhereId Message.id id (Supa.setRead (!m.read)) table) } := by
    simp only [Supa.patchMessageRead, if_true, hf2, Supa.single]
  rw [e1]
  refine ⟨rfl, ?_, ?_⟩
  · rw [e2]
  · rw [e2]
    simp only
    rw [updateWhereId_twice Message.id id (Supa.setRead (!m.read)) _ (fun _ => rfl)]
    apply updateWhereId_self
    intro r hr hid
    have := hall r hr hid
    subst this
    cases r
    simp [Supa.setRead]

/-- C7: a message stored by submission has `read = false` (both servers), and two
toggle-read requests on the id of a stored message put its flag back: in flat-file
mode, when the file writes succeed, the messages file after the two toggles holds the
collection it held before; in the database server, when the calls succeed and one row
has the id, the table is the table before. -/
theorem read_flag_false_then_toggle_twice :
    (∀ (env : Env) (file : JsonFile Message) (body : MessageBody),
      (Old.newMessageData env body).read = false ∧
      (Old.postMessage env file body).writes
        = [readFromFile file ++ [Old.newMessageData env body]] ∧
      (env.writeOk = true → (Old.postMessage env file body).file
        = .content (readFromFile file ++ [Old.newMessageData env body]))) ∧
    (∀ (now : Int) (table : List Message) (body : MessageBody),
      ∃ m : Message, m.read = false ∧ m.id = now ∧
        (Supa.postMessage now none table body).table = table ++ [m]) ∧
    (∀ (env1 env2 : Env) (msgs : List Message) (id : Option Int),
      env1.writeOk = true → env2.writeOk = true → (∃ m ∈ msgs, idIs id m.id = true) →
      (Old.patchMessageRead env1 (.content msgs) id).response.status = 200 ∧
      (Old.patchMessageRead env2
        (Old.patchMessageRead env1 (.content msgs) id).file id).response.status = 200 ∧
      (Old.patchMessageRead env2 (Old.patchMessageRead env1 (.content msgs) id).file id).file
        = .content msgs) ∧
    (∀ (env env1 env2 : Env) (file : JsonFile Message) (body : MessageBody),
      env.writeOk = true → env1.writeOk = true → env2.writeOk = true →
      (Old.patchMessageRead env2
        (Old.patchMessageRead env1 (Old.postMessage env file body).file (some env.now)).file
        (some env.now)).file
        = .content (readFromFile file ++ [Old.newMessageData env body])) ∧
    (∀ (table : List Message) (id : Int) (m : Message),
      Supa.selectWhereId Message.id id table = [m] →
      (Supa.patchMessageRead true none table id).reply =
        .sent { status := 200, success := true, message := .text (js "Status updated"),
                data := none } ∧
      (Supa.patchMessageRead true none (Supa.patchMessageRead true none table id).table id).reply
        = .sent { status := 200, success := true, message := .text (js "Status updated"),
                  data := none } ∧
      (Supa.patchMessageRead true none (Supa.patchMessageRead true none table id).table id).table
        = table) := by
  refine ⟨?_, ?_, ?_, ?_, ?_⟩
  · intro env file body
    refine ⟨rfl, rfl, ?_⟩
    intro hw
    simp [Old.postMessage, writeToFile, hw]
  · intro now table body
    exact ⟨_, rfl, rfl, rfl⟩
  · intro env1 env2 msgs id h1 h2 hin
    exact old_toggle_twice env1 env2 msgs id h1 h2 hin
  · intro env env1 env2 file body hw h1 h2
    have e : (Old.postMessage env file body).file
        = .content (readFromFile file ++ [Old.newMessageData env body]) := by
      simp [Old.postMessage, writeToFile, hw]
    rw [e]
    refine (old_toggle_twice env1 env2 _ (some env.now) h1 h2 ?_).2.2
    exact ⟨Old.newMessageData env body, by simp, by simp [idIs, Old.newMessageData]⟩
  · intro table id m h
    exact supa_toggle_twice table id m h

/-- Witness for C7: one stored message with id 7, toggled twice in flat-file mode. -/
theorem read_flag_false_then_toggle_twice_witness :
    (Old.patchMessageRead ⟨2, [], [], true, false, true⟩
      (Old.patchMessageRead ⟨1, [], [], true, false, true⟩
        (.content [⟨7, none, none, some (js "hi"), none, false⟩]) (some 7)).file (some 7)).file
      = .content [⟨7, none, none, some (js "hi"), none, false⟩] :=
  (read_flag_false_then_toggle_twice.2.2.1 ⟨1, [], [], true, false, true⟩
    ⟨2, [], [], true, false, true⟩ [⟨7, none, none, some (js "hi"), none, false⟩] (some 7)
    rfl rfl ⟨_, List.mem_singleton.mpr rfl, by decide⟩).2.2

/-- C8: for every messages collection and every id present in it, toggle-read answers
success; when its file write succeeds, the stored collection and the listing afterwards
are the ones before with the read flag of that message (the first one with the id)
negated, every other message and every other field of that message (id, name, email,
message, timestamp) as before. -/
theorem toggle_read_frame (env : Env) (msgs : List Message) (id : Option Int)
    (hw : env.writeOk = true) (hin : ∃ m ∈ msgs, idIs id m.id = true) :
    (Old.patchMessageRead env (.content msgs) id).response =
      { status := 200, success := true, message := .text (js "Status updated"),
        data := none } ∧
    ∃ (m : Message) (pre post pre1 post1 : List Message),
      idIs id m.id = true ∧
      msgs = pre ++ m :: post ∧ (∀ x ∈ pre, idIs id x.id = false) ∧
      (Old.patchMessageRead env (.content msgs) id).file =
        .content (pre ++ ⟨m.id, m.name, m.email, m.message, m.timestamp, !m.read⟩ :: post) ∧
      Old.getMessages (.content msgs) = pre1 ++ m :: post1 ∧
      (∀ x ∈ pre1, idIs id x.id = false) ∧
      Old.getMessages (Old.patchMessageRead env (.content msgs) id).file =
        pre1 ++ ⟨m.id, m.name, m.email, m.message, m.timestamp, !m.read⟩ :: post1 := by
  obtain ⟨m, hm⟩ := find?_isSome_of_mem (fun m : Message => idIs id m.id) msgs hin
  have e := patchMessageRead_found env (.content msgs) id m hm
  simp only [readFromFile, writeToFile, hw, if_true] at e
  obtain ⟨pre, post, h1, h2, h3, h4⟩ :=
    modifyFirst_split (fun m : Message => idIs id m.id) toggleRead msgs m hm
  have hs : (jsSort (fun a b : Message => b.id - a.id) msgs).find?
      (fun m => idIs id m.id) = some m := by
    rw [find?_jsSort Message.id id msgs]; exact hm
  obtain ⟨pre1, post1, k1, k2, _, k4⟩ :=
    modifyFirst_split (fun m : Message => idIs id m.id) toggleRead _ m hs
  rw [e]
  refine ⟨rfl, m, pre, post, pre1, post1, h3, h1, h2, ?_, ?_, k2, ?_⟩
  · simp only [h4]; rfl
  · simp only [Old.getMessages, readFromFile]; exact k1
  · simp only [Old.getMessages, readFromFile]
    rw [jsSort_modifyFirst Message.id id toggleRead (fun _ => rfl) msgs, k4]; rfl

/-- Witness for C8, the scenario of the specification: toggling message 123 with
`read = false`; the listing then shows it with `read = true`. -/
theorem toggle_read_frame_witness :
    (Old.patchMessageRead ⟨1, [], [], true, false, true⟩
      (.content [⟨124, none, none, none, none, false⟩, ⟨123, none, none, none, none, false⟩])
      (some 123)).response.status = 200 ∧
    Old.getMessages (Old.patchMessageRead ⟨1, [], [], true, false, true⟩
      (.content [⟨124, none, none, none, none, false⟩, ⟨123, none, none, none, none, false⟩])
      (some 123)).file =
      [⟨124, none, none, none, none, false⟩, ⟨123, none, none, none, none, true⟩] :=
  ⟨congrArg Response.status (toggle_read_frame ⟨1, [], [], true, false, true⟩
      [⟨124, none, none, none, none, false⟩, ⟨123, none, none, none, none, false⟩] (some 123)
      rfl ⟨⟨123, none, none, none, none, false⟩, by simp, by decide⟩).1,
   by decide⟩

/-! ## Updates of an id that is not stored -/

/-- C9 (as amended): in flat-file mode, for every collection and every id not present in
it, message toggle-read, project update and hero-photo update answer 404, and video
update answers 404 whenever the request carries a `videoUrl` string (500 when it
carries none); none of them writes the collection, which is as before. -/
theorem update_missing_id_not_found (env : Env) (id : Option Int) :
    (∀ (file : JsonFile Message), (∀ r ∈ readFromFile file, idIs id r.id = false) →
      Old.patchMessageRead env file id =
        { response := { status := 404, success := false,
                        message := .text (js "Message not found"), data := none },
          file := file, writes := [], unlinked := [] }) ∧
    (∀ (file : JsonFile Project) (body : ProjectBody) (reqFile : Option UploadedFile),
      (∀ r ∈ readFromFile file, idIs id r.id = false) →
      Old.putProject env file id body reqFile =
        { response := { status := 404, success := false,
                        message := .text (js "Project not found"), data := none },
          file := file, writes := [], unlinked := [] }) ∧
    (∀ (file : JsonFile HeroPhoto) (body : HeroBody) (reqFile : Option UploadedFile),
      (∀ r ∈ readFromFile file, idIs id r.id = false) →
      Old.putHeroPhoto env file id body reqFile =
        { response := { status := 404, success := false,
                        message := .text (js "Hero photo not found"), data := none },
          file := file, writes := [], unlinked := [] }) ∧
    (∀ (file : JsonFile Video) (body : VideoBody),
      (∀ r ∈ readFromFile file, idIs id r.id = false) →
      (Old.putVideo env file id body).file = file ∧
      (Old.putVideo env file id body).writes = [] ∧
      (∀ u, body.videoUrl = some u →
        Old.putVideo env file id body =
          { response := { status := 404, success := false,
                          message := .text (js "Video not found"), data := none },
            file := file, writes := [], unlinked := [] }) ∧
      (body.videoUrl = none → (Old.putVideo env file id body).response.status = 500)) := by
  refine ⟨?_, ?_, ?_, ?_⟩
  · intro file h
    exact patchMessageRead_missing env file id (find?_none_of_forall _ _ h)
  · intro file body reqFile h
    have hf := find?_none_of_forall (fun p : Project => idIs id p.id) _ h
    simp only [Old.putProject, hf, Old.notFound]
  · intro file body reqFile h
    have hf := find?_none_of_forall (fun p : HeroPhoto => idIs id p.id) _ h
    simp only [Old.putHeroPhoto, hf, Old.notFound]
  · intro file body h
    have hf := find?_none_of_forall (fun v : Video => idIs id v.id) _ h
    have hu : ∀ u, body.videoUrl = some u →
        Old.putVideo env file id body =
          { response := { status := 404, success := false,
                          message := .text (js "Video not found"), data := none },
            file := file, writes := [], unlinked := [] } := by
      intro u hb
      simp only [Old.putVideo, hb, extractYouTubeId_eq_scanId, hf, Old.notFound]
    cases hb : body.videoUrl with
    | none =>
      have e : Old.putVideo env file id body = Old.caught file .typeError := by
        simp only [Old.putVideo, hb, extractYouTubeId]
      refine ⟨by rw [e]; rfl, by rw [e]; rfl, fun u hu2 => by simp at hu2, fun _ => by rw [e]; rfl⟩
    | some u =>
      have e := hu u hb
      refine ⟨by rw [e], by rw [e], fun u2 hu2 => ?_, fun hn => by simp at hn⟩
      rw [e]

/-- Witness for C9 (as amended): updates of id 5 on empty collections. -/
theorem update_missing_id_not_found_witness :
    (Old.putProject ⟨1, [], [], true, false, true⟩ .absent (some 5)
      ⟨some (js "t"), none, none⟩ none).response.status = 404 ∧
    (Old.putVideo ⟨1, [], [], true, false, true⟩ (.content []) (some 5)
      ⟨none, none, some (js "https://youtu.be/dQw4w9WgXcQ")⟩).response.status = 404 :=
  ⟨congrArg (fun o => o.response.status)
      ((update_missing_id_not_found ⟨1, [], [], true, false, true⟩ (some 5)).2.1 .absent
        ⟨some (js "t"), none, none⟩ none (by simp [readFromFile])),
   congrArg (fun o => o.response.status)
      (((update_missing_id_not_found ⟨1, [], [], true, false, true⟩ (some 5)).2.2.2
        (.content []) ⟨none, none, some (js "https://youtu.be/dQw4w9WgXcQ")⟩
        (by simp [readFromFile])).2.2.1 _ rfl)⟩

/-- Counterexample to C9 as stated: a video update for id 5, which the empty collection
does not hold, whose body has no `videoUrl`, is answered with status 500, not 404. -/
theorem update_missing_id_counterexample :
    (∀ r ∈ readFromFile (JsonFile.content ([] : List Video)), idIs (some 5) r.id = false) ∧
    (Old.putVideo ⟨1, [], [], true, false, true⟩ (.content []) (some 5)
      ⟨some (js "t"), none, none⟩).response.status = 500 ∧
    (Old.putVideo ⟨1, [], [], true, false, true⟩ (.content []) (some 5)
      ⟨some (js "t"), none, none⟩).response.status ≠ 404 := by
  refine ⟨by simp [readFromFile], by decide, by decide⟩

/-- C10 (what the code does): in the database server, with a valid admin header and
no backend failure, `PATCH /api/messages/:id/read` on an id that matches no row throws
before any response is sent, and `PUT /api/projects/:id` on such an id answers 200 with
`success: true`; neither answers 404. -/
theorem supa_missing_id_no_404 (id : Int) :
    (∀ (selectOk : Bool) (updateErr : Option JSStr) (table : List Message),
      (∀ r ∈ table, r.id ≠ id) →
      Supa.patchMessageRead selectOk updateErr table id =
        { reply := .unhandled .typeError, table := table }) ∧
    (∀ (uploaded : Except JSStr JSStr) (table : List Project) (body : ProjectBody),
      (∀ r ∈ table, r.id ≠ id) →
      Supa.putProject uploaded none table id body none =
        { reply := .sent { status := 200, success := true,
                           message := .text (js "Project updated"), data := none },
          table := table }) := by
  refine ⟨?_, ?_⟩
  · intro selectOk updateErr table h
    have hs := selectWhereId_nil_of_absent Message.id id table h
    cases selectOk <;> simp [Supa.patchMessageRead, hs, Supa.single]
  · intro uploaded table body h
    have hs := selectWhereId_nil_of_absent Project.id id table h
    have hu : Supa.updateWhereId Project.id id
        (fun p => Supa.applyProjectUpdate p body none) table = table :=
      updateWhereId_self _ _ _ _ (fun r hr hid => absurd hid (h r hr))
    simp [Supa.putProject, hs, hu]

/-- Witness for C10: id 123 on tables that do not hold it. -/
theorem supa_missing_id_no_404_witness :
    (Supa.patchMessageRead true none [⟨7, none, none, none, none, false⟩] 123).reply
      = .unhandled .typeError ∧
    (Supa.putProject (.ok []) none [] 123 ⟨some (js "t"), none, none⟩ none).reply
      = .sent { status := 200, success := true, message := .text (js "Project updated"),
                data := none } :=
  ⟨congrArg Supa.DbOutcome.reply
      ((supa_missing_id_no_404 123).1 true none [⟨7, none, none, none, none, false⟩]
        (by decide)),
   congrArg Supa.DbOutcome.reply
      ((supa_missing_id_no_404 123).2 (.ok []) [] ⟨some (js "t"), none, none⟩ (by simp))⟩

/-! ## Delete -/

theorem readFromFile_writeToFile {α : Type} (ok : Bool) (f : JsonFile α) (l : List α) :
    readFromFile (writeToFile ok f l).2 = if ok = true then l else readFromFile f := by
  cases ok <;> rfl

theorem filter_not_idIs_of_absent {α : Type} (key : α → Int) (id : Option Int) (l : List α)
    (h : ∀ r ∈ l, idIs id (key r) = false) : l.filter (fun r => !idIs id (key r)) = l := by
  rw [List.filter_eq_self]
  intro r hr
  simp [h r hr]

theorem deleteWhereId_of_absent {α : Type} (key : α → Int) (id : Int) (table : List α)
    (h : ∀ r ∈ table, key r ≠ id) : Supa.deleteWhereId key id table = table := by
  unfold Supa.deleteWhereId
  rw [List.filter_eq_self]
  intro r hr
  simpa using h r hr

/-- C11 (as amended): for every collection and every id not present in it, delete
answers with the same 200 success response as for a stored id, never NotFound, and the
stored records are as before (flat-file mode hands the unchanged array to the write
helper; the database server, when the call does not fail, leaves the table as it was). -/
theorem delete_missing_id_succeeds (env : Env) (id : Option Int) (k : Int) :
    (∀ (file : JsonFile Message), (∀ r ∈ readFromFile file, idIs id r.id = false) →
      (Old.deleteMessage env file id).response =
        { status := 200, success := true, message := .text (js "Message deleted"),
          data := none } ∧
      (Old.deleteMessage env file id).writes = [readFromFile file] ∧
      readFromFile (Old.deleteMessage env file id).file = readFromFile file) ∧
    (∀ (file : JsonFile Project), (∀ r ∈ readFromFile file, idIs id r.id = false) →
      (Old.deleteProject env file id).response =
        { status := 200, success := true, message := .text (js "Project deleted"),
          data := none } ∧
      (Old.deleteProject env file id).writes = [readFromFile file] ∧
      readFromFile (Old.deleteProject env file id).file = readFromFile file) ∧
    (∀ (file : JsonFile Video), (∀ r ∈ readFromFile file, idIs id r.id = false) →
      (Old.deleteVideo env file id).response =
        { status := 200, success := true, message := .text (js "Video deleted"),
          data := none } ∧
      (Old.deleteVideo env file id).writes = [readFromFile file] ∧
      readFromFile (Old.deleteVideo env file id).file = readFromFile file) ∧
    (∀ (file : JsonFile HeroPhoto), (∀ r ∈ readFromFile file, idIs id r.id = false) →
      (Old.deleteHeroPhoto env file id).response =
        { status := 200, success := true, message := .text (js "Hero photo deleted"),
          data := none } ∧
      (Old.deleteHeroPhoto env file id).writes = [readFromFile file] ∧
      readFromFile (Old.deleteHeroPhoto env file id).file = readFromFile file) ∧
    (∀ (table : List Message), (∀ r ∈ table, r.id ≠ k) →
      Supa.deleteMessage none table k =
        { reply := .sent { status := 200, success := true,
                           message := .text (js "Message deleted"), data := none },
          table := table }) ∧
    (∀ (table : List Project), (∀ r ∈ table, r.id ≠ k) →
      Supa.deleteProject none table k =
        { reply := .sent { status := 200, success := true,
                           message := .text (js "Project deleted"), data := none },
          table := table }) ∧
    (∀ (table : List Video), (∀ r ∈ table, r.id ≠ k) →
      Supa.deleteVideo none table k =
        { reply := .sent { status := 200, success := true,
                           message := .text (js "Video deleted"), data := none },
          table := table }) ∧
    (∀ (table : List HeroPhoto), (∀ r ∈ table, r.id ≠ k) →
      Supa.deleteHeroPhoto none table k =
        { reply := .sent { status := 200, success := true,
                           message := .text (js "Hero photo deleted"), data := none },
          table := table }) := by
  refine ⟨?_, ?_, ?_, ?_, ?_, ?_, ?_, ?_⟩
  · intro file h
    have hf := filter_not_idIs_of_absent Message.id id _ h
    refine ⟨rfl, ?_, ?_⟩
    · simp only [Old.deleteMessage]; rw [hf]
    · simp only [Old.deleteMessage]; rw [hf, readFromFile_writeToFile]; split <;> rfl
  · intro file h
    have hf := filter_not_idIs_of_absent Project.id id _ h
    have hn := find?_none_of_forall (fun p : Project => idIs id p.id) _ h
    have e : Old.deleteProject env file id =
        { response := { status := 200, success := true,
                        message := .text (js "Project deleted"), data := none },
          file := (writeToFile env.writeOk file (readFromFile file)).2,
          writes := [readFromFile file], unlinked := [] } := by
      simp only [Old.deleteProject, hn, hf]
      simp
    rw [e]
    refine ⟨rfl, rfl, ?_⟩
    simp only; rw [readFromFile_writeToFile]; split <;> rfl
  · intro file h
    have hf := filter_not_idIs_of_absent Video.id id _ h
    refine ⟨rfl, ?_, ?_⟩
    · simp only [Old.deleteVideo]; rw [hf]
    · simp only [Old.deleteVideo]; rw [hf, readFromFile_writeToFile]; split <;> rfl
  · intro file h
    have hf := filter_not_idIs_of_absent HeroPhoto.id id _ h
    have hn := find?_none_of_forall (fun p : HeroPhoto => idIs id p.id) _ h
    have e : Old.deleteHeroPhoto env file id =
        { response := { status := 200, success := true,
                        message := .text (js "Hero photo deleted"), data := none },
          file := (writeToFile env.writeOk file (readFromFile file)).2,
          writes := [readFromFile file], unlinked := [] } := by
      simp only [Old.deleteHeroPhoto, hn, hf]
      simp
    rw [e]
    refine ⟨rfl, rfl, ?_⟩
    simp only; rw [readFromFile_writeToFile]; split <;> rfl
  · intro table h
    simp only [Supa.deleteMessage, Supa.deleteById, deleteWhereId_of_absent _ _ _ h]
  · intro table h
    simp only [Supa.deleteProject, Supa.deleteById, deleteWhereId_of_absent _ _ _ h]
  · intro table h
    simp only [Supa.deleteVideo, Supa.deleteById, deleteWhereId_of_absent _ _ _ h]
  · intro table h
    simp only [Supa.deleteHeroPhoto, Supa.deleteById, deleteWhereId_of_absent _ _ _ h]

/-- Witness for C11 (as amended): deleting id 5 from a collection that holds only id 7. -/
theorem delete_missing_id_succeeds_witness :
    (Old.deleteMessage ⟨1, [], [], true, false, true⟩
      (.content [⟨7, none, none, none, none, false⟩]) (some 5)).response.status = 200 ∧
    readFromFile (Old.deleteMessage ⟨1, [], [], true, false, true⟩
      (.content [⟨7, none, none, none, none, false⟩]) (some 5)).file
      = [⟨7, none, none, none, none, false⟩] :=
  ⟨congrArg Response.status
      ((delete_missing_id_succeeds ⟨1, [], [], true, false, true⟩ (some 5) 5).1
        (.content [⟨7, none, none, none, none, false⟩]) (by decide)).1,
   ((delete_missing_id_succeeds ⟨1, [], [], true, false, true⟩ (some 5) 5).1
        (.content [⟨7, none, none, none, none, false⟩]) (by decide)).2.2⟩

/-- Counterexample to C11 as stated: deleting id 5, which neither collection holds, is
answered with status 200 and `success: true` by both servers, not with NotFound. -/
theorem delete_missing_id_counterexample :
    (∀ r ∈ readFromFile (JsonFile.content [(⟨7, none, none, none, none, false⟩ : Message)]),
      idIs (some 5) r.id = false) ∧
    (Old.deleteMessage ⟨1, [], [], true, false, true⟩
      (.content [⟨7, none, none, none, none, false⟩]) (some 5)).response =
      { status := 200, success := true, message := .text (js "Message deleted"),
        data := none } ∧
    (Supa.deleteMessage none [⟨7, none, none, none, none, false⟩] 5).reply =
      .sent { status := 200, success := true, message := .text (js "Message deleted"),
              data := none } := by
  refine ⟨by decide, by decide, by decide⟩

/-! ## Listing -/

theorem orZero_eq_getD (o : Option Int) : orZero o = o.getD 0 := by
  cases o with
  | none => rfl
  | some n => by_cases h : n = 0 <;> simp [orZero, h]

theorem orderThenId_le_iff (oa : Option Int) (ia : Int) (ob : Option Int) (ib : Int) :
    orderThenId oa ia ob ib ≤ 0 ↔
      oa.getD 0 < ob.getD 0 ∨ (oa.getD 0 = ob.getD 0 ∧ ib ≤ ia) := by
  unfold orderThenId
  rw [orZero_eq_getD, orZero_eq_getD]
  by_cases h : oa.getD 0 - ob.getD 0 ≠ 0
  · rw [if_pos h]; omega
  · rw [if_neg h]; omega

theorem jsSort_perm {α : Type} (cmp : α → α → Int) (l : List α) :
    (jsSort cmp l).Perm l :=
  List.perm_insertionSort _ l

theorem jsSort_orderThenId_sorted {α : Type} (ord : α → Option Int) (key : α → Int)
    (l : List α) :
    (jsSort (fun a b => orderThenId (ord a) (key a) (ord b) (key b)) l).Pairwise
      (fun a b => (ord a).getD 0 < (ord b).getD 0 ∨
        ((ord a).getD 0 = (ord b).getD 0 ∧ key b ≤ key a)) := by
  haveI : IsTotal α (fun a b => orderThenId (ord a) (key a) (ord b) (key b) ≤ 0) :=
    ⟨fun a b => by
      simp only [orderThenId_le_iff]
      omega⟩
  haveI : IsTrans α (fun a b => orderThenId (ord a) (key a) (ord b) (key b) ≤ 0) :=
    ⟨fun a b c => by
      simp only [orderThenId_le_iff]
      omega⟩
  have h := List.sorted_insertionSort
    (fun a b => orderThenId (ord a) (key a) (ord b) (key b) ≤ 0) l
  unfold jsSort
  exact List.Pairwise.imp (fun {a b} hab => (orderThenId_le_iff _ _ _ _).mp hab) h

theorem jsSort_idDesc_sorted {α : Type} (key : α → Int) (l : List α) :
    (jsSort (fun a b => key b - key a) l).Pairwise (fun a b => key b ≤ key a) := by
  haveI : IsTotal α (fun a b => key b - key a ≤ 0) := ⟨fun a b => by omega⟩
  haveI : IsTrans α (fun a b => key b - key a ≤ 0) := ⟨fun a b c => by omega⟩
  have h := List.sorted_insertionSort (fun a b => key b - key a ≤ 0) l
  unfold jsSort
  exact List.Pairwise.imp (fun {a b} hab => by omega) h

/-- C12: in flat-file mode the list routes return a permutation of the stored records;
projects, videos and hero photos come by `order` ascending (a missing order counting as
0) with ties by id descending, messages by id descending. -/
theorem list_is_sorted_permutation :
    (∀ file : JsonFile Project,
      (Old.listProjects file).body.Perm (readFromFile file) ∧
      (Old.listProjects file).body.Pairwise (fun a b =>
        a.order.getD 0 < b.order.getD 0 ∨ (a.order.getD 0 = b.order.getD 0 ∧ b.id ≤ a.id))) ∧
    (∀ file : JsonFile Video,
      (Old.listVideos file).body.Perm (readFromFile file) ∧
      (Old.listVideos file).body.Pairwise (fun a b =>
        a.order.getD 0 < b.order.getD 0 ∨ (a.order.getD 0 = b.order.getD 0 ∧ b.id ≤ a.id))) ∧
    (∀ file : JsonFile HeroPhoto,
      (Old.listHeroPhotos file).body.Perm (readFromFile file) ∧
      (Old.listHeroPhotos file).body.Pairwise (fun a b =>
        a.order.getD 0 < b.order.getD 0 ∨ (a.order.getD 0 = b.order.getD 0 ∧ b.id ≤ a.id))) ∧
    (∀ file : JsonFile Message,
      (Old.listMessages file).body.Perm (readFromFile file) ∧
      (Old.listMessages file).body.Pairwise (fun a b => b.id ≤ a.id)) := by
  refine ⟨fun file => ⟨jsSort_perm _ _, ?_⟩, fun file => ⟨jsSort_perm _ _, ?_⟩,
    fun file => ⟨jsSort_perm _ _, ?_⟩, fun file => ⟨jsSort_perm _ _, ?_⟩⟩
  · exact jsSort_orderThenId_sorted Project.order Project.id _
  · exact jsSort_orderThenId_sorted Video.order Video.id _
  · exact jsSort_orderThenId_sorted HeroPhoto.order HeroPhoto.id _
  · exact jsSort_idDesc_sorted Message.id _

/-- C13: in flat-file mode, when the JSON file of a collection is absent, the read
helper returns the empty list and the list route answers status 200 with the empty
array; a file holding `[]` gives the same response. -/
theorem absent_file_lists_empty :
    (readMessagesFromFile .absent = [] ∧ readProjectsFromFile .absent = [] ∧
      readVideosFromFile .absent = [] ∧ readHeroPhotosFromFile .absent = []) ∧
    (Old.listMessages .absent = { status := 200, body := [] } ∧
      Old.listProjects .absent = { status := 200, body := [] } ∧
      Old.listVideos .absent = { status := 200, body := [] } ∧
      Old.listHeroPhotos .absent = { status := 200, body := [] }) ∧
    (Old.listMessages (.content []) = Old.listMessages .absent ∧
      Old.listProjects (.content []) = Old.listProjects .absent ∧
      Old.listVideos (.content []) = Old.listVideos .absent ∧
      Old.listHeroPhotos (.content []) = Old.listHeroPhotos .absent) := by
  refine ⟨⟨rfl, rfl, rfl, rfl⟩, ⟨rfl, rfl, rfl, rfl⟩, ⟨rfl, rfl, rfl, rfl⟩⟩

/-! ## The local JSON copies of server.js -/

theorem handle_localFiles (env : Supa.DbEnv) (req : Supa.WriteReq)
    (reqFile : Option UploadedFile) (st : Supa.State) (f1 : JsonFile Project)
    (f2 : JsonFile Video) (f3 : JsonFile HeroPhoto) :
    Supa.handle env req reqFile
        { st with projectsFile := f1, videosFile := f2, heroPhotosFile := f3 } =
      ((Supa.handle env req reqFile st).1,
        { (Supa.handle env req reqFile st).2 with
          projectsFile := f1, videosFile := f2, heroPhotosFile := f3 }) := by
  cases req <;> rfl

theorem runRoute_localFiles (secret : JSStr) (header : Option JSStr)
    (attached : Option UploadedFile) (env : Supa.DbEnv) (req : Supa.WriteReq)
    (st : Supa.State) (f1 : JsonFile Project) (f2 : JsonFile Video)
    (f3 : JsonFile HeroPhoto) (ms : List Middleware) (reqFile : Option UploadedFile) :
    Supa.runRoute secret header attached env req
        { st with projectsFile := f1, videosFile := f2, heroPhotosFile := f3 } ms reqFile =
      ((Supa.runRoute secret header attached env req st ms reqFile).1,
        { (Supa.runRoute secret header attached env req st ms reqFile).2 with
          projectsFile := f1, videosFile := f2, heroPhotosFile := f3 }) := by
  induction ms generalizing reqFile with
  | nil => simp only [Supa.runRoute, handle_localFiles]
  | cons m rest ih =>
    cases m with
    | authenticateAdmin =>
      simp only [Supa.runRoute]
      cases authenticateAdmin secret header with
      | next => exact ih reqFile
      | respond r => rfl
    | uploadSingle field =>
      simp only [Supa.runRoute]
      cases uploadMiddleware imageFileFilter (js "Only image files allowed!") attached with
      | next f => exact ih f
      | error e => rfl
    | uploadResumeSingle field =>
      simp only [Supa.runRoute]
      cases uploadMiddleware resumeFileFilter (js "Only PDF files allowed!") attached with
      | next f => exact ih f
      | error e => rfl

/-- C14: in server.js each of `GET /api/projects`, `/api/videos` and `/api/hero-photos`
answers with the rows of the remote query when it reports no error and a non-empty
array, and in every other case (error, null data, empty array) with the records of the
local JSON copy sorted by id descending (the empty array when the file is absent); no
write route reads or writes a local copy. -/
theorem remote_rows_or_local_copy :
    (∀ (r : Project) (rs : List Project) (file : JsonFile Project),
      Supa.getProjects { data := some (r :: rs), error := none } file
        = { status := 200, body := r :: rs }) ∧
    (∀ (result : Supa.QueryResult Project) (file : JsonFile Project),
      (result.error ≠ none ∨ result.data = none ∨ result.data = some []) →
      Supa.getProjects result file =
        { status := 200, body := jsSort (fun a b => b.id - a.id) (readFromFile file) } ∧
      (Supa.getProjects result file).body.Perm (readFromFile file) ∧
      (Supa.getProjects result file).body.Pairwise (fun a b => b.id ≤ a.id) ∧
      (file = .absent → (Supa.getProjects result file).body = [])) ∧
    (∀ (r : Video) (rs : List Video) (file : JsonFile Video),
      Supa.getVideos { data := some (r :: rs), error := none } file
        = { status := 200, body := r :: rs }) ∧
    (∀ (result : Supa.QueryResult Video) (file : JsonFile Video),
      (result.error ≠ none ∨ result.data = none ∨ result.data = some []) →
      Supa.getVideos result file =
        { status := 200, body := jsSort (fun a b => b.id - a.id) (readFromFile file) } ∧
      (Supa.getVideos result file).body.Perm (readFromFile file) ∧
      (Supa.getVideos result file).body.Pairwise (fun a b => b.id ≤ a.id) ∧
      (file = .absent → (Supa.getVideos result file).body = [])) ∧
    (∀ (r : HeroPhoto) (rs : List HeroPhoto) (file : JsonFile HeroPhoto),
      Supa.getHeroPhotos { data := some (r :: rs), error := none } file
        = { status := 200, body := r :: rs }) ∧
    (∀ (result : Supa.QueryResult HeroPhoto) (file : JsonFile HeroPhoto),
      (result.error ≠ none ∨ result.data = none ∨ result.data = some []) →
      Supa.getHeroPhotos result file =
        { status := 200, body := jsSort (fun a b => b.id - a.id) (readFromFile file) } ∧
      (Supa.getHeroPhotos result file).body.Perm (readFromFile file) ∧
      (Supa.getHeroPhotos result file).body.Pairwise (fun a b => b.id ≤ a.id) ∧
      (file = .absent → (Supa.getHeroPhotos result file).body = [])) ∧
    (∀ (secret : JSStr) (header : Option JSStr) (attached : Option UploadedFile)
      (env : Supa.DbEnv) (req : Supa.WriteReq) (st : Supa.State),
      (Supa.serve secret header attached env req st).2.projectsFile = st.projectsFile ∧
      (Supa.serve secret header attached env req st).2.videosFile = st.videosFile ∧
      (Supa.serve secret header attached env req st).2.heroPhotosFile = st.heroPhotosFile ∧
      ∀ (f1 : JsonFile Project) (f2 : JsonFile Video) (f3 : JsonFile HeroPhoto),
        Supa.serve secret header attached env req
            { st with projectsFile := f1, videosFile := f2, heroPhotosFile := f3 } =
          ((Supa.serve secret header attached env req st).1,
            { (Supa.serve secret header attached env req st).2 with
              projectsFile := f1, videosFile := f2, heroPhotosFile := f3 })) := by
  refine ⟨fun _ _ _ => rfl, ?_, fun _ _ _ => rfl, ?_, fun _ _ _ => rfl, ?_, ?_⟩
  · intro result file h
    have e : Supa.getProjects result file =
        { status := 200, body := jsSort (fun a b => b.id - a.id) (readFromFile file) } := by
      obtain ⟨d, er⟩ := result
      rcases h with h | h | h
      · cases er with
        | none => exact absurd rfl h
        | some e => rfl
      · simp only at h; subst h; cases er <;> rfl
      · simp only at h; subst h; cases er <;> rfl
    rw [e]
    refine ⟨rfl, jsSort_perm _ _, jsSort_idDesc_sorted Project.id _, ?_⟩
    intro hf; subst hf; rfl
  · intro result file h
    have e : Supa.getVideos result file =
        { status := 200, body := jsSort (fun a b => b.id - a.id) (readFromFile file) } := by
      obtain ⟨d, er⟩ := result
      rcases h with h | h | h
      · cases er with
        | none => exact absurd rfl h
        | some e => rfl
      · simp only at h; subst h; cases er <;> rfl
      · simp only at h; subst h; cases er <;> rfl
    rw [e]
    refine ⟨rfl, jsSort_perm _ _, jsSort_idDesc_sorted Video.id _, ?_⟩
    intro hf; subst hf; rfl
  · intro result file h
    have e : Supa.getHeroPhotos result file =
        { status := 200, body := jsSort (fun a b => b.id - a.id) (readFromFile file) } := by
      obtain ⟨d, er⟩ := result
      rcases h with h | h | h
      · cases er with
        | none => exact absurd rfl h
        | some e => rfl
      · simp only at h; subst h; cases er <;> rfl
      · simp only at h; subst h; cases er <;> rfl
    rw [e]
    refine ⟨rfl, jsSort_perm _ _, jsSort_idDesc_sorted HeroPhoto.id _, ?_⟩
    intro hf; subst hf; rfl
  · intro secret header attached env req st
    have h := fun f1 f2 f3 => runRoute_localFiles secret header attached env req st f1 f2 f3
      (Supa.middlewaresOf req.method req.path) none
    have h0 := h st.projectsFile st.videosFile st.heroPhotosFile
    have h1 : (Supa.serve secret header attached env req st).2.projectsFile
        = st.projectsFile := congrArg (fun p => p.2.projectsFile) h0
    have h2 : (Supa.serve secret header attached env req st).2.videosFile
        = st.videosFile := congrArg (fun p => p.2.videosFile) h0
    have h3 : (Supa.serve secret header attached env req st).2.heroPhotosFile
        = st.heroPhotosFile := congrArg (fun p => p.2.heroPhotosFile) h0
    exact ⟨h1, h2, h3, fun f1 f2 f3 => h f1 f2 f3⟩

/-- Witness for C14: a failing query on `GET /api/projects` falls back to the local
copy, newest id first. -/
theorem remote_rows_or_local_copy_witness :
    Supa.getProjects { data := none, error := some (js "fetch failed") }
      (.content [⟨1, none, none, none, none, none, none⟩,
                 ⟨2, none, none, none, none, none, none⟩]) =
      { status := 200,
        body := [⟨2, none, none, none, none, none, none⟩,
                 ⟨1, none, none, none, none, none, none⟩] } :=
  ((remote_rows_or_local_copy.2.1 { data := none, error := some (js "fetch failed") }
    (.content [⟨1, none, none, none, none, none, none⟩,
               ⟨2, none, none, none, none, none, none⟩]) (Or.inl (by decide))).1).trans
    (by decide)

/-! ## Resume -/

theorem deleteWhereIdPositive_of_positive {α : Type} (key : α → Int) (table : List α)
    (h : ∀ r ∈ table, key r > 0) : Supa.deleteWhereIdPositive key table = [] := by
  unfold Supa.deleteWhereIdPositive
  rw [List.filter_eq_nil_iff]
  intro r hr
  simp [h r hr]

/-- C15 (what the code does): when the delete step of `POST /api/resume` succeeds and
the stored ids are positive, a 201 response leaves exactly the new record; but the
result of the delete step is not looked at, so when that call fails and the insert
succeeds the route answers 201 with the old record still stored beside the new one. -/
theorem resume_replace_ignores_delete_error :
    (∀ (now : Int) (uploaded : Except JSStr JSStr) (insertErr : Option JSStr)
      (table : List Resume) (reqFile : Option UploadedFile) (r : Response Resume),
      (∀ x ∈ table, x.id > 0) →
      (Supa.postResume now none uploaded insertErr table reqFile).reply = .sent r →
      r.status = 201 →
      ∃ new : Resume, new.id = now ∧ r.data = some new ∧
        (Supa.postResume now none uploaded insertErr table reqFile).table = [new]) ∧
    Supa.postResume 1700000000000 (some (js "timeout")) (.ok (js "u")) none
        [⟨5, some (js "old"), some (js "old.pdf")⟩] none =
      { reply := .sent { status := 201, success := true,
                         message := .text (js "Resume uploaded"),
                         data := some ⟨1700000000000, some [], some (js "resume.pdf")⟩ },
        table := [⟨5, some (js "old"), some (js "old.pdf")⟩,
                  ⟨1700000000000, some [], some (js "resume.pdf")⟩] } := by
  refine ⟨?_, by decide⟩
  intro now uploaded insertErr table reqFile r hpos hr h201
  have hd := deleteWhereIdPositive_of_positive Resume.id table hpos
  cases hu : (match reqFile with
      | some _ => uploaded
      | none => (Except.ok [] : Except JSStr JSStr)) with
  | error e =>
    simp only [Supa.postResume, hu, Supa.failed, Supa.Reply.sent.injEq] at hr
    subst hr; simp at h201
  | ok url =>
    cases insertErr with
    | some e =>
      simp only [Supa.postResume, hu, Supa.failed, Supa.Reply.sent.injEq] at hr
      subst hr; simp at h201
    | none =>
      simp only [Supa.postResume, hu, Supa.Reply.sent.injEq] at hr
      subst hr
      refine ⟨Supa.resumeData now url reqFile, rfl, rfl, ?_⟩
      simp only [Supa.postResume, hu, hd, List.nil_append]

/-- Witness for C15: with a successful delete step the table holds the new record only. -/
theorem resume_replace_ignores_delete_error_witness :
    ∃ new : Resume, new.id = 9 ∧
      (Supa.postResume 9 none (.ok (js "u")) none [⟨5, none, none⟩] none).table = [new] :=
  let ⟨new, h1, _, h3⟩ := resume_replace_ignores_delete_error.1 9 (.ok (js "u")) none
    [⟨5, none, none⟩] none _ (by decide) rfl rfl
  ⟨new, h1, h3⟩

/-! ## Upload filters -/

theorem stripPre_isSome (w t : JSStr) : (stripPre w t).isSome = w.isPrefixOf t := by
  induction w generalizing t with
  | nil => cases t <;> rfl
  | cons a w ih =>
    cases t with
    | nil => rfl
    | cons x t =>
      by_cases h : x = a
      · subst h; simp [stripPre, List.isPrefixOf, ih]
      · have h2 : ¬ a = x := fun e => h e.symm
        simp [stripPre, List.isPrefixOf, h, h2]

theorem run_lits_isSome (w : JSStr) (i : Nat) (t : JSStr) (c : Caps) :
    ((Regex.lits w).run (fun _ _ c => some c) i t c).isSome = w.isPrefixOf t := by
  rw [run_lits, ← stripPre_isSome]
  cases stripPre w t <;> rfl

theorem run_alt_isSome (r1 r2 : Regex) (k : Cont) (i : Nat) (t : JSStr) (c : Caps) :
    ((Regex.alt r1 r2).run k i t c).isSome =
      ((r1.run k i t c).isSome || (r2.run k i t c).isSome) := by
  rw [run_alt]
  cases r1.run k i t c <;> simp

theorem execFrom_isSome (r : Regex) (P : JSStr → Bool)
    (h : ∀ i t, (r.run (fun _ _ c => some c) i t (fun _ => none)).isSome = P t)
    (s : JSStr) (i : Nat) : (execFrom r i s).isSome = s.tails.any P := by
  induction s generalizing i with
  | nil => simp [execFrom, h]
  | cons x xs ih =>
    have hx := h i (x :: xs)
    simp only [execFrom, List.tails, List.any_cons]
    rw [← ih (i + 1), ← hx]
    cases r.run (fun _ _ c => some c) i (x :: xs) (fun _ => none) <;> simp

theorem regexTest_allowedTypes (s : JSStr) :
    regexTest allowedTypes s = containsWord imageWords s := by
  unfold regexTest jsMatch containsWord
  apply execFrom_isSome
  intro i t
  simp only [allowedTypes, run_alt_isSome, run_lits_isSome, imageWords, List.any_cons,
    List.any_nil, Bool.or_false, Bool.or_assoc]

theorem regexTest_pdfTypes (s : JSStr) :
    regexTest pdfTypes s = containsWord [js "pdf"] s := by
  unfold regexTest jsMatch containsWord
  apply execFrom_isSome
  intro i t
  simp only [pdfTypes, run_lits_isSome, List.any_cons, List.any_nil, Bool.or_false]

/-- C16 (what the code does): the image filter accepts a file exactly when the
lower-cased extension of its original name contains one of the words `jpeg`, `jpg`,
`png`, `gif`, `webp` and its MIME type contains one of them; the resume filter exactly
when the lower-cased extension contains `pdf` and the MIME type is `application/pdf`.
Files with a listed extension and MIME type are accepted, and so are files outside the
listed sets: `payload.phpjpg` sent as `text/x-jpg`, and `cv.pdfx` sent as
`application/pdf`. -/
theorem upload_filters_match_substrings :
    (∀ file : UploadedFile, imageFileFilter file =
      (containsWord imageWords (toLowerCase (extname file.originalname)) &&
        containsWord imageWords file.mimetype)) ∧
    (∀ file : UploadedFile, resumeFileFilter file =
      (containsWord [js "pdf"] (toLowerCase (extname file.originalname)) &&
        file.mimetype == js "application/pdf")) ∧
    (∀ file : UploadedFile, toLowerCase (extname file.originalname) ∈ listedImageExts →
      file.mimetype ∈ listedImageMimes → imageFileFilter file = true) ∧
    (∀ file : UploadedFile, toLowerCase (extname file.originalname) = js ".pdf" →
      file.mimetype = js "application/pdf" → resumeFileFilter file = true) ∧
    (imageFileFilter ⟨[], js "payload.phpjpg", js "text/x-jpg"⟩ = true ∧
      toLowerCase (extname (js "payload.phpjpg")) ∉ listedImageExts ∧
      js "text/x-jpg" ∉ listedImageMimes) ∧
    (resumeFileFilter ⟨[], js "cv.pdfx", js "application/pdf"⟩ = true ∧
      toLowerCase (extname (js "cv.pdfx")) ≠ js ".pdf") := by
  refine ⟨?_, ?_, ?_, ?_, by decide, by decide⟩
  · intro file
    simp only [imageFileFilter, regexTest_allowedTypes]
  · intro file
    simp only [resumeFileFilter, regexTest_pdfTypes]
  · intro file hext hmime
    have h1 : ∀ e ∈ listedImageExts, regexTest allowedTypes e = true := by decide
    have h2 : ∀ m ∈ listedImageMimes, regexTest allowedTypes m = true := by decide
    simp only [imageFileFilter, h1 _ hext, h2 _ hmime, Bool.and_self]
  · intro file hext hmime
    have h1 : regexTest pdfTypes (js ".pdf") = true := by decide
    simp [resumeFileFilter, hext, hmime, h1]

/-- Witness for C16: a `.PNG` file sent as `image/png` is accepted. -/
theorem upload_filters_match_substrings_witness :
    imageFileFilter ⟨[], js "Photo.PNG", js "image/png"⟩ = true :=
  upload_filters_match_substrings.2.2.1 ⟨[], js "Photo.PNG", js "image/png"⟩
    (by decide) (by decide)

/-! ## A refused upload -/

/-- C17: for every authorized create or update request on projects, hero photos or
resume whose attached file the upload filter refuses, the request ends in the upload
middleware: the handler does not run, and tables, bucket and local copies are exactly
as before. -/
theorem refused_upload_changes_nothing (secret : JSStr) (env : Supa.DbEnv) (st : Supa.State)
    (file : UploadedFile) :
    (imageFileFilter file = false →
      (∀ body, Supa.serve secret (some secret) (some file) env (.postProject body) st =
        (.uploadError (js "Only image files allowed!"), st)) ∧
      (∀ id body, Supa.serve secret (some secret) (some file) env (.putProject id body) st =
        (.uploadError (js "Only image files allowed!"), st)) ∧
      (∀ body, Supa.serve secret (some secret) (some file) env (.postHeroPhoto body) st =
        (.uploadError (js "Only image files allowed!"), st))) ∧
    (resumeFileFilter file = false →
      Supa.serve secret (some secret) (some file) env .postResume st =
        (.uploadError (js "Only PDF files allowed!"), st)) := by
  have hauth : authenticateAdmin secret (some secret) = .next := by
    simp [authenticateAdmin]
  have m1 : Supa.middlewaresOf .POST (js "/api/projects")
      = [.authenticateAdmin, .uploadSingle (js "image")] := by decide
  have m2 : Supa.middlewaresOf .PUT (js "/api/projects/:id")
      = [.authenticateAdmin, .uploadSingle (js "image")] := by decide
  have m3 : Supa.middlewaresOf .POST (js "/api/hero-photos")
      = [.authenticateAdmin, .uploadSingle (js "image")] := by decide
  have m4 : Supa.middlewaresOf .POST (js "/api/resume")
      = [.authenticateAdmin, .uploadResumeSingle (js "resume")] := by decide
  refine ⟨fun h => ⟨fun body => ?_, fun id body => ?_, fun body => ?_⟩, fun h => ?_⟩
  · simp only [Supa.serve, Supa.WriteReq.method, Supa.WriteReq.path, m1, Supa.runRoute, hauth,
      uploadMiddleware, h, Bool.false_eq_true, if_false]
  · simp only [Supa.serve, Supa.WriteReq.method, Supa.WriteReq.path, m2, Supa.runRoute, hauth,
      uploadMiddleware, h, Bool.false_eq_true, if_false]
  · simp only [Supa.serve, Supa.WriteReq.method, Supa.WriteReq.path, m3, Supa.runRoute, hauth,
      uploadMiddleware, h, Bool.false_eq_true, if_false]
  · simp only [Supa.serve, Supa.WriteReq.method, Supa.WriteReq.path, m4, Supa.runRoute, hauth,
      uploadMiddleware, h, Bool.false_eq_true, if_false]

/-- Witness for C17: a text file sent to `POST /api/resume` with the right password. -/
theorem refused_upload_changes_nothing_witness :
    Supa.serve (js "s") (some (js "s")) (some ⟨[], js "cv.txt", js "text/plain"⟩)
      ⟨1, [], [], true, none, none, none⟩ .postResume
      ⟨[], [], [], [], [⟨5, none, none⟩], [], .absent, .absent, .absent⟩ =
      (.uploadError (js "Only PDF files allowed!"),
        ⟨[], [], [], [], [⟨5, none, none⟩], [], .absent, .absent, .absent⟩) :=
  (refused_upload_changes_nothing (js "s") ⟨1, [], [], true, none, none, none⟩
    ⟨[], [], [], [], [⟨5, none, none⟩], [], .absent, .absent, .absent⟩
    ⟨[], js "cv.txt", js "text/plain"⟩).2 (by decide)

/-! ## Hero photos: alt text and position -/

theorem orNumber_inRange (a : Option Scalar)
    (h : ∀ v, a = some v → positionInRange (some v) = true) :
    positionInRange (some (orNumber a 50)) = true := by
  cases a with
  | none => rfl
  | some v =>
    by_cases ht : v.truthy = true
    · simp only [orNumber, ht, if_true]; exact h v rfl
    · simp only [orNumber, ht]; rfl

/-- C18 (as amended): in the record that hero-photo create of server.js stores,
`positionX` (respectively `positionY`) is a whole number from 0 to 100, as a number or as
the decimal text of one, whenever the value the request supplies for it is one or the
request supplies none; the route stores that record and applies no range check. -/
theorem hero_position_as_supplied (now : Int) (body : HeroBody) (imageUrl : JSStr) :
    ((∀ v, body.positionX = some v → positionInRange (some v) = true) →
      positionInRange (Supa.newPhoto now body imageUrl).positionX = true) ∧
    ((∀ v, body.positionY = some v → positionInRange (some v) = true) →
      positionInRange (Supa.newPhoto now body imageUrl).positionY = true) ∧
    (∀ (uploaded : Except JSStr JSStr) (table : List HeroPhoto)
      (reqFile : Option UploadedFile) (r : Response HeroPhoto),
      (Supa.postHeroPhoto now uploaded none table body reqFile).reply = .sent r →
      r.status = 201 →
      ∃ url, r.data = some (Supa.newPhoto now body url) ∧
        (Supa.postHeroPhoto now uploaded none table body reqFile).table
          = table ++ [Supa.newPhoto now body url]) := by
  refine ⟨fun h => orNumber_inRange _ h, fun h => orNumber_inRange _ h, ?_⟩
  intro uploaded table reqFile r hr h201
  cases hu : (match reqFile with
      | some _ => uploaded
      | none => (Except.ok [] : Except JSStr JSStr)) with
  | error e =>
    simp only [Supa.postHeroPhoto, hu, Supa.failed, Supa.Reply.sent.injEq] at hr
    subst hr; simp at h201
  | ok url =>
    simp only [Supa.postHeroPhoto, hu, Supa.Reply.sent.injEq] at hr
    subst hr
    refine ⟨url, rfl, ?_⟩
    simp only [Supa.postHeroPhoto, hu]

/-- Witness for C18 (as amended): the supplied positions `"30"` and 70 are in range, and
so are the stored ones. -/
theorem hero_position_as_supplied_witness :
    positionInRange (Supa.newPhoto 1 ⟨none, some (.str (js "30")), some (.num 70)⟩ []).positionX
      = true ∧
    positionInRange (Supa.newPhoto 1 ⟨none, some (.str (js "30")), some (.num 70)⟩ []).positionY
      = true :=
  ⟨(hero_position_as_supplied 1 ⟨none, some (.str (js "30")), some (.num 70)⟩ []).1
      (fun v hv => by
        have : v = .str (js "30") := (Option.some.inj hv).symm
        subst this; decide),
   (hero_position_as_supplied 1 ⟨none, some (.str (js "30")), some (.num 70)⟩ []).2.1
      (fun v hv => by
        have : v = .num 70 := (Option.some.inj hv).symm
        subst this; decide)⟩

/-- Counterexample to C18 as stated: `POST /api/hero-photos` of server.js with
`positionX = "500"` and `positionY = -20` stores exactly these values, which are not in
the range from 0 to 100; the same request to server-old.js stores no position at all. -/
theorem hero_position_counterexample :
    (Supa.postHeroPhoto 1 (.ok []) none [] ⟨none, some (.str (js "500")), some (.num (-20))⟩
      none).table =
      [⟨1, some [], some (js "Hero Photo"), some (.str (js "500")), some (.num (-20)), none,
        some 0⟩] ∧
    positionInRange (some (.str (js "500"))) = false ∧
    positionInRange (some (.num (-20))) = false ∧
    (Old.newPhotoData ⟨1, [], [], true, false, true⟩
      ⟨none, some (.str (js "500")), some (.num (-20))⟩ none).positionX = none := by
  refine ⟨by decide, by decide, by decide, rfl⟩

theorem orDefault_of_nonempty (s d : JSStr) (h : s ≠ []) : orDefault (some s) d = s := by
  simp [orDefault, h]

theorem orNumber_of_truthy (v : Scalar) (d : Int) (h : v.truthy = true) :
    orNumber (some v) d = v := by
  simp [orNumber, h]

/-- C19 (as amended): hero-photo create stores `alt` equal to the supplied alt when it
is a non-empty string and `Hero Photo` when it is absent or empty, in both servers; in
server.js it stores `positionX` (respectively `positionY`) equal to the supplied value
when that is a non-empty text or a non-zero number and 50 when it is absent; the record
of server-old.js has no `positionX` and no `positionY`. -/
theorem hero_create_defaults (now : Int) (env : Env) (body : HeroBody) (imageUrl : JSStr)
    (reqFile : Option UploadedFile) :
    (∀ s, body.alt = some s → s ≠ [] →
      (Supa.newPhoto now body imageUrl).alt = some s ∧
      (Old.newPhotoData env body reqFile).alt = some s) ∧
    (body.alt = none ∨ body.alt = some [] →
      (Supa.newPhoto now body imageUrl).alt = some (js "Hero Photo") ∧
      (Old.newPhotoData env body reqFile).alt = some (js "Hero Photo")) ∧
    (∀ v, body.positionX = some v → v.truthy = true →
      (Supa.newPhoto now body imageUrl).positionX = some v) ∧
    (body.positionX = none →
      (Supa.newPhoto now body imageUrl).positionX = some (.num 50)) ∧
    (∀ v, body.positionY = some v → v.truthy = true →
      (Supa.newPhoto now body imageUrl).positionY = some v) ∧
    (body.positionY = none →
      (Supa.newPhoto now body imageUrl).positionY = some (.num 50)) ∧
    (Old.newPhotoData env body reqFile).positionX = none ∧
    (Old.newPhotoData env body reqFile).positionY = none ∧
    (∀ (file : JsonFile HeroPhoto),
      (Old.postHeroPhoto env file body reqFile).response.status = 201 ∧
      (Old.postHeroPhoto env file body reqFile).response.data
        = some (Old.newPhotoData env body reqFile) ∧
      (Old.postHeroPhoto env file body reqFile).writes
        = [readFromFile file ++ [Old.newPhotoData env body reqFile]]) ∧
    (∀ (table : List HeroPhoto),
      (Supa.postHeroPhoto now (.ok imageUrl) none table body reqFile).table
        = table ++ [Supa.newPhoto now body
            (match reqFile with
              | some _ => imageUrl
              | none => [])]) := by
  refine ⟨?_, ?_, ?_, ?_, ?_, ?_, rfl, rfl, fun _ => ⟨rfl, rfl, rfl⟩, ?_⟩
  · intro s hs hne
    simp only [Supa.newPhoto, Old.newPhotoData, hs, orDefault_of_nonempty s _ hne]
    exact ⟨trivial, trivial⟩
  · rintro (h | h) <;> simp only [Supa.newPhoto, Old.newPhotoData, h] <;> exact ⟨rfl, rfl⟩
  · intro v hv ht
    simp only [Supa.newPhoto, hv, orNumber_of_truthy v _ ht]
  · intro h
    simp only [Supa.newPhoto, h]; rfl
  · intro v hv ht
    simp only [Supa.newPhoto, hv, orNumber_of_truthy v _ ht]
  · intro h
    simp only [Supa.newPhoto, h]; rfl
  · intro table
    cases reqFile <;> rfl

/-- Witness for C19 (as amended): alt `Me`, `positionX = "30"` and no `positionY`. -/
theorem hero_create_defaults_witness :
    (Supa.newPhoto 1 ⟨some (js "Me"), some (.str (js "30")), none⟩ []).alt = some (js "Me") ∧
    (Supa.newPhoto 1 ⟨some (js "Me"), some (.str (js "30")), none⟩ []).positionX
      = some (.str (js "30")) ∧
    (Supa.newPhoto 1 ⟨some (js "Me"), some (.str (js "30")), none⟩ []).positionY
      = some (.num 50) :=
  ⟨((hero_create_defaults 1 ⟨1, [], [], true, false, true⟩
        ⟨some (js "Me"), some (.str (js "30")), none⟩ [] none).1
        (js "Me") rfl (by decide)).1,
   (hero_create_defaults 1 ⟨1, [], [], true, false, true⟩
        ⟨some (js "Me"), some (.str (js "30")), none⟩ [] none).2.2.1
        (.str (js "30")) rfl (by decide),
   (hero_create_defaults 1 ⟨1, [], [], true, false, true⟩
        ⟨some (js "Me"), some (.str (js "30")), none⟩ [] none).2.2.2.2.2.1 rfl⟩

/-- Counterexample to C19 as stated: `POST /api/hero-photos` of server-old.js with
`positionX = "30"` and no `positionY` stores a record whose `positionX` is not the
supplied value and whose `positionY` is not 50: it has neither field. -/
theorem hero_create_counterexample :
    (Old.postHeroPhoto ⟨1, js "t", [], true, false, true⟩ .absent
      ⟨some (js "Me"), some (.str (js "30")), none⟩ none).writes =
      [[⟨1, some [], some (js "Me"), none, none, some (js "t"), some 0⟩]] ∧
    (Old.postHeroPhoto ⟨1, js "t", [], true, false, true⟩ .absent
      ⟨some (js "Me"), some (.str (js "30")), none⟩ none).response.status = 201 ∧
    (Old.newPhotoData ⟨1, js "t", [], true, false, true⟩
      ⟨some (js "Me"), some (.str (js "30")), none⟩ none).positionX ≠ some (.str (js "30")) ∧
    (Old.newPhotoData ⟨1, js "t", [], true, false, true⟩
      ⟨some (js "Me"), some (.str (js "30")), none⟩ none).positionY ≠ some (.num 50) := by
  refine ⟨by decide, by decide, by decide, by decide⟩

/-! ## Uniqueness of ids in the flat-file server -/

theorem map_modifyFirst {α : Type} (key : α → Int) (p : α → Bool) (f : α → α)
    (hf : ∀ x, key (f x) = key x) (l : List α) :
    (modifyFirst p f l).map key = l.map key := by
  induction l with
  | nil => rfl
  | cons x xs ih =>
    by_cases hp : p x = true
    · simp [modifyFirst, hp, hf]
    · simp [modifyFirst, hp, ih]

theorem uniqueIds_filter {α : Type} (key : α → Int) (p : α → Bool) (l : List α)
    (h : uniqueIds key l) : uniqueIds key (l.filter p) :=
  List.Nodup.sublist (List.Sublist.map key (List.filter_sublist l)) h

theorem uniqueIds_push {α : Type} (key : α → Int) (l : List α) (x : α)
    (h : uniqueIds key l) (hx : key x ∉ l.map key) : uniqueIds key (l ++ [x]) := by
  unfold uniqueIds at *
  rw [List.map_append, List.nodup_append]
  refine ⟨h, List.nodup_singleton _, ?_⟩
  intro a ha hb
  simp only [List.map_cons, List.map_nil, List.mem_singleton] at hb
  subst hb
  exact hx ha

theorem keepsUnique_write {α : Type} (key : α → Int) (r : Response α) (ok : Bool)
    (file : JsonFile α) (recs : List α) (u : List JSStr)
    (hf : uniqueIds key (readFromFile file)) (hr : uniqueIds key recs) :
    keepsUnique key
      { response := r, file := (writeToFile ok file recs).2, writes := [recs],
        unlinked := u } := by
  refine ⟨?_, ?_⟩
  · show uniqueIds key (readFromFile (writeToFile ok file recs).2)
    rw [readFromFile_writeToFile]
    cases ok
    · exact hf
    · exact hr
  · intro w hw
    simp only [List.mem_singleton] at hw
    subst hw
    exact hr

theorem keepsUnique_same {α : Type} (key : α → Int) (r : Response α) (file : JsonFile α)
    (hf : uniqueIds key (readFromFile file)) :
    keepsUnique key { response := r, file := file, writes := [], unlinked := [] } :=
  ⟨hf, fun _ hw => absurd hw (List.not_mem_nil _)⟩

theorem postMessage_keepsUnique (env : Env) (file : JsonFile Message) (body : MessageBody)
    (h : uniqueIds (fun m => m.id) (readFromFile file))
    (hnew : env.now ∉ (readFromFile file).map (fun m => m.id)) :
    keepsUnique (fun m => m.id) (Old.postMessage env file body) :=
  keepsUnique_write _ _ _ _ _ _ h (uniqueIds_push _ _ _ h hnew)

theorem postProject_keepsUnique (env : Env) (file : JsonFile Project) (body : ProjectBody)
    (reqFile : Option UploadedFile)
    (h : uniqueIds (fun p => p.id) (readFromFile file))
    (hnew : env.now ∉ (readFromFile file).map (fun p => p.id)) :
    keepsUnique (fun p => p.id) (Old.postProject env file body reqFile) :=
  keepsUnique_write _ _ _ _ _ _ h (uniqueIds_push _ _ _ h hnew)

theorem postVideo_keepsUnique (env : Env) (file : JsonFile Video) (body : VideoBody)
    (h : uniqueIds (fun v => v.id) (readFromFile file))
    (hnew : env.now ∉ (readFromFile file).map (fun v => v.id)) :
    keepsUnique (fun v => v.id) (Old.postVideo env file body) := by
  simp only [Old.postVideo]
  split
  · exact keepsUnique_same _ _ _ h
  · exact keepsUnique_write _ _ _ _ _ _ h (uniqueIds_push _ _ _ h hnew)

theorem postHeroPhoto_keepsUnique (env : Env) (file : JsonFile HeroPhoto) (body : HeroBody)
    (reqFile : Option UploadedFile)
    (h : uniqueIds (fun p => p.id) (readFromFile file))
    (hnew : env.now ∉ (readFromFile file).map (fun p => p.id)) :
    keepsUnique (fun p => p.id) (Old.postHeroPhoto env file body reqFile) :=
  keepsUnique_write _ _ _ _ _ _ h (uniqueIds_push _ _ _ h hnew)

theorem uniqueIds_modifyFirst {α : Type} (key : α → Int) (p : α → Bool) (f : α → α)
    (hf : ∀ x, key (f x) = key x) (l : List α) (h : uniqueIds key l) :
    uniqueIds key (modifyFirst p f l) := by
  unfold uniqueIds
  rw [map_modifyFirst key p f hf]
  exact h

theorem patchMessageRead_keepsUnique (env : Env) (file : JsonFile Message)
    (messageId : Option Int) (h : uniqueIds (fun m => m.id) (readFromFile file)) :
    keepsUnique (fun m => m.id) (Old.patchMessageRead env file messageId) := by
  simp only [Old.patchMessageRead]
  split
  · refine keepsUnique_write _ _ _ _ _ _ h ?_
    apply uniqueIds_modifyFirst
    · intro _; rfl
    · exact h
  · exact keepsUnique_same _ _ _ h

theorem putProject_keepsUnique (env : Env) (file : JsonFile Project) (projectId : Option Int)
    (body : ProjectBody) (reqFile : Option UploadedFile)
    (h : uniqueIds (fun p => p.id) (readFromFile file)) :
    keepsUnique (fun p => p.id) (Old.putProject env file projectId body reqFile) := by
  simp only [Old.putProject]
  split
  · split
    · exact keepsUnique_same _ _ _ h
    · refine keepsUnique_write _ _ _ _ _ _ h ?_
      apply uniqueIds_modifyFirst
      · intro _; rfl
      · exact h
  · exact keepsUnique_same _ _ _ h

theorem putVideo_keepsUnique (env : Env) (file : JsonFile Video) (videoId : Option Int)
    (body : VideoBody) (h : uniqueIds (fun v => v.id) (readFromFile file)) :
    keepsUnique (fun v => v.id) (Old.putVideo env file videoId body) := by
  simp only [Old.putVideo]
  split
  · exact keepsUnique_same _ _ _ h
  · split
    · refine keepsUnique_write _ _ _ _ _ _ h ?_
      apply uniqueIds_modifyFirst
      · intro _; rfl
      · exact h
    · exact keepsUnique_same _ _ _ h

theorem putHeroPhoto_keepsUnique (env : Env) (file : JsonFile HeroPhoto)
    (photoId : Option Int) (body : HeroBody) (reqFile : Option UploadedFile)
    (h : uniqueIds (fun p => p.id) (readFromFile file)) :
    keepsUnique (fun p => p.id) (Old.putHeroPhoto env file photoId body reqFile) := by
  simp only [Old.putHeroPhoto]
  split
  · split
    · exact keepsUnique_same _ _ _ h
    · refine keepsUnique_write _ _ _ _ _ _ h ?_
      apply uniqueIds_modifyFirst
      · intro _; rfl
      · exact h
  · exact keepsUnique_same _ _ _ h

theorem deleteMessage_keepsUnique (env : Env) (file : JsonFile Message)
    (messageId : Option Int) (h : uniqueIds (fun m => m.id) (readFromFile file)) :
    keepsUnique (fun m => m.id) (Old.deleteMessage env file messageId) :=
  keepsUnique_write _ _ _ _ _ _ h (uniqueIds_filter _ _ _ h)

theorem deleteVideo_keepsUnique (env : Env) (file : JsonFile Video)
    (videoId : Option Int) (h : uniqueIds (fun v => v.id) (readFromFile file)) :
    keepsUnique (fun v => v.id) (Old.deleteVideo env file videoId) :=
  keepsUnique_write _ _ _ _ _ _ h (uniqueIds_filter _ _ _ h)

theorem deleteProject_keepsUnique (env : Env) (file : JsonFile Project)
    (projectId : Option Int) (h : uniqueIds (fun p => p.id) (readFromFile file)) :
    keepsUnique (fun p => p.id) (Old.deleteProject env file projectId) := by
  simp only [Old.deleteProject]
  split
  · exact keepsUnique_same _ _ _ h
  · exact keepsUnique_write _ _ _ _ _ _ h (uniqueIds_filter _ _ _ h)

theorem deleteHeroPhoto_keepsUnique (env : Env) (file : JsonFile HeroPhoto)
    (photoId : Option Int) (h : uniqueIds (fun p => p.id) (readFromFile file)) :
    keepsUnique (fun p => p.id) (Old.deleteHeroPhoto env file photoId) := by
  simp only [Old.deleteHeroPhoto]
  split
  · exact keepsUnique_same _ _ _ h
  · exact keepsUnique_write _ _ _ _ _ _ h (uniqueIds_filter _ _ _ h)

theorem writes_same_ids {α : Type} (key : α → Int) (r : Response α) (fl : JsonFile α)
    (p : α → Bool) (f : α → α) (l : List α) (u : List JSStr)
    (hf : ∀ x, key (f x) = key x) :
    ∀ w ∈ ({ response := r, file := fl, writes := [modifyFirst p f l],
             unlinked := u } : Outcome α).writes, w.map key = l.map key := by
  intro w hw
  simp only [List.mem_singleton] at hw
  subst hw
  exact map_modifyFirst key p f hf l

theorem writes_none {α : Type} (key : α → Int) (r : Response α) (fl : JsonFile α)
    (l : List α) :
    ∀ w ∈ ({ response := r, file := fl, writes := [], unlinked := [] } : Outcome α).writes,
      w.map key = l.map key :=
  fun _ hw => absurd hw (List.not_mem_nil _)

theorem patchMessageRead_same_ids (env : Env) (file : JsonFile Message)
    (messageId : Option Int) :
    ∀ w ∈ (Old.patchMessageRead env file messageId).writes,
      w.map (fun m => m.id) = (readFromFile file).map (fun m => m.id) := by
  simp only [Old.patchMessageRead]
  split
  · apply writes_same_ids
    intro _; rfl
  · apply writes_none

theorem putProject_same_ids (env : Env) (file : JsonFile Project) (projectId : Option Int)
    (body : ProjectBody) (reqFile : Option UploadedFile) :
    ∀ w ∈ (Old.putProject env file projectId body reqFile).writes,
      w.map (fun p => p.id) = (readFromFile file).map (fun p => p.id) := by
  simp only [Old.putProject]
  split
  · split
    · apply writes_none
    · apply writes_same_ids
      intro _; rfl
  · apply writes_none

theorem putVideo_same_ids (env : Env) (file : JsonFile Video) (videoId : Option Int)
    (body : VideoBody) :
    ∀ w ∈ (Old.putVideo env file videoId body).writes,
      w.map (fun v => v.id) = (readFromFile file).map (fun v => v.id) := by
  simp only [Old.putVideo]
  split
  · apply writes_none
  · split
    · apply writes_same_ids
      intro _; rfl
    · apply writes_none

theorem putHeroPhoto_same_ids (env : Env) (file : JsonFile HeroPhoto) (photoId : Option Int)
    (body : HeroBody) (reqFile : Option UploadedFile) :
    ∀ w ∈ (Old.putHeroPhoto env file photoId body reqFile).writes,
      w.map (fun p => p.id) = (readFromFile file).map (fun p => p.id) := by
  simp only [Old.putHeroPhoto]
  split
  · split
    · apply writes_none
    · apply writes_same_ids
      intro _; rfl
  · apply writes_none

/-- C20: in the flat-file server, starting from collections whose ids are pairwise
distinct, a create whose current-time value equals no existing id leaves the ids pairwise
distinct, and update, delete and toggle-read leave them pairwise distinct whatever the
request is; update and toggle-read write an array with the same ids in the same order.
This holds for the file left behind and for every array handed to the write helper,
whether or not the write succeeds. -/
theorem ids_stay_unique (env : Env) (fm : JsonFile Message) (fp : JsonFile Project)
    (fv : JsonFile Video) (fh : JsonFile HeroPhoto)
    (hm : uniqueIds (fun (m : Message) => m.id) (readFromFile fm))
    (hp : uniqueIds (fun (p : Project) => p.id) (readFromFile fp))
    (hv : uniqueIds (fun (v : Video) => v.id) (readFromFile fv))
    (hh : uniqueIds (fun (p : HeroPhoto) => p.id) (readFromFile fh)) :
    (env.now ∉ (readFromFile fm).map (fun m => m.id) →
      ∀ body, keepsUnique (fun m => m.id) (Old.postMessage env fm body)) ∧
    (env.now ∉ (readFromFile fp).map (fun p => p.id) →
      ∀ body reqFile, keepsUnique (fun p => p.id) (Old.postProject env fp body reqFile)) ∧
    (env.now ∉ (readFromFile fv).map (fun v => v.id) →
      ∀ body, keepsUnique (fun v => v.id) (Old.postVideo env fv body)) ∧
    (env.now ∉ (readFromFile fh).map (fun p => p.id) →
      ∀ body reqFile, keepsUnique (fun p => p.id) (Old.postHeroPhoto env fh body reqFile)) ∧
    (∀ id body reqFile,
      keepsUnique (fun p => p.id) (Old.putProject env fp id body reqFile) ∧
      ∀ w ∈ (Old.putProject env fp id body reqFile).writes,
        w.map (fun p => p.id) = (readFromFile fp).map (fun p => p.id)) ∧
    (∀ id body,
      keepsUnique (fun v => v.id) (Old.putVideo env fv id body) ∧
      ∀ w ∈ (Old.putVideo env fv id body).writes,
        w.map (fun v => v.id) = (readFromFile fv).map (fun v => v.id)) ∧
    (∀ id body reqFile,
      keepsUnique (fun p => p.id) (Old.putHeroPhoto env fh id body reqFile) ∧
      ∀ w ∈ (Old.putHeroPhoto env fh id body reqFile).writes,
        w.map (fun p => p.id) = (readFromFile fh).map (fun p => p.id)) ∧
    (∀ id,
      keepsUnique (fun m => m.id) (Old.patchMessageRead env fm id) ∧
      ∀ w ∈ (Old.patchMessageRead env fm id).writes,
        w.map (fun m => m.id) = (readFromFile fm).map (fun m => m.id)) ∧
    (∀ id, keepsUnique (fun m => m.id) (Old.deleteMessage env fm id)) ∧
    (∀ id, keepsUnique (fun p => p.id) (Old.deleteProject env fp id)) ∧
    (∀ id, keepsUnique (fun v => v.id) (Old.deleteVideo env fv id)) ∧
    (∀ id, keepsUnique (fun p => p.id) (Old.deleteHeroPhoto env fh id)) :=
  ⟨fun hn body => postMessage_keepsUnique env fm body hm hn,
   fun hn body reqFile => postProject_keepsUnique env fp body reqFile hp hn,
   fun hn body => postVideo_keepsUnique env fv body hv hn,
   fun hn body reqFile => postHeroPhoto_keepsUnique env fh body reqFile hh hn,
   fun id body reqFile => ⟨putProject_keepsUnique env fp id body reqFile hp,
     putProject_same_ids env fp id body reqFile⟩,
   fun id body => ⟨putVideo_keepsUnique env fv id body hv, putVideo_same_ids env fv id body⟩,
   fun id body reqFile => ⟨putHeroPhoto_keepsUnique env fh id body reqFile hh,
     putHeroPhoto_same_ids env fh id body reqFile⟩,
   fun id => ⟨patchMessageRead_keepsUnique env fm id hm, patchMessageRead_same_ids env fm id⟩,
   fun id => deleteMessage_keepsUnique env fm id hm,
   fun id => deleteProject_keepsUnique env fp id hp,
   fun id => deleteVideo_keepsUnique env fv id hv,
   fun id => deleteHeroPhoto_keepsUnique env fh id hh⟩

/-- Witness for C20: a message file with ids 1 and 2, one project with id 5, no video
and no hero-photo file, at time 9 with a failing write: creating a message, updating
project 5 and deleting message 1 keep the ids pairwise distinct. -/
theorem ids_stay_unique_witness :
    keepsUnique (fun m => m.id)
      (Old.postMessage ⟨9, [], [], false, false, true⟩
        (.content [⟨1, none, none, none, none, false⟩, ⟨2, none, none, none, none, true⟩])
        ⟨some (js "a"), none, none⟩) ∧
    keepsUnique (fun p => p.id)
      (Old.putProject ⟨9, [], [], false, false, true⟩
        (.content [⟨5, none, none, none, none, none, none⟩]) (some 5)
        ⟨some (js "t"), none, none⟩ none) ∧
    keepsUnique (fun m => m.id)
      (Old.deleteMessage ⟨9, [], [], false, false, true⟩
        (.content [⟨1, none, none, none, none, false⟩, ⟨2, none, none, none, none, true⟩])
        (some 1)) :=
  ⟨(ids_stay_unique ⟨9, [], [], false, false, true⟩
      (.content [⟨1, none, none, none, none, false⟩, ⟨2, none, none, none, none, true⟩])
      (.content [⟨5, none, none, none, none, none, none⟩]) .absent .absent
      (by decide) (by decide) (by decide) (by decide)).1 (by decide) _,
   ((ids_stay_unique ⟨9, [], [], false, false, true⟩
      (.content [⟨1, none, none, none, none, false⟩, ⟨2, none, none, none, none, true⟩])
      (.content [⟨5, none, none, none, none, none, none⟩]) .absent .absent
      (by decide) (by decide) (by decide) (by decide)).2.2.2.2.1 _ _ _).1,
   (ids_stay_unique ⟨9, [], [], false, false, true⟩
      (.content [⟨1, none, none, none, none, false⟩, ⟨2, none, none, none, none, true⟩])
      (.content [⟨5, none, none, none, none, none, none⟩]) .absent .absent
      (by decide) (by decide) (by decide) (by decide)).2.2.2.2.2.2.2.2.1 _⟩

/-! ## Update and the fields a request leaves out -/

/-- C21 (what the code does): in flat-file mode an update writes `title`, `description`
and the URL as the request carries them, so a field that is absent from the request is
absent from the stored record afterwards, whatever it held before. The admin client's
video update, which sends only `videoUrl`, removes the stored title and description of
video 5; server.js sets them to the empty string on the same request. -/
theorem update_overwrites_absent_fields :
    (∀ (env : Env) (file : JsonFile Project) (id : Option Int) (body : ProjectBody)
      (reqFile : Option UploadedFile) (old : Project),
      (readFromFile file).find? (fun p => idIs id p.id) = some old →
      (Old.putProject env file id body reqFile).response.status = 200 →
      ∃ new : Project,
        (Old.putProject env file id body reqFile).response.data = some new ∧
        (Old.putProject env file id body reqFile).writes =
          [modifyFirst (fun p => idIs id p.id) (fun p => Old.mergeProject p body reqFile)
            (readFromFile file)] ∧
        new = Old.mergeProject old body reqFile ∧
        new.title = body.title ∧ new.description = body.description ∧
        new.projectUrl = body.projectUrl) ∧
    (∀ (env : Env) (file : JsonFile Video) (id : Option Int) (body : VideoBody)
      (url : JSStr) (old : Video),
      body.videoUrl = some url →
      (readFromFile file).find? (fun v => idIs id v.id) = some old →
      ∃ new : Video,
        (Old.putVideo env file id body).response.status = 200 ∧
        (Old.putVideo env file id body).response.data = some new ∧
        (Old.putVideo env file id body).writes =
          [modifyFirst (fun v => idIs id v.id) (fun v => Old.mergeVideo v body (scanId url))
            (readFromFile file)] ∧
        new = Old.mergeVideo old body (scanId url) ∧
        new.title = body.title ∧ new.description = body.description) ∧
    (Old.putVideo ⟨1700000000000, [], [], true, false, true⟩
        (.content [⟨5, some (js "Intro"), some (js "My first clip"),
          some (js "https://youtu.be/aaaaaaaaaaa"), some (js "aaaaaaaaaaa"),
          some (js "https://img.youtube.com/vi/aaaaaaaaaaa/maxresdefault.jpg"),
          some (js "2024-01-01T00:00:00.000Z"), some 0⟩])
        (some 5) ⟨none, none, some (js "https://youtu.be/dQw4w9WgXcQ")⟩).writes =
      [[⟨5, none, none, some (js "https://youtu.be/dQw4w9WgXcQ"), some (js "dQw4w9WgXcQ"),
         some (js "https://img.youtube.com/vi/dQw4w9WgXcQ/maxresdefault.jpg"),
         some (js "2024-01-01T00:00:00.000Z"), some 0⟩]] ∧
    (Supa.putVideo none
        [⟨5, some (js "Intro"), some (js "My first clip"),
          some (js "https://youtu.be/aaaaaaaaaaa"), some (js "aaaaaaaaaaa"),
          some (js "https://img.youtube.com/vi/aaaaaaaaaaa/maxresdefault.jpg"),
          none, some 0⟩]
        5 ⟨none, none, some (js "https://youtu.be/dQw4w9WgXcQ")⟩).table =
      [⟨5, some [], some [], some (js "https://youtu.be/dQw4w9WgXcQ"),
         some (js "dQw4w9WgXcQ"),
         some (js "https://img.youtube.com/vi/dQw4w9WgXcQ/maxresdefault.jpg"),
         none, some 0⟩] := by
  refine ⟨?_, ?_, by decide, by decide⟩
  · intro env file id body reqFile old hfind hst
    have hfind2 : (readProjectsFromFile file).find? (fun p => idIs id p.id) = some old := hfind
    simp only [Old.putProject, hfind2] at hst ⊢
    split
    · rename_i hc
      simp only [hc, if_true, Old.caught] at hst
      exact absurd hst (by decide)
    · exact ⟨_, rfl, rfl, rfl, rfl, rfl, rfl⟩
  · intro env file id body url old hurl hfind
    have hfind2 : (readVideosFromFile file).find? (fun v => idIs id v.id) = some old := hfind
    refine ⟨Old.mergeVideo old body (scanId url), ?_, ?_, ?_, rfl, rfl, rfl⟩ <;>
      simp only [Old.putVideo, hurl, extractYouTubeId_eq_scanId, hfind2]

/-- Witness for C21: a project update that carries only a title. -/
theorem update_overwrites_absent_fields_witness :
    ∃ new : Project,
      (Old.putProject ⟨1, [], [], true, false, true⟩
        (.content [⟨5, some (js "Old"), some (js "d"), none, some (js "u"), none, some 0⟩])
        (some 5) ⟨some (js "New"), none, none⟩ none).response.data = some new ∧
      new.description = none :=
  let ⟨new, h1, _, _, _, h5, _⟩ := update_overwrites_absent_fields.1
    ⟨1, [], [], true, false, true⟩
    (.content [⟨5, some (js "Old"), some (js "d"), none, some (js "u"), none, some 0⟩])
    (some 5) ⟨some (js "New"), none, none⟩ none
    ⟨5, some (js "Old"), some (js "d"), none, some (js "u"), none, some 0⟩
    (by decide) (by decide)
  ⟨new, h1, h5⟩

/-! ## Hero photo update -/

theorem idIs_mergeHeroPhoto (id : Option Int) (body : HeroBody)
    (reqFile : Option UploadedFile) (p : HeroPhoto) :
    idIs id (Old.mergeHeroPhoto p body reqFile).id = idIs id p.id := rfl

/-- The update of a stored hero photo in server-old.js: answer, array written, and the
fields of the record written. -/
theorem putHeroPhoto_found (env : Env) (file : JsonFile HeroPhoto) (id : Option Int)
    (body : HeroBody) (reqFile : Option UploadedFile) (old : HeroPhoto)
    (hfind : (readFromFile file).find? (fun p => idIs id p.id) = some old)
    (hrm : reqFile = none ∨ env.unlinkOk = true) :
    ∃ new : HeroPhoto,
      (Old.putHeroPhoto env file id body reqFile).response.status = 200 ∧
      (Old.putHeroPhoto env file id body reqFile).response.success = true ∧
      (Old.putHeroPhoto env file id body reqFile).response.data = some new ∧
      (Old.putHeroPhoto env file id body reqFile).writes =
        [modifyFirst (fun p => idIs id p.id) (fun p => Old.mergeHeroPhoto p body reqFile)
          (readFromFile file)] ∧
      (env.writeOk = true →
        (readFromFile (Old.putHeroPhoto env file id body reqFile).file).find?
          (fun p => idIs id p.id) = some new) ∧
      new.alt = some (orDefault body.alt (js "Hero Photo")) ∧
      (∀ s, body.alt = some s → s ≠ [] → new.alt = some s) ∧
      new.positionX = old.positionX ∧ new.positionY = old.positionY := by
  have hfind2 : (readHeroPhotosFromFile file).find? (fun p => idIs id p.id) = some old := hfind
  have hc : (reqFile.isSome && truthy old.image && env.oldImageExists && !env.unlinkOk)
      = false := by
    rcases hrm with h | h
    · subst h; rfl
    · simp [h]
  refine ⟨Old.mergeHeroPhoto old body reqFile, ?_, ?_, ?_, ?_, ?_, rfl, ?_, rfl, rfl⟩
  · simp only [Old.putHeroPhoto, hfind2, hc]; rfl
  · simp only [Old.putHeroPhoto, hfind2, hc]; rfl
  · simp only [Old.putHeroPhoto, hfind2, hc]; rfl
  · simp only [Old.putHeroPhoto, hfind2, hc]; rfl
  · intro hw
    simp only [Old.putHeroPhoto, hfind2, hc]
    simp only [Bool.false_eq_true, if_false, writeHeroPhotosToFile, readFromFile_writeToFile,
      hw, if_true]
    rw [find?_modifyFirst _ _ (idIs_mergeHeroPhoto id body reqFile), hfind2]
    rfl
  · intro s hs hne
    simp only [Old.mergeHeroPhoto, hs, orDefault_of_nonempty s _ hne]

theorem put_routes_of_server (r : Route) (hr : r ∈ routes) (hm : r.method = .PUT) :
    r.path = js "/api/projects/:id" ∨ r.path = js "/api/videos/:id" := by
  have h : ∀ x ∈ routes, x.method = .PUT →
      (x.path = js "/api/projects/:id" ∨ x.path = js "/api/videos/:id") := by decide
  exact h r hr hm

/-- C22 (what the code does): server.js registers `PUT` for projects and videos only, so
every `PUT` that reaches a handler reaches one of those two. The edit request of the
admin client, `PUT /api/hero-photos/5` with alt, positionX and positionY, is dispatched
to no registration: no handler runs, the request does not succeed and no record is
changed, although `POST /api/hero-photos` and `DELETE /api/hero-photos/5` are served.
In server-old.js the same request is served, and stores the alt but not the positions. -/
theorem hero_update_route_missing :
    routeFor .PUT (js "/api/hero-photos/5") = none ∧
    (∀ (path : JSStr) (r : Route), routeFor .PUT path = some r →
      r.path = js "/api/projects/:id" ∨ r.path = js "/api/videos/:id") ∧
    routeFor .PUT (js "/api/projects/5") =
      some ⟨.PUT, js "/api/projects/:id", [.authenticateAdmin, .uploadSingle (js "image")]⟩ ∧
    routeFor .PUT (js "/api/videos/5") =
      some ⟨.PUT, js "/api/videos/:id", [.authenticateAdmin]⟩ ∧
    routeFor .POST (js "/api/hero-photos") =
      some ⟨.POST, js "/api/hero-photos", [.authenticateAdmin, .uploadSingle (js "image")]⟩ ∧
    routeFor .DELETE (js "/api/hero-photos/5") =
      some ⟨.DELETE, js "/api/hero-photos/:id", [.authenticateAdmin]⟩ ∧
    (Old.putHeroPhoto ⟨1, [], [], true, false, true⟩
      (.content [⟨5, some (js "/uploads/hero/a.png"), some (js "Old"), none, none,
        some (js "t"), some 0⟩])
      (some 5) ⟨some (js "Me"), some (.str (js "30")), some (.str (js "70"))⟩ none) =
      { response := { status := 200, success := true,
                      message := .text (js "Hero photo updated"),
                      data := some ⟨5, some (js "/uploads/hero/a.png"), some (js "Me"), none,
                        none, some (js "t"), some 0⟩ },
        file := .content [⟨5, some (js "/uploads/hero/a.png"), some (js "Me"), none, none,
          some (js "t"), some 0⟩],
        writes := [[⟨5, some (js "/uploads/hero/a.png"), some (js "Me"), none, none,
          some (js "t"), some 0⟩]],
        unlinked := [] } := by
  refine ⟨by decide, ?_, by decide, by decide, by decide, by decide, by decide⟩
  intro path r h
  have hmem : r ∈ routes := List.mem_of_find?_eq_some h
  have hp := List.find?_some h
  simp only [Bool.and_eq_true, beq_iff_eq] at hp
  exact put_routes_of_server r hmem hp.1

/-- Witness for C22: a `PUT` to `/api/videos/7` is served, by the videos registration. -/
theorem hero_update_route_missing_witness :
    (⟨.PUT, js "/api/videos/:id", [.authenticateAdmin]⟩ : Route).path
        = js "/api/projects/:id" ∨
      (⟨.PUT, js "/api/videos/:id", [.authenticateAdmin]⟩ : Route).path
        = js "/api/videos/:id" :=
  hero_update_route_missing.2.1 (js "/api/videos/7")
    ⟨.PUT, js "/api/videos/:id", [.authenticateAdmin]⟩ (by decide)

/-! ## Create and the fields a request leaves out -/

/-- C23 (as amended): no create route checks that `title` or `videoUrl` is present. A
project or video create request that lacks title is answered 201 with `success: true`
and its record is persisted (in server.js when the insert succeeds), without a title, or
with the empty title for a video of server.js. A video create request that lacks
`videoUrl` persists nothing in either server, and server-old.js answers it with status
500 and `success: false`. -/
theorem create_without_required_fields (env : Env) (now : Int) :
    (∀ (file : JsonFile Project) (body : ProjectBody) (reqFile : Option UploadedFile),
      body.title = none →
      ∃ r : Project, r.title = none ∧
        (Old.postProject env file body reqFile).response.status = 201 ∧
        (Old.postProject env file body reqFile).response.success = true ∧
        (Old.postProject env file body reqFile).writes = [readFromFile file ++ [r]]) ∧
    (∀ (file : JsonFile Video) (body : VideoBody) (url : JSStr),
      body.title = none → body.videoUrl = some url →
      ∃ r : Video, r.title = none ∧
        (Old.postVideo env file body).response.status = 201 ∧
        (Old.postVideo env file body).response.success = true ∧
        (Old.postVideo env file body).writes = [readFromFile file ++ [r]]) ∧
    (∀ (file : JsonFile Video) (body : VideoBody), body.videoUrl = none →
      (Old.postVideo env file body).response =
        { status := 500, success := false, message := .ofError .typeError, data := none } ∧
      (Old.postVideo env file body).writes = [] ∧
      (Old.postVideo env file body).file = file) ∧
    (∀ (table : List Project) (body : ProjectBody) (uploaded : JSStr)
      (reqFile : Option UploadedFile), body.title = none →
      ∃ r : Project, r.title = none ∧
        ∃ resp : Response Project, resp.status = 201 ∧ resp.success = true ∧
          Supa.postProject now (.ok uploaded) none table body reqFile =
            { reply := .sent resp, table := table ++ [r] }) ∧
    (∀ (table : List Video) (body : VideoBody) (url : JSStr),
      body.title = none → body.videoUrl = some url →
      ∃ r : Video, r.title = some [] ∧
        ∃ resp : Response Video, resp.status = 201 ∧ resp.success = true ∧
          Supa.postVideo now none table body = { reply := .sent resp, table := table ++ [r] }) ∧
    (∀ (insertErr : Option JSStr) (table : List Video) (body : VideoBody),
      body.videoUrl = none → (Supa.postVideo now insertErr table body).table = table) := by
  refine ⟨?_, ?_, ?_, ?_, ?_, ?_⟩
  · intro file body reqFile ht
    exact ⟨Old.newProjectData env body reqFile, ht, rfl, rfl, rfl⟩
  · intro file body url ht hurl
    refine ⟨Old.newVideoData env body (scanId url), ht, ?_, ?_, ?_⟩ <;>
      simp only [Old.postVideo, hurl, extractYouTubeId_eq_scanId]
  · intro file body hurl
    refine ⟨?_, ?_, ?_⟩ <;> simp only [Old.postVideo, hurl, extractYouTubeId, Old.caught]
  · intro table body uploaded reqFile ht
    cases reqFile with
    | none => exact ⟨Supa.newProject now body [], ht, _, rfl, rfl, rfl⟩
    | some f => exact ⟨Supa.newProject now body uploaded, ht, _, rfl, rfl, rfl⟩
  · intro table body url ht hurl
    refine ⟨Supa.newVideo now body (scanId url), ?_,
      { status := 201, success := true, message := .text (js "Video added"),
        data := some (Supa.newVideo now body (scanId url)) }, rfl, rfl, ?_⟩
    · simp only [Supa.newVideo, ht]; rfl
    · simp only [Supa.postVideo, hurl, extractYouTubeId_eq_scanId]
  · intro insertErr table body hurl
    simp only [Supa.postVideo, hurl, extractYouTubeId]

/-- Witness for C23 (as amended): a project without title, and a video without URL. -/
theorem create_without_required_fields_witness :
    (∃ r : Project, r.title = none ∧
      (Old.postProject ⟨9, [], [], true, false, true⟩ .absent
        ⟨none, some (js "d"), none⟩ none).writes = [readFromFile .absent ++ [r]]) ∧
    (Old.postVideo ⟨9, [], [], true, false, true⟩ .absent
      ⟨some (js "t"), none, none⟩).writes = [] :=
  ⟨Exists.imp (fun _ h => ⟨h.1, h.2.2.2⟩)
      ((create_without_required_fields ⟨9, [], [], true, false, true⟩ 9).1 .absent
        ⟨none, some (js "d"), none⟩ none rfl),
   ((create_without_required_fields ⟨9, [], [], true, false, true⟩ 9).2.2.1 .absent
      ⟨some (js "t"), none, none⟩ rfl).2.1⟩

/-- Counterexample to C23 as stated: a project create request with no title, and a video
create request with a URL and no title, are answered 201 with `success: true` and their
records are persisted. -/
theorem create_without_title_counterexample :
    (Old.postProject ⟨9, js "t", [], true, false, true⟩ .absent
      ⟨none, some (js "d"), some (js "https://example.org")⟩ none) =
      { response := { status := 201, success := true,
                      message := .text (js "Project created"),
                      data := some ⟨9, none, some (js "d"), some [],
                        some (js "https://example.org"), some (js "t"), some 0⟩ },
        file := .content [⟨9, none, some (js "d"), some [],
          some (js "https://example.org"), some (js "t"), some 0⟩],
        writes := [[⟨9, none, some (js "d"), some [],
          some (js "https://example.org"), some (js "t"), some 0⟩]],
        unlinked := [] } ∧
    (Supa.postVideo 9 none [] ⟨none, none, some (js "https://youtu.be/dQw4w9WgXcQ")⟩) =
      { reply := .sent { status := 201, success := true, message := .text (js "Video added"),
                         data := some ⟨9, some [], some [],
                           some (js "https://youtu.be/dQw4w9WgXcQ"), some (js "dQw4w9WgXcQ"),
                           some (js "https://img.youtube.com/vi/dQw4w9WgXcQ/maxresdefault.jpg"),
                           none, some 0⟩ },
        table := [⟨9, some [], some [], some (js "https://youtu.be/dQw4w9WgXcQ"),
          some (js "dQw4w9WgXcQ"),
          some (js "https://img.youtube.com/vi/dQw4w9WgXcQ/maxresdefault.jpg"),
          none, some 0⟩] } := by
  refine ⟨by decide, by decide⟩

/-! ## A collection file that cannot be written -/

theorem successUnwritten_write {α : Type} (file : JsonFile α) (r : Response α) (ok : Bool)
    (recs : List α) (u : List JSStr) (hok : ok = false) (hs : r.success = true)
    (hst : r.status = 200 ∨ r.status = 201) :
    successUnwritten file
      { response := r, file := (writeToFile ok file recs).2, writes := [recs],
        unlinked := u } := by
  subst hok
  intro _
  exact ⟨hs, hst, rfl⟩

theorem successUnwritten_same {α : Type} (file : JsonFile α) (r : Response α) :
    successUnwritten file { response := r, file := file, writes := [], unlinked := [] } :=
  fun h => absurd rfl h

/-- C24 (what the code does): in flat-file mode, when the collection file cannot be
written, every create, update, delete and toggle-read request that reaches the write
helper is still answered with its 200 or 201 success response, and the file is as
before: the helper catches the error and returns `false`, and no route looks at what it
returns. -/
theorem write_failure_answered_as_success (env : Env) (hw : env.writeOk = false) :
    (∀ (file : JsonFile Message) (body : MessageBody),
      Old.postMessage env file body =
        { response := { status := 201, success := true, message := .text (js "Message saved"),
                        data := none },
          file := file,
          writes := [readFromFile file ++ [Old.newMessageData env body]],
          unlinked := [] }) ∧
    (∀ (file : JsonFile Project) (body : ProjectBody) (reqFile : Option UploadedFile),
      (Old.postProject env file body reqFile).response.status = 201 ∧
      (Old.postProject env file body reqFile).response.success = true ∧
      (Old.postProject env file body reqFile).file = file) ∧
    (∀ (file : JsonFile Video) (body : VideoBody),
      successUnwritten file (Old.postVideo env file body)) ∧
    (∀ (file : JsonFile HeroPhoto) (body : HeroBody) (reqFile : Option UploadedFile),
      (Old.postHeroPhoto env file body reqFile).response.status = 201 ∧
      (Old.postHeroPhoto env file body reqFile).response.success = true ∧
      (Old.postHeroPhoto env file body reqFile).file = file) ∧
    (∀ (file : JsonFile Message) (id : Option Int),
      successUnwritten file (Old.patchMessageRead env file id)) ∧
    (∀ (file : JsonFile Project) (id : Option Int) (body : ProjectBody)
      (reqFile : Option UploadedFile),
      successUnwritten file (Old.putProject env file id body reqFile)) ∧
    (∀ (file : JsonFile Video) (id : Option Int) (body : VideoBody),
      successUnwritten file (Old.putVideo env file id body)) ∧
    (∀ (file : JsonFile HeroPhoto) (id : Option Int) (body : HeroBody)
      (reqFile : Option UploadedFile),
      successUnwritten file (Old.putHeroPhoto env file id body reqFile)) ∧
    (∀ (file : JsonFile Message) (id : Option Int),
      (Old.deleteMessage env file id).response.status = 200 ∧
      (Old.deleteMessage env file id).response.success = true ∧
      (Old.deleteMessage env file id).file = file) ∧
    (∀ (file : JsonFile Project) (id : Option Int),
      successUnwritten file (Old.deleteProject env file id)) ∧
    (∀ (file : JsonFile Video) (id : Option Int),
      (Old.deleteVideo env file id).response.status = 200 ∧
      (Old.deleteVideo env file id).response.success = true ∧
      (Old.deleteVideo env file id).file = file) ∧
    (∀ (file : JsonFile HeroPhoto) (id : Option Int),
      successUnwritten file (Old.deleteHeroPhoto env file id)) := by
  refine ⟨?_, ?_, ?_, ?_, ?_, ?_, ?_, ?_, ?_, ?_, ?_, ?_⟩
  · intro file body
    simp only [Old.postMessage, writeMessagesToFile, writeToFile, hw]
    rfl
  · intro file body reqFile
    refine ⟨rfl, rfl, ?_⟩
    simp only [Old.postProject, writeProjectsToFile, writeToFile, hw]
    rfl
  · intro file body
    simp only [Old.postVideo]
    split
    · exact successUnwritten_same _ _
    · exact successUnwritten_write _ _ _ _ _ hw rfl (Or.inr rfl)
  · intro file body reqFile
    refine ⟨rfl, rfl, ?_⟩
    simp only [Old.postHeroPhoto, writeHeroPhotosToFile, writeToFile, hw]
    rfl
  · intro file id
    simp only [Old.patchMessageRead]
    split
    · exact successUnwritten_write _ _ _ _ _ hw rfl (Or.inl rfl)
    · exact successUnwritten_same _ _
  · intro file id body reqFile
    simp only [Old.putProject]
    split
    · split
      · exact successUnwritten_same _ _
      · exact successUnwritten_write _ _ _ _ _ hw rfl (Or.inl rfl)
    · exact successUnwritten_same _ _
  · intro file id body
    simp only [Old.putVideo]
    split
    · exact successUnwritten_same _ _
    · split
      · exact successUnwritten_write _ _ _ _ _ hw rfl (Or.inl rfl)
      · exact successUnwritten_same _ _
  · intro file id body reqFile
    simp only [Old.putHeroPhoto]
    split
    · split
      · exact successUnwritten_same _ _
      · exact successUnwritten_write _ _ _ _ _ hw rfl (Or.inl rfl)
    · exact successUnwritten_same _ _
  · intro file id
    refine ⟨rfl, rfl, ?_⟩
    simp only [Old.deleteMessage, writeMessagesToFile, writeToFile, hw]
    rfl
  · intro file id
    simp only [Old.deleteProject]
    split
    · exact successUnwritten_same _ _
    · exact successUnwritten_write _ _ _ _ _ hw rfl (Or.inl rfl)
  · intro file id
    refine ⟨rfl, rfl, ?_⟩
    simp only [Old.deleteVideo, writeVideosToFile, writeToFile, hw]
    rfl
  · intro file id
    simp only [Old.deleteHeroPhoto]
    split
    · exact successUnwritten_same _ _
    · exact successUnwritten_write _ _ _ _ _ hw rfl (Or.inl rfl)

/-- Witness for C24: a message is submitted while the messages file cannot be written;
the answer is 201 `Message saved` and the file still holds message 1 only. -/
theorem write_failure_answered_as_success_witness :
    Old.postMessage ⟨9, [], js "now", false, false, true⟩
        (.content [⟨1, none, none, none, none, false⟩])
        ⟨some (js "Ann"), some (js "ann@example.org"), some (js "Hello")⟩ =
      { response := { status := 201, success := true, message := .text (js "Message saved"),
                      data := none },
        file := .content [⟨1, none, none, none, none, false⟩],
        writes := [readFromFile (.content [⟨1, none, none, none, none, false⟩]) ++
          [Old.newMessageData ⟨9, [], js "now", false, false, true⟩
            ⟨some (js "Ann"), some (js "ann@example.org"), some (js "Hello")⟩]],
        unlinked := [] } :=
  (write_failure_answered_as_success ⟨9, [], js "now", false, false, true⟩ rfl).1
    (.content [⟨1, none, none, none, none, false⟩])
    ⟨some (js "Ann"), some (js "ann@example.org"), some (js "Hello")⟩

/-! ## What an update keeps -/

theorem idIs_mergeProject (id : Option Int) (body : ProjectBody)
    (reqFile : Option UploadedFile) (p : Project) :
    idIs id (Old.mergeProject p body reqFile).id = idIs id p.id := rfl

/-- C25: in flat-file mode, for every existing project (and hero photo) and every update
request, the record stored under that id after the request has the same id, createdAt
and order as before, and with no file attached the same image, whatever the outcome of
the request. When the file can be written and the old image, if one has to go, can be
removed, the request is answered 200 with the merged record, the file holds the list
with that record in place of the old one, and the stored image is the path of the new
upload exactly when the request carries a file, the old image otherwise. -/
theorem update_keeps_id_created_order (env : Env) (id : Option Int)
    (reqFile : Option UploadedFile) :
    (∀ (file : JsonFile Project) (body : ProjectBody) (old : Project),
      (readFromFile file).find? (fun p => idIs id p.id) = some old →
      (∃ r : Project,
        (readFromFile (Old.putProject env file id body reqFile).file).find?
          (fun p => idIs id p.id) = some r ∧
        r.id = old.id ∧ r.createdAt = old.createdAt ∧ r.order = old.order ∧
        (reqFile = none → r.image = old.image)) ∧
      (env.writeOk = true →
        (reqFile = none ∨ env.oldImageExists = false ∨ env.unlinkOk = true) →
        ∃ r : Project,
          (Old.putProject env file id body reqFile).response =
            { status := 200, success := true, message := .text (js "Project updated"),
              data := some r } ∧
          (Old.putProject env file id body reqFile).file =
            .content (modifyFirst (fun p => idIs id p.id)
              (fun p => Old.mergeProject p body reqFile) (readFromFile file)) ∧
          (readFromFile (Old.putProject env file id body reqFile).file).find?
            (fun p => idIs id p.id) = some r ∧
          r.id = old.id ∧ r.createdAt = old.createdAt ∧ r.order = old.order ∧
          (∀ f, reqFile = some f → r.image = some (js "/uploads/projects/" ++ f.filename)) ∧
          (reqFile = none → r.image = old.image))) ∧
    (∀ (file : JsonFile HeroPhoto) (body : HeroBody) (old : HeroPhoto),
      (readFromFile file).find? (fun p => idIs id p.id) = some old →
      (∃ r : HeroPhoto,
        (readFromFile (Old.putHeroPhoto env file id body reqFile).file).find?
          (fun p => idIs id p.id) = some r ∧
        r.id = old.id ∧ r.createdAt = old.createdAt ∧ r.order = old.order ∧
        (reqFile = none → r.image = old.image)) ∧
      (env.writeOk = true →
        (reqFile = none ∨ env.oldImageExists = false ∨ env.unlinkOk = true) →
        ∃ r : HeroPhoto,
          (Old.putHeroPhoto env file id body reqFile).response =
            { status := 200, success := true, message := .text (js "Hero photo updated"),
              data := some r } ∧
          (Old.putHeroPhoto env file id body reqFile).file =
            .content (modifyFirst (fun p => idIs id p.id)
              (fun p => Old.mergeHeroPhoto p body reqFile) (readFromFile file)) ∧
          (readFromFile (Old.putHeroPhoto env file id body reqFile).file).find?
            (fun p => idIs id p.id) = some r ∧
          r.id = old.id ∧ r.createdAt = old.createdAt ∧ r.order = old.order ∧
          (∀ f, reqFile = some f → r.image = some (js "/uploads/hero/" ++ f.filename)) ∧
          (reqFile = none → r.image = old.image))) := by
  refine ⟨?_, ?_⟩
  · intro file body old hfind
    have hfind2 : (readProjectsFromFile file).find? (fun p => idIs id p.id) = some old := hfind
    refine ⟨?_, ?_⟩
    · simp only [Old.putProject, hfind2]
      split
      · exact ⟨old, hfind, rfl, rfl, rfl, fun _ => rfl⟩
      · cases hw : env.writeOk with
        | false =>
          refine ⟨old, ?_, rfl, rfl, rfl, fun _ => rfl⟩
          simp only [writeProjectsToFile, readFromFile_writeToFile]
          exact hfind
        | true =>
          refine ⟨Old.mergeProject old body reqFile, ?_, rfl, rfl, rfl, ?_⟩
          · simp only [writeProjectsToFile, readFromFile_writeToFile, if_true]
            rw [find?_modifyFirst _ _ (idIs_mergeProject id body reqFile), hfind2]
            rfl
          · intro h; subst h; rfl
    · intro hw hrm
      have hc : (reqFile.isSome && truthy old.image && env.oldImageExists && !env.unlinkOk)
          = false := by
        rcases hrm with h | h | h
        · subst h; rfl
        · simp [h]
        · simp [h]
      have hfile : (Old.putProject env file id body reqFile).file =
          .content (modifyFirst (fun p => idIs id p.id)
            (fun p => Old.mergeProject p body reqFile) (readFromFile file)) := by
        simp only [Old.putProject, hfind2, hc, writeProjectsToFile, writeToFile, hw]
        rfl
      refine ⟨Old.mergeProject old body reqFile, ?_, hfile, ?_, rfl, rfl, rfl, ?_, ?_⟩
      · simp only [Old.putProject, hfind2, hc]
        rfl
      · rw [hfile]
        show (modifyFirst (fun p => idIs id p.id)
          (fun p => Old.mergeProject p body reqFile) (readFromFile file)).find?
            (fun p => idIs id p.id) = _
        rw [find?_modifyFirst _ _ (idIs_mergeProject id body reqFile), hfind]
        rfl
      · intro f h; subst h; rfl
      · intro h; subst h; rfl
  · intro file body old hfind
    have hfind2 : (readHeroPhotosFromFile file).find? (fun p => idIs id p.id) = some old := hfind
    refine ⟨?_, ?_⟩
    · simp only [Old.putHeroPhoto, hfind2]
      split
      · exact ⟨old, hfind, rfl, rfl, rfl, fun _ => rfl⟩
      · cases hw : env.writeOk with
        | false =>
          refine ⟨old, ?_, rfl, rfl, rfl, fun _ => rfl⟩
          simp only [writeHeroPhotosToFile, readFromFile_writeToFile]
          exact hfind
        | true =>
          refine ⟨Old.mergeHeroPhoto old body reqFile, ?_, rfl, rfl, rfl, ?_⟩
          · simp only [writeHeroPhotosToFile, readFromFile_writeToFile, if_true]
            rw [find?_modifyFirst _ _ (idIs_mergeHeroPhoto id body reqFile), hfind2]
            rfl
          · intro h; subst h; rfl
    · intro hw hrm
      have hc : (reqFile.isSome && truthy old.image && env.oldImageExists && !env.unlinkOk)
          = false := by
        rcases hrm with h | h | h
        · subst h; rfl
        · simp [h]
        · simp [h]
      have hfile : (Old.putHeroPhoto env file id body reqFile).file =
          .content (modifyFirst (fun p => idIs id p.id)
            (fun p => Old.mergeHeroPhoto p body reqFile) (readFromFile file)) := by
        simp only [Old.putHeroPhoto, hfind2, hc, writeHeroPhotosToFile, writeToFile, hw]
        rfl
      refine ⟨Old.mergeHeroPhoto old body reqFile, ?_, hfile, ?_, rfl, rfl, rfl, ?_, ?_⟩
      · simp only [Old.putHeroPhoto, hfind2, hc]
        rfl
      · rw [hfile]
        show (modifyFirst (fun p => idIs id p.id)
          (fun p => Old.mergeHeroPhoto p body reqFile) (readFromFile file)).find?
            (fun p => idIs id p.id) = _
        rw [find?_modifyFirst _ _ (idIs_mergeHeroPhoto id body reqFile), hfind]
        rfl
      · intro f h; subst h; rfl
      · intro h; subst h; rfl

/-- Witness for C25: project 5 and hero photo 6 are each updated with the new file
`b.png` while the old image is on disk; both requests are answered 200 and the stored
records keep id, createdAt and order and have the new path as image. -/
theorem update_keeps_id_created_order_witness :
    (∃ r : Project,
      (Old.putProject ⟨9, [], [], true, true, true⟩
        (.content [⟨5, some (js "Old"), none, some (js "/uploads/projects/a.png"), none,
          some (js "2024-01-01"), some 0⟩])
        (some 5) ⟨some (js "New"), none, none⟩
        (some ⟨js "b.png", js "b.png", js "image/png"⟩)).response =
        { status := 200, success := true, message := .text (js "Project updated"),
          data := some r } ∧
      r.id = 5 ∧ r.createdAt = some (js "2024-01-01") ∧ r.order = some 0 ∧
      r.image = some (js "/uploads/projects/" ++ js "b.png")) ∧
    (∃ r : HeroPhoto,
      (Old.putHeroPhoto ⟨9, [], [], true, true, true⟩
        (.content [⟨6, some (js "/uploads/hero/a.png"), some (js "Me"), none, none,
          some (js "2024-02-02"), some 0⟩])
        (some 6) ⟨some (js "Me"), none, none⟩
        (some ⟨js "b.png", js "b.png", js "image/png"⟩)).response =
        { status := 200, success := true, message := .text (js "Hero photo updated"),
          data := some r } ∧
      r.id = 6 ∧ r.createdAt = some (js "2024-02-02") ∧ r.order = some 0 ∧
      r.image = some (js "/uploads/hero/" ++ js "b.png")) :=
  ⟨Exists.imp (fun _ h => ⟨h.1, h.2.2.2.1, h.2.2.2.2.1, h.2.2.2.2.2.1,
      h.2.2.2.2.2.2.1 _ rfl⟩)
    (((update_keeps_id_created_order ⟨9, [], [], true, true, true⟩ (some 5)
      (some ⟨js "b.png", js "b.png", js "image/png"⟩)).1
      (.content [⟨5, some (js "Old"), none, some (js "/uploads/projects/a.png"), none,
        some (js "2024-01-01"), some 0⟩])
      ⟨some (js "New"), none, none⟩
      ⟨5, some (js "Old"), none, some (js "/uploads/projects/a.png"), none,
        some (js "2024-01-01"), some 0⟩ (by decide)).2 rfl (Or.inr (Or.inr rfl))),
   Exists.imp (fun _ h => ⟨h.1, h.2.2.2.1, h.2.2.2.2.1, h.2.2.2.2.2.1,
      h.2.2.2.2.2.2.1 _ rfl⟩)
    (((update_keeps_id_created_order ⟨9, [], [], true, true, true⟩ (some 6)
      (some ⟨js "b.png", js "b.png", js "image/png"⟩)).2
      (.content [⟨6, some (js "/uploads/hero/a.png"), some (js "Me"), none, none,
        some (js "2024-02-02"), some 0⟩])
      ⟨some (js "Me"), none, none⟩
      ⟨6, some (js "/uploads/hero/a.png"), some (js "Me"), none, none,
        some (js "2024-02-02"), some 0⟩ (by decide)).2 rfl (Or.inr (Or.inr rfl)))⟩

/-! ## Resume replacement -/

/-- C26: resume replacement is not atomic. In server.js, when the delete step of
`POST /api/resume` succeeds and then the blob upload fails, or the insert fails, the
request is answered with status 500 and the resume table is left without the records it
held (all of positive id): for a table holding one record, it is left empty. -/
theorem resume_replace_not_atomic :
    (∀ (now : Int) (table : List Resume) (file : UploadedFile) (e : JSStr)
      (insertErr : Option JSStr), (∀ r ∈ table, r.id > 0) →
      Supa.postResume now none (.error e) insertErr table (some file) =
        { reply := .sent { status := 500, success := false,
                           message := .text (js "Failed to upload resume"), data := none },
          table := [] }) ∧
    (∀ (now : Int) (table : List Resume) (reqFile : Option UploadedFile)
      (uploaded : Except JSStr JSStr) (e : JSStr), (∀ r ∈ table, r.id > 0) →
      Supa.postResume now none uploaded (some e) table reqFile =
        { reply := .sent { status := 500, success := false,
                           message := .text (js "Failed to upload resume"), data := none },
          table := [] }) ∧
    Supa.postResume 1700000000000 none (.error (js "bucket unavailable")) none
        [⟨5, some (js "https://x/resume/old.pdf"), some (js "old.pdf")⟩]
        (some ⟨[], js "cv.pdf", js "application/pdf"⟩) =
      { reply := .sent { status := 500, success := false,
                         message := .text (js "Failed to upload resume"), data := none },
        table := [] } ∧
    Supa.postResume 1700000000000 none (.ok (js "u")) (some (js "insert refused"))
        [⟨5, some (js "https://x/resume/old.pdf"), some (js "old.pdf")⟩]
        (some ⟨[], js "cv.pdf", js "application/pdf"⟩) =
      { reply := .sent { status := 500, success := false,
                         message := .text (js "Failed to upload resume"), data := none },
        table := [] } := by
  refine ⟨?_, ?_, by decide, by decide⟩
  · intro now table file e insertErr hpos
    have hd := deleteWhereIdPositive_of_positive Resume.id table hpos
    simp only [Supa.postResume, hd, Supa.failed]
  · intro now table reqFile uploaded e hpos
    have hd := deleteWhereIdPositive_of_positive Resume.id table hpos
    simp only [Supa.postResume, hd, Supa.failed]
    cases reqFile with
    | none => rfl
    | some f =>
      cases uploaded with
      | error _ => rfl
      | ok _ => rfl

/-- Witness for C26: the insert fails after two stored records were deleted. -/
theorem resume_replace_not_atomic_witness :
    (Supa.postResume 9 none (.ok (js "u")) (some (js "down"))
      [⟨5, none, none⟩, ⟨6, none, none⟩] none).table = [] :=
  congrArg Supa.DbOutcome.table
    (resume_replace_not_atomic.2.1 9 [⟨5, none, none⟩, ⟨6, none, none⟩] none (.ok (js "u"))
      (js "down") (by decide))

/-! ## The order field -/

theorem mem_modifyFirst {α : Type} (p : α → Bool) (f : α → α) (l : List α) (r : α)
    (h : r ∈ modifyFirst p f l) : r ∈ l ∨ ∃ x ∈ l, r = f x := by
  induction l with
  | nil => simp [modifyFirst] at h
  | cons x xs ih =>
    simp only [modifyFirst] at h
    by_cases hp : p x = true
    · rw [if_pos hp] at h
      rcases List.mem_cons.mp h with h1 | h1
      · exact Or.inr ⟨x, List.mem_cons_self _ _, h1⟩
      · exact Or.inl (List.mem_cons_of_mem _ h1)
    · rw [if_neg hp] at h
      rcases List.mem_cons.mp h with h1 | h1
      · exact Or.inl (h1 ▸ List.mem_cons_self _ _)
      · rcases ih h1 with h2 | ⟨y, hy, hr⟩
        · exact Or.inl (List.mem_cons_of_mem _ h2)
        · exact Or.inr ⟨y, List.mem_cons_of_mem _ hy, hr⟩

theorem allOrderZero_modifyFirst {α : Type} (order : α → Option Int) (p : α → Bool)
    (f : α → α) (hf : ∀ x, order (f x) = order x) (l : List α) (h : allOrderZero order l) :
    allOrderZero order (modifyFirst p f l) := by
  intro r hr
  rcases mem_modifyFirst p f l r hr with h1 | ⟨x, hx, rfl⟩
  · exact h r h1
  · rw [hf]; exact h x hx

theorem allOrderZero_filter {α : Type} (order : α → Option Int) (p : α → Bool) (l : List α)
    (h : allOrderZero order l) : allOrderZero order (l.filter p) :=
  fun r hr => h r (List.mem_of_mem_filter hr)

theorem allOrderZero_push {α : Type} (order : α → Option Int) (l : List α) (x : α)
    (h : allOrderZero order l) (hx : order x = some 0) : allOrderZero order (l ++ [x]) := by
  intro r hr
  rcases List.mem_append.mp hr with h1 | h1
  · exact h r h1
  · rw [List.mem_singleton.mp h1]; exact hx

theorem allOrderZero_updateWhereId {α : Type} (order : α → Option Int) (key : α → Int)
    (id : Int) (g : α → α) (hg : ∀ x, order (g x) = order x) (l : List α)
    (h : allOrderZero order l) : allOrderZero order (Supa.updateWhereId key id g l) := by
  intro r hr
  simp only [Supa.updateWhereId, List.mem_map] at hr
  obtain ⟨x, hx, hxr⟩ := hr
  by_cases hk : (key x == id) = true
  · rw [if_pos hk] at hxr
    rw [← hxr, hg]; exact h x hx
  · rw [if_neg hk] at hxr
    rw [← hxr]; exact h x hx

theorem allOrderZero_written {α : Type} (order : α → Option Int) (r : Response α) (ok : Bool)
    (file : JsonFile α) (recs : List α) (u : List JSStr)
    (hf : allOrderZero order (readFromFile file)) (hr : allOrderZero order recs) :
    allOrderZero order (readFromFile
      ({ response := r, file := (writeToFile ok file recs).2, writes := [recs],
         unlinked := u } : Outcome α).file) := by
  show allOrderZero order (readFromFile (writeToFile ok file recs).2)
  rw [readFromFile_writeToFile]
  cases ok
  · exact hf
  · exact hr

theorem allOrderZero_unchanged {α : Type} (order : α → Option Int) (r : Response α)
    (file : JsonFile α) (hf : allOrderZero order (readFromFile file)) :
    allOrderZero order (readFromFile
      ({ response := r, file := file, writes := [], unlinked := [] } : Outcome α).file) := hf

theorem serveProject_orderZero (env : Env) (file : JsonFile Project) (req : Old.ProjectReq)
    (h : allOrderZero (fun (p : Project) => p.order) (readFromFile file)) :
    allOrderZero (fun (p : Project) => p.order)
      (readFromFile (Old.serveProject env file req).file) := by
  cases req with
  | create body reqFile =>
    exact allOrderZero_written _ _ _ _ _ _ h (allOrderZero_push _ _ _ h rfl)
  | update id body reqFile =>
    simp only [Old.serveProject, Old.putProject]
    split
    · split
      · exact allOrderZero_unchanged _ _ _ h
      · refine allOrderZero_written _ _ _ _ _ _ h ?_
        apply allOrderZero_modifyFirst
        · intro _; rfl
        · exact h
    · exact allOrderZero_unchanged _ _ _ h
  | delete id =>
    simp only [Old.serveProject, Old.deleteProject]
    split
    · exact allOrderZero_unchanged _ _ _ h
    · exact allOrderZero_written _ _ _ _ _ _ h (allOrderZero_filter _ _ _ h)

theorem serveVideo_orderZero (env : Env) (file : JsonFile Video) (req : Old.VideoReq)
    (h : allOrderZero (fun (v : Video) => v.order) (readFromFile file)) :
    allOrderZero (fun (v : Video) => v.order)
      (readFromFile (Old.serveVideo env file req).file) := by
  cases req with
  | create body =>
    simp only [Old.serveVideo, Old.postVideo]
    split
    · exact allOrderZero_unchanged _ _ _ h
    · exact allOrderZero_written _ _ _ _ _ _ h (allOrderZero_push _ _ _ h rfl)
  | update id body =>
    simp only [Old.serveVideo, Old.putVideo]
    split
    · exact allOrderZero_unchanged _ _ _ h
    · split
      · refine allOrderZero_written _ _ _ _ _ _ h ?_
        apply allOrderZero_modifyFirst
        · intro _; rfl
        · exact h
      · exact allOrderZero_unchanged _ _ _ h
  | delete id =>
    exact allOrderZero_written _ _ _ _ _ _ h (allOrderZero_filter _ _ _ h)

theorem serveHeroPhoto_orderZero (env : Env) (file : JsonFile HeroPhoto)
    (req : Old.HeroPhotoReq)
    (h : allOrderZero (fun (p : HeroPhoto) => p.order) (readFromFile file)) :
    allOrderZero (fun (p : HeroPhoto) => p.order)
      (readFromFile (Old.serveHeroPhoto env file req).file) := by
  cases req with
  | create body reqFile =>
    exact allOrderZero_written _ _ _ _ _ _ h (allOrderZero_push _ _ _ h rfl)
  | update id body reqFile =>
    simp only [Old.serveHeroPhoto, Old.putHeroPhoto]
    split
    · split
      · exact allOrderZero_unchanged _ _ _ h
      · refine allOrderZero_written _ _ _ _ _ _ h ?_
        apply allOrderZero_modifyFirst
        · intro _; rfl
        · exact h
    · exact allOrderZero_unchanged _ _ _ h
  | delete id =>
    simp only [Old.serveHeroPhoto, Old.deleteHeroPhoto]
    split
    · exact allOrderZero_unchanged _ _ _ h
    · exact allOrderZero_written _ _ _ _ _ _ h (allOrderZero_filter _ _ _ h)

theorem runRequests_orderZero {α ρ : Type} (order : α → Option Int)
    (serve : Env → JsonFile α → ρ → Outcome α)
    (hstep : ∀ env file req, allOrderZero order (readFromFile file) →
      allOrderZero order (readFromFile (serve env file req).file))
    (steps : List (Env × ρ)) (file : JsonFile α)
    (h : allOrderZero order (readFromFile file)) :
    allOrderZero order (readFromFile (Old.runRequests serve file steps)) := by
  induction steps generalizing file with
  | nil => exact h
  | cons s rest ih =>
    obtain ⟨env, req⟩ := s
    exact ih _ (hstep env file req h)

theorem supa_postProject_orderZero (now : Int) (uploaded : Except JSStr JSStr)
    (insertErr : Option JSStr) (table : List Project) (body : ProjectBody)
    (reqFile : Option UploadedFile)
    (h : allOrderZero (fun (p : Project) => p.order) table) :
    allOrderZero (fun (p : Project) => p.order)
      (Supa.postProject now uploaded insertErr table body reqFile).table := by
  simp only [Supa.postProject]
  split
  · exact h
  · split
    · exact h
    · exact allOrderZero_push _ _ _ h rfl

theorem supa_putProject_orderZero (uploaded : Except JSStr JSStr)
    (updateErr : Option JSStr) (table : List Project) (id : Int) (body : ProjectBody)
    (reqFile : Option UploadedFile)
    (h : allOrderZero (fun (p : Project) => p.order) table) :
    allOrderZero (fun (p : Project) => p.order)
      (Supa.putProject uploaded updateErr table id body reqFile).table := by
  simp only [Supa.putProject]
  split
  · exact h
  · split
    · exact h
    · apply allOrderZero_updateWhereId
      · intro _; rfl
      · exact h

theorem supa_deleteById_orderZero {α : Type} (order : α → Option Int) (key : α → Int)
    (deleted : JSStr) (deleteErr : Option JSStr) (table : List α) (id : Int)
    (h : allOrderZero order table) :
    allOrderZero order (Supa.deleteById key deleted deleteErr table id).table := by
  simp only [Supa.deleteById]
  split
  · exact h
  · exact allOrderZero_filter _ _ _ h

theorem supa_postVideo_orderZero (now : Int) (insertErr : Option JSStr)
    (table : List Video) (body : VideoBody)
    (h : allOrderZero (fun (v : Video) => v.order) table) :
    allOrderZero (fun (v : Video) => v.order)
      (Supa.postVideo now insertErr table body).table := by
  simp only [Supa.postVideo]
  split
  · exact h
  · split
    · exact h
    · exact allOrderZero_push _ _ _ h rfl

theorem supa_putVideo_orderZero (updateErr : Option JSStr) (table : List Video) (id : Int)
    (body : VideoBody) (h : allOrderZero (fun (v : Video) => v.order) table) :
    allOrderZero (fun (v : Video) => v.order)
      (Supa.putVideo updateErr table id body).table := by
  simp only [Supa.putVideo]
  split
  · exact h
  · split
    · exact h
    · apply allOrderZero_updateWhereId
      · intro _; rfl
      · exact h

theorem supa_postHeroPhoto_orderZero (now : Int) (uploaded : Except JSStr JSStr)
    (insertErr : Option JSStr) (table : List HeroPhoto) (body : HeroBody)
    (reqFile : Option UploadedFile)
    (h : allOrderZero (fun (p : HeroPhoto) => p.order) table) :
    allOrderZero (fun (p : HeroPhoto) => p.order)
      (Supa.postHeroPhoto now uploaded insertErr table body reqFile).table := by
  simp only [Supa.postHeroPhoto]
  split
  · exact h
  · split
    · exact h
    · exact allOrderZero_push _ _ _ h rfl

theorem handle_orderZero (env : Supa.DbEnv) (req : Supa.WriteReq)
    (reqFile : Option UploadedFile) (st : Supa.State) (h : st.orderZero) :
    (Supa.handle env req reqFile st).2.orderZero := by
  obtain ⟨hp, hv, hh⟩ := h
  cases req with
  | postMessage body => exact ⟨hp, hv, hh⟩
  | deleteMessage id => exact ⟨hp, hv, hh⟩
  | patchMessageRead id => exact ⟨hp, hv, hh⟩
  | postProject body => exact ⟨supa_postProject_orderZero _ _ _ _ _ _ hp, hv, hh⟩
  | putProject id body => exact ⟨supa_putProject_orderZero _ _ _ _ _ _ hp, hv, hh⟩
  | deleteProject id => exact ⟨supa_deleteById_orderZero _ _ _ _ _ _ hp, hv, hh⟩
  | postVideo body => exact ⟨hp, supa_postVideo_orderZero _ _ _ _ hv, hh⟩
  | putVideo id body => exact ⟨hp, supa_putVideo_orderZero _ _ _ _ hv, hh⟩
  | deleteVideo id => exact ⟨hp, supa_deleteById_orderZero _ _ _ _ _ _ hv, hh⟩
  | postHeroPhoto body => exact ⟨hp, hv, supa_postHeroPhoto_orderZero _ _ _ _ _ _ hh⟩
  | deleteHeroPhoto id => exact ⟨hp, hv, supa_deleteById_orderZero _ _ _ _ _ _ hh⟩
  | postResume => exact ⟨hp, hv, hh⟩
  | deleteResume => exact ⟨hp, hv, hh⟩

theorem runRoute_orderZero (secret : JSStr) (header : Option JSStr)
    (attached : Option UploadedFile) (env : Supa.DbEnv) (req : Supa.WriteReq)
    (st : Supa.State) (h : st.orderZero) (ms : List Middleware)
    (reqFile : Option UploadedFile) :
    (Supa.runRoute secret header attached env req st ms reqFile).2.orderZero := by
  induction ms generalizing reqFile with
  | nil => exact handle_orderZero env req reqFile st h
  | cons m rest ih =>
    cases m with
    | authenticateAdmin =>
      simp only [Supa.runRoute]
      cases authenticateAdmin secret header with
      | next => exact ih reqFile
      | respond r => exact h
    | uploadSingle field =>
      simp only [Supa.runRoute]
      cases uploadMiddleware imageFileFilter (js "Only image files allowed!") attached with
      | next f => exact ih f
      | error m => exact h
    | uploadResumeSingle field =>
      simp only [Supa.runRoute]
      cases uploadMiddleware resumeFileFilter (js "Only PDF files allowed!") attached with
      | next f => exact ih f
      | error m => exact h

theorem supa_runRequests_orderZero (secret : JSStr) (steps : List Supa.Incoming)
    (st : Supa.State) (h : st.orderZero) :
    (Supa.runRequests secret st steps).orderZero := by
  induction steps generalizing st with
  | nil => exact h
  | cons i rest ih =>
    exact ih _ (runRoute_orderZero secret i.header i.attached i.env i.req st h _ none)

/-- C27: every record built by a project, video or hero-photo create route has order 0,
no update route changes the order of the record it rewrites, and so every record of a
collection reached from an empty collection by any sequence of requests has order 0, in
the flat-file server and in server.js. -/
theorem order_always_zero :
    (∀ (env : Env) (now : Int) (pb : ProjectBody) (vb : VideoBody) (hb : HeroBody)
      (reqFile : Option UploadedFile) (videoId : Option JSStr) (url : JSStr),
      (Old.newProjectData env pb reqFile).order = some 0 ∧
      (Old.newVideoData env vb videoId).order = some 0 ∧
      (Old.newPhotoData env hb reqFile).order = some 0 ∧
      (Supa.newProject now pb url).order = some 0 ∧
      (Supa.newVideo now vb videoId).order = some 0 ∧
      (Supa.newPhoto now hb url).order = some 0) ∧
    (∀ (p : Project) (v : Video) (h : HeroPhoto) (pb : ProjectBody) (vb : VideoBody)
      (hb : HeroBody) (reqFile : Option UploadedFile) (videoId image : Option JSStr),
      (Old.mergeProject p pb reqFile).order = p.order ∧
      (Old.mergeVideo v vb videoId).order = v.order ∧
      (Old.mergeHeroPhoto h hb reqFile).order = h.order ∧
      (Supa.applyProjectUpdate p pb image).order = p.order ∧
      (Supa.applyVideoUpdate v vb videoId).order = v.order) ∧
    (∀ (file : JsonFile Project) (steps : List (Env × Old.ProjectReq)),
      readFromFile file = [] →
      allOrderZero (fun (p : Project) => p.order)
        (readFromFile (Old.runRequests Old.serveProject file steps))) ∧
    (∀ (file : JsonFile Video) (steps : List (Env × Old.VideoReq)),
      readFromFile file = [] →
      allOrderZero (fun (v : Video) => v.order)
        (readFromFile (Old.runRequests Old.serveVideo file steps))) ∧
    (∀ (file : JsonFile HeroPhoto) (steps : List (Env × Old.HeroPhotoReq)),
      readFromFile file = [] →
      allOrderZero (fun (p : HeroPhoto) => p.order)
        (readFromFile (Old.runRequests Old.serveHeroPhoto file steps))) ∧
    (∀ (secret : JSStr) (steps : List Supa.Incoming),
      (Supa.runRequests secret Supa.emptyState steps).orderZero) := by
  refine ⟨fun _ _ _ _ _ _ _ _ => ⟨rfl, rfl, rfl, rfl, rfl, rfl⟩,
    fun _ _ _ _ _ _ _ _ _ => ⟨rfl, rfl, rfl, rfl, rfl⟩, ?_, ?_, ?_, ?_⟩
  · intro file steps h0
    refine runRequests_orderZero _ _ serveProject_orderZero steps file ?_
    rw [h0]; exact fun _ hr => absurd hr (List.not_mem_nil _)
  · intro file steps h0
    refine runRequests_orderZero _ _ serveVideo_orderZero steps file ?_
    rw [h0]; exact fun _ hr => absurd hr (List.not_mem_nil _)
  · intro file steps h0
    refine runRequests_orderZero _ _ serveHeroPhoto_orderZero steps file ?_
    rw [h0]; exact fun _ hr => absurd hr (List.not_mem_nil _)
  · intro secret steps
    refine supa_runRequests_orderZero secret steps _ ⟨?_, ?_, ?_⟩ <;>
      exact fun _ hr => absurd hr (List.not_mem_nil _)

/-- Witness for C27: two projects are created, the first is updated and the second
deleted, starting from no projects file; the one stored record has order 0. -/
theorem order_always_zero_witness :
    allOrderZero (fun (p : Project) => p.order)
      (readFromFile (Old.runRequests Old.serveProject .absent
        [(⟨1, [], [], true, false, true⟩, .create ⟨some (js "a"), none, none⟩ none),
         (⟨2, [], [], true, false, true⟩, .create ⟨some (js "b"), none, none⟩ none),
         (⟨3, [], [], true, false, true⟩, .update (some 1) ⟨some (js "c"), none, none⟩ none),
         (⟨4, [], [], true, false, true⟩, .delete (some 2))])) ∧
    readFromFile (Old.runRequests Old.serveProject .absent
        [(⟨1, [], [], true, false, true⟩, .create ⟨some (js "a"), none, none⟩ none),
         (⟨2, [], [], true, false, true⟩, .create ⟨some (js "b"), none, none⟩ none),
         (⟨3, [], [], true, false, true⟩, .update (some 1) ⟨some (js "c"), none, none⟩ none),
         (⟨4, [], [], true, false, true⟩, .delete (some 2))]) =
      [⟨1, some (js "c"), none, some [], none, some [], some 0⟩] :=
  ⟨order_always_zero.2.2.1 .absent _ rfl, by decide⟩

/-! ## extractYouTubeId: the right-most marker -/

theorem matchesHead_lits_append (p : JSStr) (rest : List CharClass) (s : JSStr) :
    matchesHead (p.map .lit ++ rest) s =
      match stripPre p s with
      | some t => matchesHead rest t
      | none => false := by
  induction p generalizing s with
  | nil => simp [stripPre]
  | cons a p ih =>
    cases s with
    | nil => simp [matchesHead, stripPre]
    | cons x s =>
      by_cases h : x = a
      · simp [matchesHead, stripPre, h, ih, CharClass.test]
      · simp [matchesHead, stripPre, h, CharClass.test]

theorem matchesHead_nil (s : JSStr) : matchesHead [] s = true := by
  cases s <;> rfl

theorem matchesHead_lits (p : JSStr) (s : JSStr) :
    matchesHead (p.map .lit) s = (stripPre p s).isSome := by
  have h := matchesHead_lits_append p [] s
  rw [List.append_nil] at h
  rw [h]
  cases stripPre p s with
  | none => rfl
  | some t => exact matchesHead_nil t

theorem altLit_fst (p s : JSStr) :
    (altLit p s).map Prod.fst = if matchesHead (p.map .lit) s then some p.length else none := by
  rw [matchesHead_lits]
  unfold altLit
  cases stripPre p s <;> rfl

theorem altYoutuBe_fst (s : JSStr) (hs : ∀ c ∈ s, isLineTerminator c = false) :
    (altYoutuBe s).map Prod.fst =
      if matchesHead ((js "youtu").map .lit ++ [.noneOf []] ++ (js "be/").map .lit) s
      then some 9 else none := by
  rw [List.append_assoc, matchesHead_lits_append]
  unfold altYoutuBe
  cases h1 : stripPre (js "youtu") s with
  | none => rfl
  | some t =>
    cases t with
    | nil => rfl
    | cons x xs =>
      have hx : x ∈ s := by
        rw [stripPre_eq_some.mp h1]; simp
      have hlt := hs x hx
      have hp : ([CharClass.noneOf []] ++ (js "be/").map CharClass.lit) =
          CharClass.noneOf [] :: (js "be/").map CharClass.lit := rfl
      rw [hp]
      simp only [matchesHead, matchesHead_lits]
      cases stripPre (js "be/") xs <;> simp [CharClass.test, hlt]

theorem altUser_fst (s : JSStr) :
    (altUser s).map Prod.fst =
      if matchesHead ((js "u/").map .lit ++ [.word] ++ (js "/").map .lit) s
      then some 4 else none := by
  rw [List.append_assoc, matchesHead_lits_append]
  unfold altUser
  cases h1 : stripPre (js "u/") s with
  | none => rfl
  | some t =>
    cases t with
    | nil => rfl
    | cons x xs =>
      have hp : ([CharClass.word] ++ (js "/").map CharClass.lit) =
          CharClass.word :: (js "/").map CharClass.lit := rfl
      rw [hp]
      simp only [matchesHead, matchesHead_lits]
      cases hw : CharClass.word.test x <;> cases stripPre (js "/") xs <;> simp

theorem map_orElse {α β : Type} (f : α → β) (a : Option α) (b : Unit → Option α) :
    (a.orElse b).map f = (a.map f).orElse (fun _ => (b ()).map f) := by
  cases a <;> rfl

theorem markerAt_eq (s : JSStr) (hs : ∀ c ∈ s, isLineTerminator c = false) :
    markerAt s = (afterMarker s).map Prod.fst := by
  unfold afterMarker
  simp only [map_orElse, altYoutuBe_fst s hs, altLit_fst, altUser_fst]
  unfold markerAt specMarkers
  simp only [List.find?_cons, List.find?_nil]
  generalize matchesHead ((js "youtu").map CharClass.lit ++ [CharClass.noneOf []] ++
    (js "be/").map CharClass.lit) s = b1
  generalize matchesHead ((js "v/").map CharClass.lit) s = b2
  generalize matchesHead ((js "u/").map CharClass.lit ++ [CharClass.word] ++
    (js "/").map CharClass.lit) s = b3
  generalize matchesHead ((js "embed/").map CharClass.lit) s = b4
  generalize matchesHead ((js "watch?v=").map CharClass.lit) s = b5
  generalize matchesHead ((js "&v=").map CharClass.lit) s = b6
  cases b1 <;> cases b2 <;> cases b3 <;> cases b4 <;> cases b5 <;> cases b6 <;> rfl

theorem lastMarker_eq_rightmost (u : JSStr) (hu : ∀ c ∈ u, isLineTerminator c = false) :
    lastMarker u = (rightmostMarker u).map (fun v => (v.1, v.2, u.drop (v.1 + v.2))) := by
  induction u with
  | nil => rfl
  | cons x xs ih =>
    have hx : CharClass.dot.test x = true := by
      simp [CharClass.test, hu x (List.mem_cons_self _ _)]
    have ih1 := ih (fun c hc => hu c (List.mem_cons_of_mem _ hc))
    unfold lastMarker rightmostMarker
    rw [if_pos hx, ih1]
    cases hr : rightmostMarker xs with
    | some v =>
      obtain ⟨i, n⟩ := v
      simp only [Option.map_some']
      rw [Nat.add_right_comm i 1 n, List.drop_succ_cons]
    | none =>
      simp only [Option.map_none']
      rw [markerAt_eq (x :: xs) hu]
      cases ha : afterMarker (x :: xs) with
      | none => rfl
      | some w =>
        obtain ⟨n, t⟩ := w
        simp only [Option.map_some', Nat.zero_add]
        rw [afterMarker_drop ha]

theorem idRun_eq (t : JSStr) : idRun t = t.takeWhile idClass.test := rfl

theorem scanId_eq_spec (u : JSStr) (hu : ∀ c ∈ u, isLineTerminator c = false) :
    scanId u = specExtractYouTubeId u := by
  unfold scanId specExtractYouTubeId
  rw [lastMarker_eq_rightmost u hu]
  cases rightmostMarker u with
  | none => rfl
  | some v => rfl

theorem markerAt_nil : markerAt [] = none := by decide

theorem rightmostMarker_spec (u : JSStr) :
    (∀ i n, rightmostMarker u = some (i, n) →
      markerAt (u.drop i) = some n ∧ ∀ j, i < j → markerAt (u.drop j) = none) ∧
    (rightmostMarker u = none → ∀ j, markerAt (u.drop j) = none) := by
  induction u with
  | nil =>
    refine ⟨fun i n h => by simp [rightmostMarker] at h, fun _ j => ?_⟩
    rw [List.drop_nil]; exact markerAt_nil
  | cons x xs ih =>
    obtain ⟨ih1, ih2⟩ := ih
    unfold rightmostMarker
    cases hr : rightmostMarker xs with
    | some v =>
      obtain ⟨i0, n0⟩ := v
      refine ⟨?_, fun h => by simp at h⟩
      intro i n h
      simp only [Option.some.injEq, Prod.mk.injEq] at h
      obtain ⟨hi, hn⟩ := h
      subst hi hn
      obtain ⟨h1, h2⟩ := ih1 i0 n0 hr
      refine ⟨by rw [List.drop_succ_cons]; exact h1, ?_⟩
      intro j hj
      cases j with
      | zero => omega
      | succ j => rw [List.drop_succ_cons]; exact h2 j (by omega)
    | none =>
      have h0 := ih2 hr
      cases hm : markerAt (x :: xs) with
      | none =>
        refine ⟨fun i n h => by simp at h, fun _ j => ?_⟩
        cases j with
        | zero => exact hm
        | succ j => rw [List.drop_succ_cons]; exact h0 j
      | some m =>
        refine ⟨?_, fun h => by simp at h⟩
        intro i n h
        simp only [Option.map_some', Option.some.injEq, Prod.mk.injEq] at h
        obtain ⟨hi, hn⟩ := h
        subst hi hn
        refine ⟨hm, ?_⟩
        intro j hj
        cases j with
        | zero => omega
        | succ j => rw [List.drop_succ_cons]; exact h0 j

/-- C28: for every URL without line terminators, `extractYouTubeId` returns the maximal
run of units other than `#`, `&` and `?` that follows the marker occurrence with the
right-most start position when that run has exactly 11 units, and `null` otherwise (also
when no marker occurs). The right-most occurrence is one after which no marker starts. A
non-null result has 11 units, none of them `#`, `&` or `?`; it need not be over the
YouTube id alphabet (`v/hello world` gives `hello world`), and an earlier marker followed
by a valid id is ignored when a later marker occurs. -/
theorem extractYouTubeId_characterised (url : JSStr)
    (h : ∀ c ∈ url, isLineTerminator c = false) :
    extractYouTubeId (some url) = .ok (specExtractYouTubeId url) ∧
    (∀ i n, rightmostMarker url = some (i, n) →
      markerAt (url.drop i) = some n ∧ ∀ j, i < j → markerAt (url.drop j) = none) ∧
    (rightmostMarker url = none → ∀ j, markerAt (url.drop j) = none) ∧
    (∀ id, extractYouTubeId (some url) = .ok (some id) →
      id.length = 11 ∧ 35 ∉ id ∧ 38 ∉ id ∧ 63 ∉ id) ∧
    extractYouTubeId (some (js "https://youtu.be/dQw4w9WgXcQ?list=PL&v=short")) = .ok none ∧
    extractYouTubeId (some (js "https://example.org/v/hello world")) =
      .ok (some (js "hello world")) := by
  have hspec := rightmostMarker_spec url
  refine ⟨?_, hspec.1, hspec.2, ?_, by decide, by decide⟩
  · rw [extractYouTubeId_eq_scanId, scanId_eq_spec url h]
  · intro id hid
    rw [extractYouTubeId_eq_scanId] at hid
    have hs : scanId url = some id := by
      injection hid
    refine ⟨scanId_length hs, ?_⟩
    unfold scanId at hs
    cases hl : lastMarker url with
    | none => simp [hl] at hs
    | some w =>
      obtain ⟨p, n, t⟩ := w
      simp only [hl] at hs
      by_cases h11 : (t.takeWhile idClass.test).length = 11
      · simp only [h11, if_true, Option.some.injEq] at hs
        have hall : ∀ c ∈ id, idClass.test c = true := by
          intro c hc
          rw [← hs] at hc
          exact List.mem_takeWhile_imp hc
        refine ⟨?_, ?_, ?_⟩ <;> intro hc <;> exact absurd (hall _ hc) (by decide)
      · simp [h11] at hs

/-- Witness for C28: a watch URL with a fragment after the id. -/
theorem extractYouTubeId_characterised_witness :
    extractYouTubeId (some (js "https://www.youtube.com/watch?v=dQw4w9WgXcQ#t=10")) =
      .ok (specExtractYouTubeId (js "https://www.youtube.com/watch?v=dQw4w9WgXcQ#t=10")) ∧
    specExtractYouTubeId (js "https://www.youtube.com/watch?v=dQw4w9WgXcQ#t=10") =
      some (js "dQw4w9WgXcQ") :=
  ⟨(extractYouTubeId_characterised (js "https://www.youtube.com/watch?v=dQw4w9WgXcQ#t=10")
      (by decide)).1, by decide⟩

/-! ## Delete as a filter -/

theorem delete_algebra {α : Type} (key : α → Int)
    (d : Env → JsonFile α → Option Int → Outcome α)
    (hd : ∀ env file k, env.writeOk = true → env.unlinkOk = true →
      (d env file (some k)).file = .content ((readFromFile file).filter (fun r => key r != k)))
    (e1 e2 : Env) (k1 k2 : Int) (h1 : e1.writeOk = true ∧ e1.unlinkOk = true)
    (h2 : e2.writeOk = true ∧ e2.unlinkOk = true) (file : JsonFile α) :
    (d e1 file (some k1)).file =
      .content ((readFromFile file).filter (fun r => key r != k1)) ∧
    (d e2 (d e1 file (some k1)).file (some k1)).file = (d e1 file (some k1)).file ∧
    (d e2 (d e1 file (some k1)).file (some k2)).file =
      (d e2 (d e1 file (some k2)).file (some k1)).file := by
  refine ⟨hd e1 file k1 h1.1 h1.2, ?_, ?_⟩
  · rw [hd e2 _ k1 h2.1 h2.2, hd e1 file k1 h1.1 h1.2]
    simp only [readFromFile, List.filter_filter, Bool.and_self]
  · rw [hd e2 _ k2 h2.1 h2.2, hd e2 _ k1 h2.1 h2.2, hd e1 file k1 h1.1 h1.2,
      hd e1 file k2 h1.1 h1.2]
    simp only [readFromFile, List.filter_filter]
    congr 1
    apply List.filter_congr
    intro r _
    exact Bool.and_comm _ _

theorem deleteMessage_file (env : Env) (file : JsonFile Message) (k : Int)
    (hw : env.writeOk = true) :
    (Old.deleteMessage env file (some k)).file =
      .content ((readFromFile file).filter (fun r => r.id != k)) := by
  simp only [Old.deleteMessage, writeMessagesToFile, writeToFile, hw, if_true]
  rfl

theorem deleteVideo_file (env : Env) (file : JsonFile Video) (k : Int)
    (hw : env.writeOk = true) :
    (Old.deleteVideo env file (some k)).file =
      .content ((readFromFile file).filter (fun r => r.id != k)) := by
  simp only [Old.deleteVideo, writeVideosToFile, writeToFile, hw, if_true]
  rfl

theorem deleteProject_file (env : Env) (file : JsonFile Project) (k : Int)
    (hw : env.writeOk = true) (hu : env.unlinkOk = true) :
    (Old.deleteProject env file (some k)).file =
      .content ((readFromFile file).filter (fun r => r.id != k)) := by
  simp only [Old.deleteProject, writeProjectsToFile, writeToFile, hw, hu, if_true,
    Bool.not_true, Bool.and_false, Bool.false_eq_true, if_false]
  rfl

theorem deleteHeroPhoto_file (env : Env) (file : JsonFile HeroPhoto) (k : Int)
    (hw : env.writeOk = true) (hu : env.unlinkOk = true) :
    (Old.deleteHeroPhoto env file (some k)).file =
      .content ((readFromFile file).filter (fun r => r.id != k)) := by
  simp only [Old.deleteHeroPhoto, writeHeroPhotosToFile, writeToFile, hw, hu, if_true,
    Bool.not_true, Bool.and_false, Bool.false_eq_true, if_false]
  rfl

/-- C29: in flat-file mode, for every collection and every integer id k, a delete that
goes through (the file is written and, for projects and hero photos, the image can be
removed) leaves exactly the stored list without the records of id k, the others in their
original order; deleting k a second time changes nothing, and two deletes give the same
collection in either order. -/
theorem delete_is_filter (e1 e2 : Env) (k1 k2 : Int)
    (h1 : e1.writeOk = true ∧ e1.unlinkOk = true)
    (h2 : e2.writeOk = true ∧ e2.unlinkOk = true) :
    (∀ file : JsonFile Message,
      (Old.deleteMessage e1 file (some k1)).file =
        .content ((readFromFile file).filter (fun r => r.id != k1)) ∧
      (Old.deleteMessage e2 (Old.deleteMessage e1 file (some k1)).file (some k1)).file =
        (Old.deleteMessage e1 file (some k1)).file ∧
      (Old.deleteMessage e2 (Old.deleteMessage e1 file (some k1)).file (some k2)).file =
        (Old.deleteMessage e2 (Old.deleteMessage e1 file (some k2)).file (some k1)).file) ∧
    (∀ file : JsonFile Project,
      (Old.deleteProject e1 file (some k1)).file =
        .content ((readFromFile file).filter (fun r => r.id != k1)) ∧
      (Old.deleteProject e2 (Old.deleteProject e1 file (some k1)).file (some k1)).file =
        (Old.deleteProject e1 file (some k1)).file ∧
      (Old.deleteProject e2 (Old.deleteProject e1 file (some k1)).file (some k2)).file =
        (Old.deleteProject e2 (Old.deleteProject e1 file (some k2)).file (some k1)).file) ∧
    (∀ file : JsonFile Video,
      (Old.deleteVideo e1 file (some k1)).file =
        .content ((readFromFile file).filter (fun r => r.id != k1)) ∧
      (Old.deleteVideo e2 (Old.deleteVideo e1 file (some k1)).file (some k1)).file =
        (Old.deleteVideo e1 file (some k1)).file ∧
      (Old.deleteVideo e2 (Old.deleteVideo e1 file (some k1)).file (some k2)).file =
        (Old.deleteVideo e2 (Old.deleteVideo e1 file (some k2)).file (some k1)).file) ∧
    (∀ file : JsonFile HeroPhoto,
      (Old.deleteHeroPhoto e1 file (some k1)).file =
        .content ((readFromFile file).filter (fun r => r.id != k1)) ∧
      (Old.deleteHeroPhoto e2 (Old.deleteHeroPhoto e1 file (some k1)).file (some k1)).file =
        (Old.deleteHeroPhoto e1 file (some k1)).file ∧
      (Old.deleteHeroPhoto e2 (Old.deleteHeroPhoto e1 file (some k1)).file (some k2)).file =
        (Old.deleteHeroPhoto e2 (Old.deleteHeroPhoto e1 file (some k2)).file (some k1)).file) :=
  ⟨fun file => delete_algebra (fun (r : Message) => r.id) Old.deleteMessage
      (fun env f k hw _ => deleteMessage_file env f k hw) e1 e2 k1 k2 h1 h2 file,
   fun file => delete_algebra (fun (r : Project) => r.id) Old.deleteProject
      (fun env f k hw hu => deleteProject_file env f k hw hu) e1 e2 k1 k2 h1 h2 file,
   fun file => delete_algebra (fun (r : Video) => r.id) Old.deleteVideo
      (fun env f k hw _ => deleteVideo_file env f k hw) e1 e2 k1 k2 h1 h2 file,
   fun file => delete_algebra (fun (r : HeroPhoto) => r.id) Old.deleteHeroPhoto
      (fun env f k hw hu => deleteHeroPhoto_file env f k hw hu) e1 e2 k1 k2 h1 h2 file⟩

/-- Witness for C29: messages 3, 5, 3, 7 with id 3 deleted leave 5, 7. -/
theorem delete_is_filter_witness :
    (Old.deleteMessage ⟨1, [], [], true, false, true⟩
      (.content [⟨3, none, none, none, none, false⟩, ⟨5, none, none, none, none, true⟩,
        ⟨3, none, none, none, none, true⟩, ⟨7, none, none, none, none, false⟩])
      (some 3)).file =
      .content [⟨5, none, none, none, none, true⟩, ⟨7, none, none, none, none, false⟩] :=
  ((delete_is_filter ⟨1, [], [], true, false, true⟩ ⟨2, [], [], true, false, true⟩ 3 5
    ⟨rfl, rfl⟩ ⟨rfl, rfl⟩).1
    (.content [⟨3, none, none, none, none, false⟩, ⟨5, none, none, none, none, true⟩,
      ⟨3, none, none, none, none, true⟩, ⟨7, none, none, none, none, false⟩])).1.trans
    (by decide)

/-! ## The two list orderings -/

theorem orderThenId_of_unused (oa ob : Option Int) (ia ib : Int)
    (ha : oa = some 0 ∨ oa = none) (hb : ob = some 0 ∨ ob = none) :
    orderThenId oa ia ob ib = ib - ia := by
  rcases ha with ha | ha <;> rcases hb with hb | hb <;> subst ha hb <;> rfl

theorem orderedInsert_cmp_congr {α : Type} (c1 c2 : α → α → Int) (a : α) (m : List α)
    (h : ∀ b ∈ m, c1 a b = c2 a b) :
    m.orderedInsert (fun x y => c1 x y ≤ 0) a = m.orderedInsert (fun x y => c2 x y ≤ 0) a := by
  induction m with
  | nil => rfl
  | cons b m ih =>
    have hb := h b (List.mem_cons_self _ _)
    have ih1 := ih (fun y hy => h y (List.mem_cons_of_mem _ hy))
    simp only [List.orderedInsert, hb, ih1]

theorem jsSort_cmp_congr {α : Type} (c1 c2 : α → α → Int) (l : List α)
    (h : ∀ a ∈ l, ∀ b ∈ l, c1 a b = c2 a b) : jsSort c1 l = jsSort c2 l := by
  induction l with
  | nil => rfl
  | cons a l ih =>
    have ih1 := ih (fun x hx y hy => h x (List.mem_cons_of_mem _ hx) y (List.mem_cons_of_mem _ hy))
    unfold jsSort at ih1 ⊢
    simp only [List.insertionSort]
    rw [ih1]
    apply orderedInsert_cmp_congr
    intro b hb
    have hb1 : b ∈ l := (List.perm_insertionSort _ l).mem_iff.mp hb
    exact h a (List.mem_cons_self _ _) b (List.mem_cons_of_mem _ hb1)

theorem jsSort_unused_order {α : Type} (ord : α → Option Int) (key : α → Int) (l : List α)
    (h : ∀ r ∈ l, ord r = some 0 ∨ ord r = none) :
    jsSort (fun a b => orderThenId (ord a) (key a) (ord b) (key b)) l =
      jsSort (fun a b => key b - key a) l :=
  jsSort_cmp_congr _ _ l (fun a ha b hb => orderThenId_of_unused _ _ _ _ (h a ha) (h b hb))

/-- C30: for every list of records in which every record's order is 0 or absent, sorting
with the comparator of server-old.js (`(a.order||0)-(b.order||0) || b.id-a.id`) and with
the fallback comparator of server.js (`b.id-a.id`) give the same sequence, and that
sequence is in non-increasing id order; so on such a file the list route of server-old.js
and the local fallback of server.js answer with the same array. -/
theorem list_orderings_agree :
    (∀ l : List Project, (∀ r ∈ l, r.order = some 0 ∨ r.order = none) →
      jsSort (fun a b => orderThenId a.order a.id b.order b.id) l =
        jsSort (fun a b => b.id - a.id) l ∧
      (jsSort (fun a b => b.id - a.id) l).Pairwise (fun a b => b.id ≤ a.id)) ∧
    (∀ l : List Video, (∀ r ∈ l, r.order = some 0 ∨ r.order = none) →
      jsSort (fun a b => orderThenId a.order a.id b.order b.id) l =
        jsSort (fun a b => b.id - a.id) l ∧
      (jsSort (fun a b => b.id - a.id) l).Pairwise (fun a b => b.id ≤ a.id)) ∧
    (∀ l : List HeroPhoto, (∀ r ∈ l, r.order = some 0 ∨ r.order = none) →
      jsSort (fun a b => orderThenId a.order a.id b.order b.id) l =
        jsSort (fun a b => b.id - a.id) l ∧
      (jsSort (fun a b => b.id - a.id) l).Pairwise (fun a b => b.id ≤ a.id)) ∧
    (∀ (file : JsonFile Project) (e : JSStr),
      (∀ r ∈ readFromFile file, r.order = some 0 ∨ r.order = none) →
      (Old.listProjects file).body = (Supa.getProjects ⟨none, some e⟩ file).body) ∧
    (∀ (file : JsonFile Video) (e : JSStr),
      (∀ r ∈ readFromFile file, r.order = some 0 ∨ r.order = none) →
      (Old.listVideos file).body = (Supa.getVideos ⟨none, some e⟩ file).body) ∧
    (∀ (file : JsonFile HeroPhoto) (e : JSStr),
      (∀ r ∈ readFromFile file, r.order = some 0 ∨ r.order = none) →
      (Old.listHeroPhotos file).body = (Supa.getHeroPhotos ⟨none, some e⟩ file).body) :=
  ⟨fun l h => ⟨jsSort_unused_order (fun (r : Project) => r.order) (fun r => r.id) l h,
      jsSort_idDesc_sorted (fun (r : Project) => r.id) l⟩,
   fun l h => ⟨jsSort_unused_order (fun (r : Video) => r.order) (fun r => r.id) l h,
      jsSort_idDesc_sorted (fun (r : Video) => r.id) l⟩,
   fun l h => ⟨jsSort_unused_order (fun (r : HeroPhoto) => r.order) (fun r => r.id) l h,
      jsSort_idDesc_sorted (fun (r : HeroPhoto) => r.id) l⟩,
   fun _ _ h => jsSort_unused_order (fun (r : Project) => r.order) (fun r => r.id) _ h,
   fun _ _ h => jsSort_unused_order (fun (r : Video) => r.order) (fun r => r.id) _ h,
   fun _ _ h => jsSort_unused_order (fun (r : HeroPhoto) => r.order) (fun r => r.id) _ h⟩

/-- Witness for C30: projects 3, 9, 5 with order 0, absent, 0 come out as 9, 5, 3 under
both comparators. -/
theorem list_orderings_agree_witness :
    jsSort (fun (a b : Project) => orderThenId a.order a.id b.order b.id)
      [⟨3, none, none, none, none, none, some 0⟩, ⟨9, none, none, none, none, none, none⟩,
       ⟨5, none, none, none, none, none, some 0⟩] =
      jsSort (fun a b => b.id - a.id)
        [⟨3, none, none, none, none, none, some 0⟩, ⟨9, none, none, none, none, none, none⟩,
         ⟨5, none, none, none, none, none, some 0⟩] ∧
    jsSort (fun (a b : Project) => b.id - a.id)
      [⟨3, none, none, none, none, none, some 0⟩, ⟨9, none, none, none, none, none, none⟩,
       ⟨5, none, none, none, none, none, some 0⟩] =
      [⟨9, none, none, none, none, none, none⟩, ⟨5, none, none, none, none, none, some 0⟩,
       ⟨3, none, none, none, none, none, some 0⟩] :=
  ⟨(list_orderings_agree.1
      [⟨3, none, none, none, none, none, some 0⟩, ⟨9, none, none, none, none, none, none⟩,
       ⟨5, none, none, none, none, none, some 0⟩] (by decide)).1, by decide⟩

end FluxAman
